import Mathlib

/-! # Reconciliation core of the OpenStack cluster provider

A shallow embedding of the network, subnet, security-group and load-balancer
reconcilers (`api/v1alpha2/types.go`, `pkg/cloud/services/networking`,
`pkg/cloud/services/loadbalancer`).  Go strings are `String`, Go `int` is
`Int`, a Go pointer that may be nil is an `Option`, and a Go `error` result is
an `Option String` (or an `Except String`).  The cloud backend is a record of
operations over an explicit backend state; every call the reconcilers issue is
appended to a call trace.
-/

namespace CAPO

/-! ## Data model (`api/v1alpha2/types.go`) -/

/-- Subnet record of the cluster status. -/
structure Subnet where
  Name : String := ""
  ID : String := ""
  CIDR : String := ""
deriving DecidableEq, Repr

/-- Router record of the cluster status. -/
structure Router where
  Name : String := ""
  ID : String := ""
deriving DecidableEq, Repr

/-- LoadBalancer record of the cluster status. -/
structure LoadBalancer where
  Name : String := ""
  ID : String := ""
  IP : String := ""
  InternalIP : String := ""
deriving DecidableEq, Repr

/-- Network record of the cluster status; the three pointers are optional. -/
structure Network where
  Name : String := ""
  ID : String := ""
  Subnet : Option Subnet := none
  Router : Option Router := none
  APIServerLoadBalancer : Option LoadBalancer := none
deriving DecidableEq, Repr

/-- SecurityGroupRule of the API types. -/
structure SecurityGroupRule where
  ID : String := ""
  Direction : String := ""
  EtherType : String := ""
  SecurityGroupID : String := ""
  PortRangeMin : Int := 0
  PortRangeMax : Int := 0
  Protocol : String := ""
  RemoteGroupID : String := ""
  RemoteIPPrefix : String := ""
deriving DecidableEq, Repr

/-- SecurityGroup of the API types. -/
structure SecurityGroup where
  Name : String := ""
  ID : String := ""
  Rules : List SecurityGroupRule := []
deriving DecidableEq, Repr

/-- The method `SecurityGroupRule.Equal`: a conjunction of seven field
comparisons; `ID` and `SecurityGroupID` are not compared. -/
def SecurityGroupRule.Equal (r x : SecurityGroupRule) : Bool :=
  r.Direction == x.Direction &&
  r.EtherType == x.EtherType &&
  r.PortRangeMin == x.PortRangeMin &&
  r.PortRangeMax == x.PortRangeMax &&
  r.Protocol == x.Protocol &&
  r.RemoteGroupID == x.RemoteGroupID &&
  r.RemoteIPPrefix == x.RemoteIPPrefix

/-! ## Security-group matching (`networking/securitygroups.go`) -/

/-- The copy `r := desiredRule` followed by the replacement of a `"self"`
remote group by the observed group id (lines 207-210, 240-244, 270-274). -/
def resolveSelf (desiredRule : SecurityGroupRule) (observedID : String) : SecurityGroupRule :=
  if desiredRule.RemoteGroupID == "self" then
    { desiredRule with RemoteGroupID := observedID }
  else desiredRule

/-- The inner loop of `matchGroups` (lines 211-217): scan the observed rules
and stop at the first one that is `Equal` to `r`. -/
def ruleMatched (r : SecurityGroupRule) : List SecurityGroupRule → Bool
  | [] => false
  | observedRule :: rest =>
    if observedRule.Equal r then true else ruleMatched r rest

/-- The outer loop of `matchGroups` (lines 206-222): every desired rule, with
`"self"` resolved, has to be matched; the first unmatched rule returns false. -/
def matchRules (observed : SecurityGroup) : List SecurityGroupRule → Bool
  | [] => true
  | desiredRule :: rest =>
    if !(ruleMatched (resolveSelf desiredRule observed.ID) observed.Rules) then false
    else matchRules observed rest

/-- The function `matchGroups`: the length guard, then the nested loops. -/
def matchGroups (desired observed : SecurityGroup) : Bool :=
  if desired.Rules.length ≠ observed.Rules.length then false
  else matchRules observed desired.Rules

/-! ## The cloud backend

The gophercloud client is outside the repository.  Its records are reduced to
the fields the reconcilers read, its requests to the fields they set. -/

/-- The record `networks.Network`. -/
structure OSNetwork where
  ID : String := ""
  Name : String := ""
deriving DecidableEq, Repr

/-- The record `subnets.Subnet`. -/
structure OSSubnet where
  ID : String := ""
  Name : String := ""
  CIDR : String := ""
  NetworkID : String := ""
deriving DecidableEq, Repr

/-- The record `rules.SecGroupRule`. -/
structure OSSecGroupRule where
  ID : String := ""
  Direction : String := ""
  EtherType : String := ""
  SecGroupID : String := ""
  PortRangeMin : Int := 0
  PortRangeMax : Int := 0
  Protocol : String := ""
  RemoteGroupID : String := ""
  RemoteIPPrefix : String := ""
deriving DecidableEq, Repr

/-- The record `groups.SecGroup`. -/
structure OSSecGroup where
  ID : String := ""
  Name : String := ""
  Rules : List OSSecGroupRule := []
deriving DecidableEq, Repr

/-- The record `loadbalancers.LoadBalancer`. -/
structure OSLoadBalancer where
  ID : String := ""
  Name : String := ""
  ProvisioningStatus : String := ""
  VipSubnetID : String := ""
  VipPortID : String := ""
  VipAddress : String := ""
deriving DecidableEq, Repr

/-- The record `floatingips.FloatingIP`. -/
structure OSFloatingIP where
  ID : String := ""
  FloatingIP : String := ""
  FloatingNetworkID : String := ""
  PortID : String := ""
  Status : String := ""
deriving DecidableEq, Repr

/-- The record `listeners.Listener`. -/
structure OSListener where
  ID : String := ""
  Name : String := ""
  Protocol : String := ""
  ProtocolPort : Int := 0
  LoadbalancerID : String := ""
deriving DecidableEq, Repr

/-- The record `pools.Pool`. -/
structure OSPool where
  ID : String := ""
  Name : String := ""
  Protocol : String := ""
  LBMethod : String := ""
  ListenerID : String := ""
  LoadbalancerID : String := ""
  MonitorID : String := ""
deriving DecidableEq, Repr

/-- The record `monitors.Monitor`. -/
structure OSMonitor where
  ID : String := ""
  Name : String := ""
  PoolID : String := ""
  MonitorType : String := ""
  Delay : Int := 0
  Timeout : Int := 0
  MaxRetries : Int := 0
deriving DecidableEq, Repr

/-- The record `pools.Member`. -/
structure OSMember where
  ID : String := ""
  Name : String := ""
  Address : String := ""
  ProtocolPort : Int := 0
  SubnetID : String := ""
  PoolID : String := ""
deriving DecidableEq, Repr

/-- The request body `createOpts` of `network.go` (lines 30-34). -/
structure NetworkCreateOpts where
  AdminStateUp : Option Bool := none
  Name : String := ""
  PortSecurityEnabled : Option Bool := none
deriving DecidableEq, Repr

/-- The request `subnets.CreateOpts`. -/
structure SubnetCreateOpts where
  NetworkID : String := ""
  Name : String := ""
  IPVersion : Int := 0
  CIDR : String := ""
  DNSNameservers : List String := []
deriving DecidableEq, Repr

/-- The request `groups.CreateOpts`. -/
structure GroupCreateOpts where
  Name : String := ""
  Description : String := ""
deriving DecidableEq, Repr

/-- The request `rules.CreateOpts`. -/
structure RuleCreateOpts where
  Direction : String := ""
  PortRangeMin : Int := 0
  PortRangeMax : Int := 0
  Protocol : String := ""
  EtherType : String := ""
  RemoteGroupID : String := ""
  RemoteIPPrefix : String := ""
  SecGroupID : String := ""
deriving DecidableEq, Repr

/-- The request `loadbalancers.CreateOpts`. -/
structure LoadBalancerCreateOpts where
  Name : String := ""
  VipSubnetID : String := ""
deriving DecidableEq, Repr

/-- The request `floatingips.CreateOpts`. -/
structure FloatingIPCreateOpts where
  FloatingIP : String := ""
  FloatingNetworkID : String := ""
deriving DecidableEq, Repr

/-- The request `listeners.CreateOpts`. -/
structure ListenerCreateOpts where
  Name : String := ""
  Protocol : String := ""
  ProtocolPort : Int := 0
  LoadbalancerID : String := ""
deriving DecidableEq, Repr

/-- The request `pools.CreateOpts`. -/
structure PoolCreateOpts where
  Name : String := ""
  Protocol : String := ""
  LBMethod : String := ""
  ListenerID : String := ""
deriving DecidableEq, Repr

/-- The request `monitors.CreateOpts`. -/
structure MonitorCreateOpts where
  Name : String := ""
  PoolID : String := ""
  MonitorType : String := ""
  Delay : Int := 0
  Timeout : Int := 0
  MaxRetries : Int := 0
deriving DecidableEq, Repr

/-- The request `pools.CreateMemberOpts`. -/
structure MemberCreateOpts where
  Name : String := ""
  ProtocolPort : Int := 0
  Address : String := ""
  SubnetID : String := ""
deriving DecidableEq, Repr

/-- One request to the backend, as issued through the gophercloud client. -/
inductive Call where
  | networksList (name : String)
  | networksCreate (opts : NetworkCreateOpts)
  | tagsReplaceAll (resourceType resourceID : String) (tags : List String)
  | subnetsList (networkID cidr : String)
  | subnetsCreate (opts : SubnetCreateOpts)
  | groupsList (name : String)
  | groupsCreate (opts : GroupCreateOpts)
  | rulesCreate (opts : RuleCreateOpts)
  | rulesDelete (id : String)
  | loadbalancersList (name : String)
  | loadbalancersCreate (opts : LoadBalancerCreateOpts)
  | loadbalancersGet (id : String)
  | loadbalancersDelete (id : String) (cascade : Bool)
  | floatingipsList (floatingIP : String)
  | floatingipsCreate (opts : FloatingIPCreateOpts)
  | floatingipsUpdate (id portID : String)
  | floatingipsGet (id : String)
  | listenersList (name loadbalancerID : String)
  | listenersCreate (opts : ListenerCreateOpts)
  | listenersGet (id : String)
  | listenersDelete (id : String)
  | poolsList (name loadbalancerID : String)
  | poolsCreate (opts : PoolCreateOpts)
  | poolsDelete (id : String)
  | monitorsList (name : String)
  | monitorsCreate (opts : MonitorCreateOpts)
  | monitorsDelete (id : String)
  | membersList (poolID name : String)
  | membersCreate (poolID : String) (opts : MemberCreateOpts)
  | membersDelete (poolID memberID : String)
deriving DecidableEq, Repr

/-- The type of the value a successful request extracts. -/
def Call.Res : Call → Type
  | .networksList _ => List OSNetwork
  | .networksCreate _ => OSNetwork
  | .tagsReplaceAll _ _ _ => List String
  | .subnetsList _ _ => List OSSubnet
  | .subnetsCreate _ => OSSubnet
  | .groupsList _ => List OSSecGroup
  | .groupsCreate _ => OSSecGroup
  | .rulesCreate _ => OSSecGroupRule
  | .rulesDelete _ => Unit
  | .loadbalancersList _ => List OSLoadBalancer
  | .loadbalancersCreate _ => OSLoadBalancer
  | .loadbalancersGet _ => OSLoadBalancer
  | .loadbalancersDelete _ _ => Unit
  | .floatingipsList _ => List OSFloatingIP
  | .floatingipsCreate _ => OSFloatingIP
  | .floatingipsUpdate _ _ => OSFloatingIP
  | .floatingipsGet _ => OSFloatingIP
  | .listenersList _ _ => List OSListener
  | .listenersCreate _ => OSListener
  | .listenersGet _ => OSListener
  | .listenersDelete _ => Unit
  | .poolsList _ _ => List OSPool
  | .poolsCreate _ => OSPool
  | .poolsDelete _ => Unit
  | .monitorsList _ => List OSMonitor
  | .monitorsCreate _ => OSMonitor
  | .monitorsDelete _ => Unit
  | .membersList _ _ => List OSMember
  | .membersCreate _ _ => OSMember
  | .membersDelete _ _ => Unit

/-- Whether a request changes backend resources (create, update, delete, tag
replacement) rather than reading them. -/
def Call.mutating : Call → Bool
  | .networksList _ | .subnetsList _ _ | .groupsList _ | .loadbalancersList _
  | .loadbalancersGet _ | .floatingipsList _ | .floatingipsGet _ | .listenersList _ _
  | .listenersGet _ | .poolsList _ _ | .monitorsList _ | .membersList _ _ => false
  | _ => true

/-- A backend over the state type `σ`: each request yields the extracted value
or an error, and the next backend state. -/
structure Backend (σ : Type) where
  exec : σ → (c : Call) → Except String c.Res × σ

/-- The backend state together with the trace of the requests issued so far
(oldest first). -/
structure World (σ : Type) where
  st : σ
  trace : List Call

/-- Issue one request: run it on the backend and record it in the trace. -/
def call {σ : Type} (b : Backend σ) (w : World σ) (c : Call) : Except String c.Res × World σ :=
  ((b.exec w.st c).1, { st := (b.exec w.st c).2, trace := w.trace ++ [c] })

/-! ## Cluster objects

The declaration of `OpenStackCluster` is not among the sources; the records
below hold the fields the reconcilers read and write. -/

/-- Modelled from the spec: the `OpenStackCluster` spec is declared outside the
sources; these are the configuration fields the reconcilers read (section 6,
configuration consumed). -/
structure OpenStackClusterSpec where
  ManagedSecurityGroups : Bool := false
  DisablePortSecurity : Bool := false
  NodeCIDR : String := ""
  DNSNameservers : List String := []
  ExternalNetworkID : String := ""
  APIServerLoadBalancerFloatingIP : String := ""
  APIServerLoadBalancerPort : Int := 0
  APIServerLoadBalancerAdditionalPorts : List Int := []
  UseOctavia : Bool := false
deriving DecidableEq, Repr

/-- Modelled from the spec: the `OpenStackCluster` status is declared outside
the sources; these are the status fields the reconcilers write (section 6,
produced interface). -/
structure OpenStackClusterStatus where
  Network : Option Network := none
  ControlPlaneSecurityGroup : Option SecurityGroup := none
  GlobalSecurityGroup : Option SecurityGroup := none
deriving DecidableEq, Repr

/-- The cluster object handed to every reconciler by pointer. -/
structure OpenStackCluster where
  Spec : OpenStackClusterSpec := {}
  Status : OpenStackClusterStatus := {}
deriving DecidableEq, Repr

/-- The result of a reconciler: the returned `error` (none for nil), the
cluster object as left behind, and the backend with its trace. -/
structure Outcome (σ : Type) where
  err : Option String
  cluster : OpenStackCluster
  world : World σ

/-! ## Network and subnet (`networking/network.go`)

The constant `networkPrefix` is declared outside the sources and is taken as
a parameter. -/

/-- The function `getNetworkByName` (lines 160-182). -/
def getNetworkByName {σ : Type} (b : Backend σ) (networkName : String) (w : World σ) :
    Except String OSNetwork × World σ :=
  match call b w (.networksList networkName) with
  | (.error e, w1) => (.error e, w1)
  | (.ok allNetworks, w1) =>
    match allNetworks with
    | [] => (.ok {}, w1)
    | [n] => (.ok n, w1)
    | _ :: _ :: _ => (.error "too many resources", w1)

/-- The tags of lines 76-79 and 148-151. -/
def ownershipTags (clusterName : String) : List String :=
  ["cluster-api-provider-openstack", clusterName]

/-- The function `ReconcileNetwork` (lines 40-89). -/
def ReconcileNetwork {σ : Type} (b : Backend σ) (networkPrefix clusterName : String)
    (openStackCluster : OpenStackCluster) (w : World σ) : Outcome σ :=
  let networkName := networkPrefix ++ "-cluster-" ++ clusterName
  match getNetworkByName b networkName w with
  | (.error e, w1) => ⟨some e, openStackCluster, w1⟩
  | (.ok res, w1) =>
    if res.ID != "" then
      ⟨none, { openStackCluster with Status := { openStackCluster.Status with
          Network := some { ID := res.ID, Name := res.Name } } }, w1⟩
    else
      let portSecurityEnabled : Option Bool :=
        if openStackCluster.Spec.DisablePortSecurity then some false else some true
      let opts : NetworkCreateOpts :=
        { AdminStateUp := some true, Name := networkName, PortSecurityEnabled := portSecurityEnabled }
      match call b w1 (.networksCreate opts) with
      | (.error e, w2) => ⟨some e, openStackCluster, w2⟩
      | (.ok network, w2) =>
        match call b w2 (.tagsReplaceAll "networks" network.ID (ownershipTags clusterName)) with
        | (.error e, w3) => ⟨some e, openStackCluster, w3⟩
        | (.ok _, w3) =>
          ⟨none, { openStackCluster with Status := { openStackCluster.Status with
              Network := some { ID := network.ID, Name := network.Name } } }, w3⟩

/-- The error of line 117. -/
def tooManySubnets (n : Nat) (cidr : String) : String :=
  "found more than 1 network with the expected name (" ++ toString n ++ ") and CIDR (" ++ cidr ++
    "), which should not be able to exist in OpenStack"

/-- The tail of `ReconcileSubnet` (lines 147-157): replace the tags of the
observed subnet, then record it under the status network `net`. -/
def tagAndRecordSubnet {σ : Type} (b : Backend σ) (clusterName : String)
    (openStackCluster : OpenStackCluster) (net : Network) (observedSubnet : Subnet)
    (w : World σ) : Outcome σ :=
  match call b w (.tagsReplaceAll "subnets" observedSubnet.ID (ownershipTags clusterName)) with
  | (.error e, w1) => ⟨some e, openStackCluster, w1⟩
  | (.ok _, w1) =>
    ⟨none, { openStackCluster with Status := { openStackCluster.Status with
        Network := some { net with Subnet := some observedSubnet } } }, w1⟩

/-- The function `ReconcileSubnet` (lines 91-158). -/
def ReconcileSubnet {σ : Type} (b : Backend σ) (networkPrefix clusterName : String)
    (openStackCluster : OpenStackCluster) (w : World σ) : Outcome σ :=
  match openStackCluster.Status.Network with
  | none => ⟨none, openStackCluster, w⟩
  | some net =>
    if net.ID == "" then ⟨none, openStackCluster, w⟩
    else
      let subnetName := networkPrefix ++ "-cluster-" ++ clusterName
      match call b w (.subnetsList net.ID openStackCluster.Spec.NodeCIDR) with
      | (.error e, w1) => ⟨some e, openStackCluster, w1⟩
      | (.ok subnetList, w1) =>
        if subnetList.length > 1 then
          ⟨some (tooManySubnets subnetList.length openStackCluster.Spec.NodeCIDR), openStackCluster, w1⟩
        else if subnetList.length == 0 then
          let opts : SubnetCreateOpts :=
            { NetworkID := net.ID, Name := subnetName, IPVersion := 4,
              CIDR := openStackCluster.Spec.NodeCIDR,
              DNSNameservers := openStackCluster.Spec.DNSNameservers }
          match call b w1 (.subnetsCreate opts) with
          | (.error e, w2) => ⟨some e, openStackCluster, w2⟩
          | (.ok newSubnet, w2) =>
            tagAndRecordSubnet b clusterName openStackCluster net
              { ID := newSubnet.ID, Name := newSubnet.Name, CIDR := newSubnet.CIDR } w2
        else if subnetList.length == 1 then
          let s := subnetList.headD {}
          tagAndRecordSubnet b clusterName openStackCluster net
            { ID := s.ID, Name := s.Name, CIDR := s.CIDR } w1
        else
          tagAndRecordSubnet b clusterName openStackCluster net {} w1

/-! ## Security groups (`networking/securitygroups.go`) -/

/-- The constant `secGroupPrefix`. -/
def secGroupPrefix : String := "k8s"

/-- The constant `controlPlaneSuffix`. -/
def controlPlaneSuffix : String := "controlplane"

/-- The constant `globalSuffix`. -/
def globalSuffix : String := "all"

/-- The variable `defaultRules` (lines 34-51). -/
def defaultRules : List SecurityGroupRule :=
  [ { Direction := "egress", EtherType := "IPv4", PortRangeMin := 0, PortRangeMax := 0,
      Protocol := "", RemoteIPPrefix := "" },
    { Direction := "egress", EtherType := "IPv6", PortRangeMin := 0, PortRangeMax := 0,
      Protocol := "", RemoteIPPrefix := "" } ]

/-- The function `generateControlPlaneGroup` (lines 129-158). -/
def generateControlPlaneGroup (clusterName : String) : SecurityGroup :=
  let secGroupName :=
    secGroupPrefix ++ "-cluster-" ++ clusterName ++ "-secgroup-" ++ controlPlaneSuffix
  { Name := secGroupName
    Rules :=
      [ { Direction := "ingress", EtherType := "IPv4", PortRangeMin := 443, PortRangeMax := 443,
          Protocol := "tcp", RemoteIPPrefix := "0.0.0.0/0" },
        { Direction := "ingress", EtherType := "IPv4", PortRangeMin := 22, PortRangeMax := 22,
          Protocol := "tcp", RemoteIPPrefix := "0.0.0.0/0" } ] ++ defaultRules }

/-- The function `generateGlobalGroup` (lines 160-196). -/
def generateGlobalGroup (clusterName : String) : SecurityGroup :=
  let secGroupName :=
    secGroupPrefix ++ "-cluster-" ++ clusterName ++ "-secgroup-" ++ globalSuffix
  { Name := secGroupName
    Rules :=
      [ { Direction := "ingress", EtherType := "IPv4", PortRangeMin := 1, PortRangeMax := 65535,
          Protocol := "tcp", RemoteGroupID := "self" },
        { Direction := "ingress", EtherType := "IPv4", PortRangeMin := 1, PortRangeMax := 65535,
          Protocol := "udp", RemoteGroupID := "self" },
        { Direction := "ingress", EtherType := "IPv4", PortRangeMin := 0, PortRangeMax := 0,
          Protocol := "icmp", RemoteGroupID := "self" } ] ++ defaultRules }

/-- The function `convertOSSecGroupRuleToConfigSecGroupRule` (lines 347-359). -/
def convertOSSecGroupRuleToConfigSecGroupRule (osSecGroupRule : OSSecGroupRule) :
    SecurityGroupRule :=
  { ID := osSecGroupRule.ID
    Direction := osSecGroupRule.Direction
    EtherType := osSecGroupRule.EtherType
    SecurityGroupID := osSecGroupRule.SecGroupID
    PortRangeMin := osSecGroupRule.PortRangeMin
    PortRangeMax := osSecGroupRule.PortRangeMax
    Protocol := osSecGroupRule.Protocol
    RemoteGroupID := osSecGroupRule.RemoteGroupID
    RemoteIPPrefix := osSecGroupRule.RemoteIPPrefix }

/-- The function `convertOSSecGroupToConfigSecGroup` (lines 335-345). -/
def convertOSSecGroupToConfigSecGroup (osSecGroup : OSSecGroup) : SecurityGroup :=
  { ID := osSecGroup.ID
    Name := osSecGroup.Name
    Rules := osSecGroup.Rules.map convertOSSecGroupRuleToConfigSecGroupRule }

/-- The function `getSecurityGroupByName` (lines 286-310); the pair is the
returned group pointer (never nil) and the returned error. -/
def getSecurityGroupByName {σ : Type} (b : Backend σ) (name : String) (w : World σ) :
    (SecurityGroup × Option String) × World σ :=
  match call b w (.groupsList name) with
  | (.error e, w1) => (({}, some e), w1)
  | (.ok allGroups, w1) =>
    match allGroups with
    | [] => (({}, none), w1)
    | [g] => ((convertOSSecGroupToConfigSecGroup g, none), w1)
    | _ :: _ :: _ => (({}, some ("more than one security group found named: " ++ name)), w1)

/-- The request built by `createRule` (lines 317-326). -/
def ruleCreateOpts (r : SecurityGroupRule) : RuleCreateOpts :=
  { Direction := r.Direction
    PortRangeMin := r.PortRangeMin
    PortRangeMax := r.PortRangeMax
    Protocol := r.Protocol
    EtherType := r.EtherType
    RemoteGroupID := r.RemoteGroupID
    RemoteIPPrefix := r.RemoteIPPrefix
    SecGroupID := r.SecurityGroupID }

/-- The function `createRule` (lines 312-333). -/
def createRule {σ : Type} (b : Backend σ) (r : SecurityGroupRule) (w : World σ) :
    (SecurityGroupRule × Option String) × World σ :=
  match call b w (.rulesCreate (ruleCreateOpts r)) with
  | (.error e, w1) => (({}, some e), w1)
  | (.ok rule, w1) => ((convertOSSecGroupRuleToConfigSecGroupRule rule, none), w1)

/-- The rule-creation loop shared by `reconcileGroup` (lines 239-250) and
`createSecGroup` (lines 269-280): `created` holds the rules appended so far. -/
def createRules {σ : Type} (b : Backend σ) (groupID : String) :
    List SecurityGroupRule → List SecurityGroupRule → World σ →
      Except String (List SecurityGroupRule) × World σ
  | [], created, w => (.ok created, w)
  | rule :: rest, created, w =>
    let r := resolveSelf { rule with SecurityGroupID := groupID } groupID
    match createRule b r w with
    | ((_, some e), w1) => (.error e, w1)
    | ((newRule, none), w1) => createRules b groupID rest (created ++ [newRule]) w1

/-- The rule-deletion loop of `reconcileGroup` (lines 230-236). -/
def deleteRules {σ : Type} (b : Backend σ) : List SecurityGroupRule → World σ →
    Option String × World σ
  | [], w => (none, w)
  | rule :: rest, w =>
    match call b w (.rulesDelete rule.ID) with
    | (.error e, w1) => (some e, w1)
    | (.ok _, w1) => deleteRules b rest w1

/-- The function `reconcileGroup` (lines 226-253). -/
def reconcileGroup {σ : Type} (b : Backend σ) (desired observed : SecurityGroup) (w : World σ) :
    (SecurityGroup × Option String) × World σ :=
  match deleteRules b observed.Rules w with
  | (some e, w1) => (({}, some e), w1)
  | (none, w1) =>
    match createRules b observed.ID desired.Rules [] w1 with
    | (.error e, w2) => (({}, some e), w2)
    | (.ok recreatedRules, w2) => (({ observed with Rules := recreatedRules }, none), w2)

/-- The function `createSecGroup` (lines 255-284). -/
def createSecGroup {σ : Type} (b : Backend σ) (group : SecurityGroup) (w : World σ) :
    (SecurityGroup × Option String) × World σ :=
  let createOpts : GroupCreateOpts :=
    { Name := group.Name, Description := "Cluster API managed group" }
  match call b w (.groupsCreate createOpts) with
  | (.error e, w1) => (({}, some e), w1)
  | (.ok g, w1) =>
    let newGroup := convertOSSecGroupToConfigSecGroup g
    match createRules b newGroup.ID group.Rules [] w1 with
    | (.error e, w2) => (({}, some e), w2)
    | (.ok securityGroupRules, w2) => (({ newGroup with Rules := securityGroupRules }, none), w2)

/-- The map literal `desiredSecGroups` (lines 60-63), read at key `k`; a key
outside the literal reads the zero group. -/
def desiredSecGroups (clusterName : String) (k : String) : SecurityGroup :=
  if k == "controlplane" then generateControlPlaneGroup clusterName
  else if k == "global" then generateGlobalGroup clusterName
  else {}

/-- The map `observedSecGroups`: a missing key reads nil. -/
abbrev ObservedMap := String → Option SecurityGroup

/-- The assignment `observedSecGroups[k] = g`. -/
def ObservedMap.set (m : ObservedMap) (k : String) (g : SecurityGroup) : ObservedMap :=
  fun k2 => if k2 == k then some g else m k2

/-- The loop of `ReconcileSecurityGroups` (lines 66-92) over the keys in the
order `keys` in which the map is ranged.  The error of `createSecGroup`
(line 91) is assigned and the iteration ends without reading it. -/
def reconcileSecGroupLoop {σ : Type} (b : Backend σ) (clusterName : String) :
    List String → ObservedMap → World σ → Option String × ObservedMap × World σ
  | [], observedSecGroups, w => (none, observedSecGroups, w)
  | k :: rest, observedSecGroups, w =>
    let desiredSecGroup := desiredSecGroups clusterName k
    match getSecurityGroupByName b desiredSecGroup.Name w with
    | ((g, some e), w1) => (some e, observedSecGroups.set k g, w1)
    | ((g, none), w1) =>
      if g.ID != "" then
        if matchGroups desiredSecGroup g then
          reconcileSecGroupLoop b clusterName rest (observedSecGroups.set k g) w1
        else
          match reconcileGroup b desiredSecGroup g w1 with
          | ((g2, some e), w2) => (some e, observedSecGroups.set k g2, w2)
          | ((g2, none), w2) =>
            reconcileSecGroupLoop b clusterName rest (observedSecGroups.set k g2) w2
      else
        match createSecGroup b desiredSecGroup w1 with
        | ((g2, _), w2) =>
          reconcileSecGroupLoop b clusterName rest (observedSecGroups.set k g2) w2

/-- The function `ReconcileSecurityGroups` (lines 54-98).  Go ranges over the
two-key map in an unspecified order; `keys` is that order. -/
def ReconcileSecurityGroups {σ : Type} (b : Backend σ) (keys : List String)
    (clusterName : String) (openStackCluster : OpenStackCluster) (w : World σ) : Outcome σ :=
  if !openStackCluster.Spec.ManagedSecurityGroups then ⟨none, openStackCluster, w⟩
  else
    match reconcileSecGroupLoop b clusterName keys (fun _ => none) w with
    | (some e, _, w1) => ⟨some e, openStackCluster, w1⟩
    | (none, observedSecGroups, w1) =>
      ⟨none, { openStackCluster with Status := { openStackCluster.Status with
          ControlPlaneSecurityGroup := observedSecGroups "controlplane"
          GlobalSecurityGroup := observedSecGroups "global" } }, w1⟩

/-! ## Load balancer (`loadbalancer/loadbalancer.go`)

The constants `networkPrefix` and `kubeapiLBSuffix` are declared outside the
sources and are taken as parameters. -/

/-- The function `checkIfLbExists` (lines 446-459). -/
def checkIfLbExists {σ : Type} (b : Backend σ) (name : String) (w : World σ) :
    Except String (Option OSLoadBalancer) × World σ :=
  match call b w (.loadbalancersList name) with
  | (.error e, w1) => (.error e, w1)
  | (.ok lbList, w1) =>
    match lbList with
    | [] => (.ok none, w1)
    | lb :: _ => (.ok (some lb), w1)

/-- The function `checkIfFloatingIPExists` (lines 461-474). -/
def checkIfFloatingIPExists {σ : Type} (b : Backend σ) (ip : String) (w : World σ) :
    Except String (Option OSFloatingIP) × World σ :=
  match call b w (.floatingipsList ip) with
  | (.error e, w1) => (.error e, w1)
  | (.ok fpList, w1) =>
    match fpList with
    | [] => (.ok none, w1)
    | fp :: _ => (.ok (some fp), w1)

/-- The function `checkIfListenerExists` (lines 476-489). -/
def checkIfListenerExists {σ : Type} (b : Backend σ) (name : String) (w : World σ) :
    Except String (Option OSListener) × World σ :=
  match call b w (.listenersList name "") with
  | (.error e, w1) => (.error e, w1)
  | (.ok listenerList, w1) =>
    match listenerList with
    | [] => (.ok none, w1)
    | l :: _ => (.ok (some l), w1)

/-- The function `checkIfPoolExists` (lines 491-504). -/
def checkIfPoolExists {σ : Type} (b : Backend σ) (name : String) (w : World σ) :
    Except String (Option OSPool) × World σ :=
  match call b w (.poolsList name "") with
  | (.error e, w1) => (.error e, w1)
  | (.ok poolList, w1) =>
    match poolList with
    | [] => (.ok none, w1)
    | p :: _ => (.ok (some p), w1)

/-- The function `checkIfMonitorExists` (lines 506-519). -/
def checkIfMonitorExists {σ : Type} (b : Backend σ) (name : String) (w : World σ) :
    Except String (Option OSMonitor) × World σ :=
  match call b w (.monitorsList name) with
  | (.error e, w1) => (.error e, w1)
  | (.ok monitorList, w1) =>
    match monitorList with
    | [] => (.ok none, w1)
    | m :: _ => (.ok (some m), w1)

/-- The function `checkIfLbMemberExists` (lines 521-534). -/
def checkIfLbMemberExists {σ : Type} (b : Backend σ) (poolID name : String) (w : World σ) :
    Except String (Option OSMember) × World σ :=
  match call b w (.membersList poolID name) with
  | (.error e, w1) => (.error e, w1)
  | (.ok lbMemberList, w1) =>
    match lbMemberList with
    | [] => (.ok none, w1)
    | m :: _ => (.ok (some m), w1)

/-- The `Steps` field of the variable `backoff` (lines 536-541); the delays
between attempts are not modelled. -/
def backoffSteps : Nat := 10

/-- The error `wait.ErrWaitTimeout` of the apimachinery library. -/
def errWaitTimeout : String := "timed out waiting for the condition"

/-- Modelled from the spec: the library function `wait.ExponentialBackoff`,
which the waits call and which is not among the sources.  Following the
bounded-backoff contract of the wait primitive, the condition is run up to
`steps` times; an error or a true result of the condition ends the wait at
once, and exhausting the steps is `ErrWaitTimeout`. -/
def ExponentialBackoff {σ : Type} (condition : World σ → Except String Bool × World σ) :
    Nat → World σ → Option String × World σ
  | 0, w => (some errWaitTimeout, w)
  | steps + 1, w =>
    match condition w with
    | (.error e, w1) => (some e, w1)
    | (.ok true, w1) => (none, w1)
    | (.ok false, w1) => ExponentialBackoff condition steps w1

/-- The function `waitForLoadBalancer` (lines 544-553). -/
def waitForLoadBalancer {σ : Type} (b : Backend σ) (id target : String) (w : World σ) :
    Option String × World σ :=
  ExponentialBackoff (fun w0 =>
    match call b w0 (.loadbalancersGet id) with
    | (.error e, w1) => (.error e, w1)
    | (.ok lb, w1) => (.ok (lb.ProvisioningStatus == target), w1)) backoffSteps w

/-- The function `waitForFloatingIP` (lines 555-564). -/
def waitForFloatingIP {σ : Type} (b : Backend σ) (id target : String) (w : World σ) :
    Option String × World σ :=
  ExponentialBackoff (fun w0 =>
    match call b w0 (.floatingipsGet id) with
    | (.error e, w1) => (.error e, w1)
    | (.ok fp, w1) => (.ok (fp.Status == target), w1)) backoffSteps w

/-- The function `waitForListener` (lines 566-576). -/
def waitForListener {σ : Type} (b : Backend σ) (id : String) (w : World σ) :
    Option String × World σ :=
  ExponentialBackoff (fun w0 =>
    match call b w0 (.listenersGet id) with
    | (.error e, w1) => (.error e, w1)
    | (.ok _, w1) => (.ok true, w1)) backoffSteps w

/-- The cluster-api `Machine`, reduced to what `util.IsControlPlaneMachine`
(a library function outside the repository) reads from it. -/
structure Machine where
  IsControlPlane : Bool := false
deriving DecidableEq, Repr

/-- The `OpenStackMachine` object, reduced to its name. -/
structure OpenStackMachine where
  Name : String := ""
deriving DecidableEq, Repr

/-- The format `"%s-cluster-%s-%s"` of lines 35, 196, 272 and 401. -/
def loadBalancerNameOf (networkPrefix clusterName kubeapiLBSuffix : String) : String :=
  networkPrefix ++ "-cluster-" ++ clusterName ++ "-" ++ kubeapiLBSuffix

/-- The format `"%s-%d"` of lines 95, 205 and 409. -/
def lbPortObjectsNameOf (loadBalancerName : String) (port : Int) : String :=
  loadBalancerName ++ "-" ++ toString port

/-- The creation of one member (lines 245-266), bracketed by the two waits. -/
def createLbMember {σ : Type} (b : Backend σ) (lbID poolID name : String) (port : Int)
    (ip subnetID : String) (w : World σ) : Option String × World σ :=
  let lbMemberOpts : MemberCreateOpts :=
    { Name := name, ProtocolPort := port, Address := ip, SubnetID := subnetID }
  match waitForLoadBalancer b lbID "ACTIVE" w with
  | (some e, w1) => (some e, w1)
  | (none, w1) =>
    match call b w1 (.membersCreate poolID lbMemberOpts) with
    | (.error e, w2) => (some ("error create lbmember: " ++ e), w2)
    | (.ok _, w2) => waitForLoadBalancer b lbID "ACTIVE" w2

/-- The loop of `ReconcileLoadBalancerMember` over the port list (lines
204-267).  A member found with the address `ip` returns nil from the whole
function (line 225). -/
def reconcileMemberPorts {σ : Type} (b : Backend σ) (loadBalancerName machineName lbID subnetID
    ip : String) : List Int → World σ → Option String × World σ
  | [], w => (none, w)
  | port :: rest, w =>
    let lbPortObjectsName := lbPortObjectsNameOf loadBalancerName port
    let name := lbPortObjectsName ++ "-" ++ machineName
    match checkIfPoolExists b lbPortObjectsName w with
    | (.error e, w1) => (some e, w1)
    | (.ok none, w1) => (some "loadbalancer pool does not exist yet", w1)
    | (.ok (some pool), w1) =>
      match checkIfLbMemberExists b pool.ID name w1 with
      | (.error e, w2) => (some e, w2)
      | (.ok (some lbMember), w2) =>
        if lbMember.Address == ip then (none, w2)
        else
          match waitForLoadBalancer b lbID "ACTIVE" w2 with
          | (some e, w3) => (some e, w3)
          | (none, w3) =>
            match call b w3 (.membersDelete pool.ID lbMember.ID) with
            | (.error e, w4) => (some ("error deleting lbmember: " ++ e), w4)
            | (.ok _, w4) =>
              match waitForLoadBalancer b lbID "ACTIVE" w4 with
              | (some e, w5) => (some e, w5)
              | (none, w5) =>
                match createLbMember b lbID pool.ID name port ip subnetID w5 with
                | (some e, w6) => (some e, w6)
                | (none, w6) =>
                  reconcileMemberPorts b loadBalancerName machineName lbID subnetID ip rest w6
      | (.ok none, w2) =>
        match createLbMember b lbID pool.ID name port ip subnetID w2 with
        | (some e, w3) => (some e, w3)
        | (none, w3) =>
          reconcileMemberPorts b loadBalancerName machineName lbID subnetID ip rest w3

/-- The function `ReconcileLoadBalancerMember` (lines 181-269); the cluster
object is only read. -/
def ReconcileLoadBalancerMember {σ : Type} (b : Backend σ)
    (networkPrefix kubeapiLBSuffix clusterName : String) (machine : Machine)
    (openStackMachine : OpenStackMachine) (openStackCluster : OpenStackCluster) (ip : String)
    (w : World σ) : Option String × World σ :=
  if !machine.IsControlPlane then (none, w)
  else
    match openStackCluster.Status.Network with
    | none => (some "network is not yet available in openStackCluster.Status", w)
    | some net =>
      match net.Subnet with
      | none => (some "network.Subnet is not yet available in openStackCluster.Status", w)
      | some subnet =>
        match net.APIServerLoadBalancer with
        | none =>
          (some "network.APIServerLoadBalancer is not yet available in openStackCluster.Status", w)
        | some lb =>
          let loadBalancerName := loadBalancerNameOf networkPrefix clusterName kubeapiLBSuffix
          let portList := openStackCluster.Spec.APIServerLoadBalancerPort ::
            openStackCluster.Spec.APIServerLoadBalancerAdditionalPorts
          reconcileMemberPorts b loadBalancerName openStackMachine.Name lb.ID subnet.ID ip
            portList w

/-- How a call of a reconciler ends: it returns an outcome, or it panics on
a nil pointer that it dereferences; the backend and trace reached are kept. -/
inductive Run (σ : Type) where
  | returned (out : Outcome σ)
  | panicked (what : String) (world : World σ)

/-- The backend and trace a run ends with. -/
def Run.world {σ : Type} : Run σ → World σ
  | .returned out => out.world
  | .panicked _ w => w

/-- The returned error of a run that returned. -/
def Run.err? {σ : Type} : Run σ → Option (Option String)
  | .returned out => some out.err
  | .panicked _ _ => none

/-- The floating-IP stage of `ReconcileLoadBalancer` (lines 60-89): adopt or
create the floating IP, associate it with the VIP port, wait for ACTIVE. -/
def ensureFloatingIP {σ : Type} (b : Backend σ) (openStackCluster : OpenStackCluster)
    (lb : OSLoadBalancer) (w : World σ) : Except String OSFloatingIP × World σ :=
  let associate (fp : OSFloatingIP) (w0 : World σ) : Except String OSFloatingIP × World σ :=
    match call b w0 (.floatingipsUpdate fp.ID lb.VipPortID) with
    | (.error e, w1) => (.error ("error allocating floating IP: " ++ e), w1)
    | (.ok fp2, w1) =>
      match waitForFloatingIP b fp2.ID "ACTIVE" w1 with
      | (some e, w2) => (.error e, w2)
      | (none, w2) => (.ok fp2, w2)
  match checkIfFloatingIPExists b openStackCluster.Spec.APIServerLoadBalancerFloatingIP w with
  | (.error e, w1) => (.error e, w1)
  | (.ok (some fp), w1) => associate fp w1
  | (.ok none, w1) =>
    let fpCreateOpts : FloatingIPCreateOpts :=
      { FloatingIP := openStackCluster.Spec.APIServerLoadBalancerFloatingIP
        FloatingNetworkID := openStackCluster.Spec.ExternalNetworkID }
    match call b w1 (.floatingipsCreate fpCreateOpts) with
    | (.error e, w2) => (.error ("error allocating floating IP: " ++ e), w2)
    | (.ok fp, w2) => associate fp w2

/-- The request `listenerCreateOpts` of lines 103-108. -/
def listenerCreateOpts (lbID lbPortObjectsName : String) (port : Int) : ListenerCreateOpts :=
  { Name := lbPortObjectsName, Protocol := "TCP", ProtocolPort := port, LoadbalancerID := lbID }

/-- The request `poolCreateOpts` of lines 130-135; `pools.LBMethodRoundRobin`
is the string `ROUND_ROBIN`. -/
def poolCreateOpts (lbPortObjectsName listenerID : String) : PoolCreateOpts :=
  { Name := lbPortObjectsName, Protocol := "TCP", LBMethod := "ROUND_ROBIN",
    ListenerID := listenerID }

/-- The request `monitorCreateOpts` of lines 153-160. -/
def monitorCreateOpts (lbPortObjectsName poolID : String) : MonitorCreateOpts :=
  { Name := lbPortObjectsName, PoolID := poolID, MonitorType := "TCP", Delay := 30,
    Timeout := 5, MaxRetries := 3 }

/-- The listener stage of one port (lines 97-121). -/
def ensureListener {σ : Type} (b : Backend σ) (lbID lbPortObjectsName : String) (port : Int)
    (w : World σ) : Except String OSListener × World σ :=
  match checkIfListenerExists b lbPortObjectsName w with
  | (.error e, w1) => (.error e, w1)
  | (.ok (some listener), w1) => (.ok listener, w1)
  | (.ok none, w1) =>
    match call b w1 (.listenersCreate (listenerCreateOpts lbID lbPortObjectsName port)) with
    | (.error e, w2) => (.error ("error creating listener: " ++ e), w2)
    | (.ok listener, w2) =>
      match waitForLoadBalancer b lbID "ACTIVE" w2 with
      | (some e, w3) => (.error e, w3)
      | (none, w3) =>
        match waitForListener b listener.ID w3 with
        | (some e, w4) => (.error e, w4)
        | (none, w4) => (.ok listener, w4)

/-- The pool stage of one port (lines 123-144). -/
def ensurePool {σ : Type} (b : Backend σ) (lbID lbPortObjectsName listenerID : String)
    (w : World σ) : Except String OSPool × World σ :=
  match checkIfPoolExists b lbPortObjectsName w with
  | (.error e, w1) => (.error e, w1)
  | (.ok (some pool), w1) => (.ok pool, w1)
  | (.ok none, w1) =>
    match call b w1 (.poolsCreate (poolCreateOpts lbPortObjectsName listenerID)) with
    | (.error e, w2) => (.error ("error creating pool: " ++ e), w2)
    | (.ok pool, w2) =>
      match waitForLoadBalancer b lbID "ACTIVE" w2 with
      | (some e, w3) => (.error e, w3)
      | (none, w3) => (.ok pool, w3)

/-- The monitor stage of one port (lines 146-169). -/
def ensureMonitor {σ : Type} (b : Backend σ) (lbID lbPortObjectsName poolID : String)
    (w : World σ) : Option String × World σ :=
  match checkIfMonitorExists b lbPortObjectsName w with
  | (.error e, w1) => (some e, w1)
  | (.ok (some _), w1) => (none, w1)
  | (.ok none, w1) =>
    match call b w1 (.monitorsCreate (monitorCreateOpts lbPortObjectsName poolID)) with
    | (.error e, w2) => (some ("error creating monitor: " ++ e), w2)
    | (.ok _, w2) => waitForLoadBalancer b lbID "ACTIVE" w2

/-- The loop of `ReconcileLoadBalancer` over the port list (lines 94-170). -/
def reconcilePorts {σ : Type} (b : Backend σ) (lbID loadBalancerName : String) :
    List Int → World σ → Option String × World σ
  | [], w => (none, w)
  | port :: rest, w =>
    let lbPortObjectsName := lbPortObjectsNameOf loadBalancerName port
    match ensureListener b lbID lbPortObjectsName port w with
    | (.error e, w1) => (some e, w1)
    | (.ok listener, w1) =>
      match ensurePool b lbID lbPortObjectsName listener.ID w1 with
      | (.error e, w2) => (some e, w2)
      | (.ok pool, w2) =>
        match ensureMonitor b lbID lbPortObjectsName pool.ID w2 with
        | (some e, w3) => (some e, w3)
        | (none, w3) => reconcilePorts b lbID loadBalancerName rest w3

/-- The part of `ReconcileLoadBalancer` after the load balancer `lb` is
adopted or created (lines 60-178).  The final status write dereferences
`Status.Network`. -/
def reconcileWithLoadBalancer {σ : Type} (b : Backend σ) (loadBalancerName : String)
    (openStackCluster : OpenStackCluster) (lb : OSLoadBalancer) (w : World σ) : Run σ :=
  match ensureFloatingIP b openStackCluster lb w with
  | (.error e, w1) => .returned ⟨some e, openStackCluster, w1⟩
  | (.ok fp, w1) =>
    let portList := openStackCluster.Spec.APIServerLoadBalancerPort ::
      openStackCluster.Spec.APIServerLoadBalancerAdditionalPorts
    match reconcilePorts b lb.ID loadBalancerName portList w1 with
    | (some e, w2) => .returned ⟨some e, openStackCluster, w2⟩
    | (none, w2) =>
      match openStackCluster.Status.Network with
      | none => .panicked "nil pointer dereference: Status.Network" w2
      | some net =>
        let recorded : LoadBalancer :=
          { Name := lb.Name, ID := lb.ID, InternalIP := lb.VipAddress, IP := fp.FloatingIP }
        .returned ⟨none, { openStackCluster with Status := { openStackCluster.Status with
          Network := some { net with APIServerLoadBalancer := some recorded } } }, w2⟩

/-- The function `ReconcileLoadBalancer` (lines 20-179).  Creating the load
balancer dereferences `Status.Network` and `Status.Network.Subnet`
(line 47). -/
def ReconcileLoadBalancer {σ : Type} (b : Backend σ)
    (networkPrefix kubeapiLBSuffix clusterName : String) (openStackCluster : OpenStackCluster)
    (w : World σ) : Run σ :=
  if openStackCluster.Spec.ExternalNetworkID == "" then .returned ⟨none, openStackCluster, w⟩
  else if openStackCluster.Spec.APIServerLoadBalancerFloatingIP == "" then
    .returned ⟨none, openStackCluster, w⟩
  else if openStackCluster.Spec.APIServerLoadBalancerPort == 0 then
    .returned ⟨none, openStackCluster, w⟩
  else
    let loadBalancerName := loadBalancerNameOf networkPrefix clusterName kubeapiLBSuffix
    match checkIfLbExists b loadBalancerName w with
    | (.error e, w1) => .returned ⟨some e, openStackCluster, w1⟩
    | (.ok (some lb), w1) => reconcileWithLoadBalancer b loadBalancerName openStackCluster lb w1
    | (.ok none, w1) =>
      match openStackCluster.Status.Network with
      | none => .panicked "nil pointer dereference: Status.Network" w1
      | some net =>
        match net.Subnet with
        | none => .panicked "nil pointer dereference: Status.Network.Subnet" w1
        | some subnet =>
          let lbCreateOpts : LoadBalancerCreateOpts :=
            { Name := loadBalancerName, VipSubnetID := subnet.ID }
          match call b w1 (.loadbalancersCreate lbCreateOpts) with
          | (.error e, w2) =>
            .returned ⟨some ("error creating loadbalancer: " ++ e), openStackCluster, w2⟩
          | (.ok lb, w2) =>
            match waitForLoadBalancer b lb.ID "ACTIVE" w2 with
            | (some e, w3) => .returned ⟨some e, openStackCluster, w3⟩
            | (none, w3) =>
              reconcileWithLoadBalancer b loadBalancerName openStackCluster lb w3

/-- The error of lines 338, 359, 370 and 382. -/
def notActiveInTime (lbID state : String) : String :=
  "loadbalancer " ++ lbID ++ " did not get back to " ++ state ++ " state in time"

/-- The loop over the members of one pool (lines 352-361). -/
def deleteMembers {σ : Type} (b : Backend σ) (lbID poolID : String) :
    List OSMember → World σ → Option String × World σ
  | [], w => (none, w)
  | member :: rest, w =>
    match call b w (.membersDelete poolID member.ID) with
    | (.error e, w1) =>
      (some ("error deleting lbaas member " ++ member.ID ++ " on pool " ++ poolID ++ ": " ++ e), w1)
    | (.ok _, w1) =>
      match waitForLoadBalancer b lbID "ACTIVE" w1 with
      | (some _, w2) => (some (notActiveInTime lbID "ACTIVE"), w2)
      | (none, w2) => deleteMembers b lbID poolID rest w2

/-- The monitor step of one pool (lines 331-340). -/
def deletePoolMonitor {σ : Type} (b : Backend σ) (lbID : String) (pool : OSPool) (w : World σ) :
    Option String × World σ :=
  if pool.MonitorID != "" then
    match call b w (.monitorsDelete pool.MonitorID) with
    | (.error e, w1) => (some ("error deleting lbaas monitor " ++ pool.MonitorID ++ ": " ++ e), w1)
    | (.ok _, w1) =>
      match waitForLoadBalancer b lbID "ACTIVE" w1 with
      | (some _, w2) => (some (notActiveInTime lbID "Active"), w2)
      | (none, w2) => (none, w2)
  else (none, w)

/-- The loop over the pools (lines 329-372): per pool, the monitor, then the
members, then the pool itself. -/
def deletePools {σ : Type} (b : Backend σ) (lbID : String) :
    List OSPool → World σ → Option String × World σ
  | [], w => (none, w)
  | pool :: rest, w =>
    match deletePoolMonitor b lbID pool w with
    | (some e, w1) => (some e, w1)
    | (none, w1) =>
      match call b w1 (.membersList pool.ID "") with
      | (.error e, w2) =>
        (some ("error listing loadbalancer members of pool " ++ pool.ID ++ ": " ++ e), w2)
      | (.ok members, w2) =>
        match deleteMembers b lbID pool.ID members w2 with
        | (some e, w3) => (some e, w3)
        | (none, w3) =>
          match call b w3 (.poolsDelete pool.ID) with
          | (.error e, w4) => (some ("error deleting lbaas pool " ++ pool.ID ++ ": " ++ e), w4)
          | (.ok _, w4) =>
            match waitForLoadBalancer b lbID "ACTIVE" w4 with
            | (some _, w5) => (some (notActiveInTime lbID "ACTIVE"), w5)
            | (none, w5) => deletePools b lbID rest w5

/-- The loop over the listeners (lines 375-384). -/
def deleteListeners {σ : Type} (b : Backend σ) (lbID : String) :
    List OSListener → World σ → Option String × World σ
  | [], w => (none, w)
  | listener :: rest, w =>
    match call b w (.listenersDelete listener.ID) with
    | (.error e, w1) => (some ("error deleting lbaas listener " ++ listener.ID ++ ": " ++ e), w1)
    | (.ok _, w1) =>
      match waitForLoadBalancer b lbID "ACTIVE" w1 with
      | (some _, w2) => (some (notActiveInTime lbID "ACTIVE"), w2)
      | (none, w2) => deleteListeners b lbID rest w2

/-- The function `deleteLoadBalancerNeutronV2` (lines 302-393). -/
def deleteLoadBalancerNeutronV2 {σ : Type} (b : Backend σ) (id : String) (w : World σ) :
    Option String × World σ :=
  match call b w (.loadbalancersGet id) with
  | (.error e, w1) => (some ("unable to get loadbalancer: " ++ e), w1)
  | (.ok lb, w1) =>
    match call b w1 (.listenersList "" lb.ID) with
    | (.error e, w2) =>
      (some ("unable to list listeners of loadbalancer " ++ lb.ID ++ ": " ++ e), w2)
    | (.ok lbListeners, w2) =>
      match call b w2 (.poolsList "" lb.ID) with
      | (.error e, w3) =>
        (some ("unable to list pools for laodbalancer " ++ lb.ID ++ ": " ++ e), w3)
      | (.ok lbPools, w3) =>
        match deletePools b lb.ID lbPools w3 with
        | (some e, w4) => (some e, w4)
        | (none, w4) =>
          match deleteListeners b lb.ID lbListeners w4 with
          | (some e, w5) => (some e, w5)
          | (none, w5) =>
            match call b w5 (.loadbalancersDelete lb.ID false) with
            | (.error e, w6) => (some ("error deleting lbaas " ++ lb.ID ++ ": " ++ e), w6)
            | (.ok _, w6) => (none, w6)

/-- The function `DeleteLoadBalancer` (lines 271-299).  The result of the
lookup is dereferenced without a nil check (lines 284 and 289), so an absent
load balancer panics before any delete is issued; the cluster object is only
read. -/
def DeleteLoadBalancer {σ : Type} (b : Backend σ)
    (networkPrefix kubeapiLBSuffix clusterName : String) (openStackCluster : OpenStackCluster)
    (w : World σ) : Run σ :=
  let loadBalancerName := loadBalancerNameOf networkPrefix clusterName kubeapiLBSuffix
  match checkIfLbExists b loadBalancerName w with
  | (.error e, w1) => .returned ⟨some e, openStackCluster, w1⟩
  | (.ok none, w1) => .panicked "nil pointer dereference: lb.ID" w1
  | (.ok (some lb), w1) =>
    if openStackCluster.Spec.UseOctavia then
      match call b w1 (.loadbalancersDelete lb.ID true) with
      | (.error e, w2) =>
        .returned ⟨some ("error deleting loadbalancer: " ++ e), openStackCluster, w2⟩
      | (.ok _, w2) => .returned ⟨none, openStackCluster, w2⟩
    else
      match deleteLoadBalancerNeutronV2 b lb.ID w1 with
      | (some e, w2) =>
        .returned ⟨some ("error deleting loadbalancer: " ++ e), openStackCluster, w2⟩
      | (none, w2) => .returned ⟨none, openStackCluster, w2⟩

/-- The loop of `DeleteLoadBalancerMember` over the port list (lines 406-442):
a missing pool is skipped, a found member is deleted between two waits. -/
def deleteMemberPorts {σ : Type} (b : Backend σ) (loadBalancerName machineName lbID : String) :
    List Int → World σ → Option String × World σ
  | [], w => (none, w)
  | port :: rest, w =>
    let lbPortObjectsName := lbPortObjectsNameOf loadBalancerName port
    let name := lbPortObjectsName ++ "-" ++ machineName
    match checkIfPoolExists b lbPortObjectsName w with
    | (.error e, w1) => (some e, w1)
    | (.ok none, w1) => deleteMemberPorts b loadBalancerName machineName lbID rest w1
    | (.ok (some pool), w1) =>
      match checkIfLbMemberExists b pool.ID name w1 with
      | (.error e, w2) => (some e, w2)
      | (.ok none, w2) => deleteMemberPorts b loadBalancerName machineName lbID rest w2
      | (.ok (some lbMember), w2) =>
        match waitForLoadBalancer b lbID "ACTIVE" w2 with
        | (some e, w3) => (some e, w3)
        | (none, w3) =>
          match call b w3 (.membersDelete pool.ID lbMember.ID) with
          | (.error e, w4) => (some ("error deleting lbmember: " ++ e), w4)
          | (.ok _, w4) =>
            match waitForLoadBalancer b lbID "ACTIVE" w4 with
            | (some e, w5) => (some e, w5)
            | (none, w5) => deleteMemberPorts b loadBalancerName machineName lbID rest w5

/-- The function `DeleteLoadBalancerMember` (lines 395-444); the
`OpenStackMachine` pointer may be nil.  Line 404 reads
`Status.Network.APIServerLoadBalancer.ID` without a nil check, so an absent
network or load-balancer record panics before any request is issued. -/
def DeleteLoadBalancerMember {σ : Type} (b : Backend σ)
    (networkPrefix kubeapiLBSuffix clusterName : String) (machine : Machine)
    (openStackMachine : Option OpenStackMachine) (openStackCluster : OpenStackCluster)
    (w : World σ) : Run σ :=
  match openStackMachine with
  | none => .returned ⟨none, openStackCluster, w⟩
  | some osMachine =>
    if !machine.IsControlPlane then .returned ⟨none, openStackCluster, w⟩
    else
      let loadBalancerName := loadBalancerNameOf networkPrefix clusterName kubeapiLBSuffix
      match openStackCluster.Status.Network with
      | none => .panicked "nil pointer dereference: Status.Network" w
      | some net =>
        match net.APIServerLoadBalancer with
        | none => .panicked "nil pointer dereference: Status.Network.APIServerLoadBalancer" w
        | some lb =>
          let portList := openStackCluster.Spec.APIServerLoadBalancerPort ::
            openStackCluster.Spec.APIServerLoadBalancerAdditionalPorts
          let r := deleteMemberPorts b loadBalancerName osMachine.Name lb.ID portList w
          .returned ⟨r.1, openStackCluster, r.2⟩

/-! ## A reference backend

A small in-memory cloud that performs every request faithfully: lists filter
the stored resources, a create stores a resource under a fresh id, a delete
removes it.  The operations named in `failing` are refused.  The general
theorems quantify over every `Backend`; this one supplies concrete runs. -/

/-- The stored resources of the reference backend. -/
structure Cloud where
  networks : List OSNetwork := []
  subnets : List OSSubnet := []
  groups : List OSSecGroup := []
  loadbalancers : List OSLoadBalancer := []
  floatingips : List OSFloatingIP := []
  listeners : List OSListener := []
  pools : List OSPool := []
  monitors : List OSMonitor := []
  members : List OSMember := []
  tags : List (String × String × List String) := []
  nextID : Nat := 0
  failing : List String := []
deriving DecidableEq, Repr

/-- The name of the client operation behind a request. -/
def Call.op : Call → String
  | .networksList _ => "networks.List"
  | .networksCreate _ => "networks.Create"
  | .tagsReplaceAll _ _ _ => "attributestags.ReplaceAll"
  | .subnetsList _ _ => "subnets.List"
  | .subnetsCreate _ => "subnets.Create"
  | .groupsList _ => "groups.List"
  | .groupsCreate _ => "groups.Create"
  | .rulesCreate _ => "rules.Create"
  | .rulesDelete _ => "rules.Delete"
  | .loadbalancersList _ => "loadbalancers.List"
  | .loadbalancersCreate _ => "loadbalancers.Create"
  | .loadbalancersGet _ => "loadbalancers.Get"
  | .loadbalancersDelete _ _ => "loadbalancers.Delete"
  | .floatingipsList _ => "floatingips.List"
  | .floatingipsCreate _ => "floatingips.Create"
  | .floatingipsUpdate _ _ => "floatingips.Update"
  | .floatingipsGet _ => "floatingips.Get"
  | .listenersList _ _ => "listeners.List"
  | .listenersCreate _ => "listeners.Create"
  | .listenersGet _ => "listeners.Get"
  | .listenersDelete _ => "listeners.Delete"
  | .poolsList _ _ => "pools.List"
  | .poolsCreate _ => "pools.Create"
  | .poolsDelete _ => "pools.Delete"
  | .monitorsList _ => "monitors.List"
  | .monitorsCreate _ => "monitors.Create"
  | .monitorsDelete _ => "monitors.Delete"
  | .membersList _ _ => "pools.ListMembers"
  | .membersCreate _ _ => "pools.CreateMember"
  | .membersDelete _ _ => "pools.DeleteMember"

/-- A list filter field: the empty string does not filter. -/
def filterField (wanted actual : String) : Bool :=
  wanted == "" || wanted == actual

/-- The id handed out for the next created resource. -/
def Cloud.freshID (s : Cloud) : String :=
  "id-" ++ toString s.nextID

/-- Look a resource up by id, or report that it is missing. -/
def findByID {α : Type} (getID : α → String) (xs : List α) (id : String) : Except String α :=
  match xs.find? (fun x => getID x == id) with
  | some x => .ok x
  | none => .error ("resource not found: " ++ id)

/-- The faithful execution of one request on the stored resources. -/
def Cloud.run (s : Cloud) : (c : Call) → Except String c.Res × Cloud
  | .networksList name => (.ok (s.networks.filter (fun n => filterField name n.Name)), s)
  | .networksCreate opts =>
    let n : OSNetwork := { ID := s.freshID, Name := opts.Name }
    (.ok n, { s with networks := s.networks ++ [n], nextID := s.nextID + 1 })
  | .tagsReplaceAll resourceType resourceID newTags =>
    let others := s.tags.filter (fun t => !(t.1 == resourceType && t.2.1 == resourceID))
    (.ok newTags, { s with tags := (resourceType, resourceID, newTags) :: others })
  | .subnetsList networkID cidr =>
    (.ok (s.subnets.filter (fun x =>
      filterField networkID x.NetworkID && filterField cidr x.CIDR)), s)
  | .subnetsCreate opts =>
    let x : OSSubnet :=
      { ID := s.freshID, Name := opts.Name, CIDR := opts.CIDR, NetworkID := opts.NetworkID }
    (.ok x, { s with subnets := s.subnets ++ [x], nextID := s.nextID + 1 })
  | .groupsList name => (.ok (s.groups.filter (fun g => filterField name g.Name)), s)
  | .groupsCreate opts =>
    let g : OSSecGroup := { ID := s.freshID, Name := opts.Name }
    (.ok g, { s with groups := s.groups ++ [g], nextID := s.nextID + 1 })
  | .rulesCreate opts =>
    let r : OSSecGroupRule :=
      { ID := s.freshID, Direction := opts.Direction, EtherType := opts.EtherType,
        SecGroupID := opts.SecGroupID, PortRangeMin := opts.PortRangeMin,
        PortRangeMax := opts.PortRangeMax, Protocol := opts.Protocol,
        RemoteGroupID := opts.RemoteGroupID, RemoteIPPrefix := opts.RemoteIPPrefix }
    (.ok r, { s with
      groups := s.groups.map (fun g =>
        if g.ID == opts.SecGroupID then { g with Rules := g.Rules ++ [r] } else g)
      nextID := s.nextID + 1 })
  | .rulesDelete id =>
    (.ok (), { s with groups := s.groups.map (fun g =>
      { g with Rules := g.Rules.filter (fun r => r.ID != id) }) })
  | .loadbalancersList name =>
    (.ok (s.loadbalancers.filter (fun l => filterField name l.Name)), s)
  | .loadbalancersCreate opts =>
    let l : OSLoadBalancer :=
      { ID := s.freshID, Name := opts.Name, ProvisioningStatus := "ACTIVE",
        VipSubnetID := opts.VipSubnetID, VipPortID := "vip-" ++ s.freshID }
    (.ok l, { s with loadbalancers := s.loadbalancers ++ [l], nextID := s.nextID + 1 })
  | .loadbalancersGet id => (findByID (fun l => l.ID) s.loadbalancers id, s)
  | .loadbalancersDelete id _ =>
    (.ok (), { s with loadbalancers := s.loadbalancers.filter (fun l => l.ID != id) })
  | .floatingipsList ip =>
    (.ok (s.floatingips.filter (fun f => filterField ip f.FloatingIP)), s)
  | .floatingipsCreate opts =>
    let f : OSFloatingIP :=
      { ID := s.freshID, FloatingIP := opts.FloatingIP,
        FloatingNetworkID := opts.FloatingNetworkID, Status := "DOWN" }
    (.ok f, { s with floatingips := s.floatingips ++ [f], nextID := s.nextID + 1 })
  | .floatingipsUpdate id portID =>
    match findByID (fun f => f.ID) s.floatingips id with
    | .error e => (.error e, s)
    | .ok f =>
      let f2 : OSFloatingIP := { f with PortID := portID, Status := "ACTIVE" }
      (.ok f2, { s with floatingips := s.floatingips.map (fun x => if x.ID == id then f2 else x) })
  | .floatingipsGet id => (findByID (fun f => f.ID) s.floatingips id, s)
  | .listenersList name lbID =>
    (.ok (s.listeners.filter (fun l =>
      filterField name l.Name && filterField lbID l.LoadbalancerID)), s)
  | .listenersCreate opts =>
    let l : OSListener :=
      { ID := s.freshID, Name := opts.Name, Protocol := opts.Protocol,
        ProtocolPort := opts.ProtocolPort, LoadbalancerID := opts.LoadbalancerID }
    (.ok l, { s with listeners := s.listeners ++ [l], nextID := s.nextID + 1 })
  | .listenersGet id => (findByID (fun l => l.ID) s.listeners id, s)
  | .listenersDelete id =>
    (.ok (), { s with listeners := s.listeners.filter (fun l => l.ID != id) })
  | .poolsList name lbID =>
    (.ok (s.pools.filter (fun p =>
      filterField name p.Name && filterField lbID p.LoadbalancerID)), s)
  | .poolsCreate opts =>
    let lbID := ((s.listeners.find? (fun l => l.ID == opts.ListenerID)).map
      (fun l => l.LoadbalancerID)).getD ""
    let p : OSPool :=
      { ID := s.freshID, Name := opts.Name, Protocol := opts.Protocol,
        LBMethod := opts.LBMethod, ListenerID := opts.ListenerID, LoadbalancerID := lbID }
    (.ok p, { s with pools := s.pools ++ [p], nextID := s.nextID + 1 })
  | .poolsDelete id => (.ok (), { s with pools := s.pools.filter (fun p => p.ID != id) })
  | .monitorsList name => (.ok (s.monitors.filter (fun m => filterField name m.Name)), s)
  | .monitorsCreate opts =>
    let m : OSMonitor :=
      { ID := s.freshID, Name := opts.Name, PoolID := opts.PoolID,
        MonitorType := opts.MonitorType, Delay := opts.Delay, Timeout := opts.Timeout,
        MaxRetries := opts.MaxRetries }
    (.ok m, { s with
      monitors := s.monitors ++ [m]
      pools := s.pools.map (fun p => if p.ID == opts.PoolID then { p with MonitorID := m.ID } else p)
      nextID := s.nextID + 1 })
  | .monitorsDelete id =>
    (.ok (), { s with
      monitors := s.monitors.filter (fun m => m.ID != id)
      pools := s.pools.map (fun p => if p.MonitorID == id then { p with MonitorID := "" } else p) })
  | .membersList poolID name =>
    (.ok (s.members.filter (fun m => m.PoolID == poolID && filterField name m.Name)), s)
  | .membersCreate poolID opts =>
    let m : OSMember :=
      { ID := s.freshID, Name := opts.Name, Address := opts.Address,
        ProtocolPort := opts.ProtocolPort, SubnetID := opts.SubnetID, PoolID := poolID }
    (.ok m, { s with members := s.members ++ [m], nextID := s.nextID + 1 })
  | .membersDelete poolID memberID =>
    (.ok (), { s with members := s.members.filter (fun m =>
      !(m.PoolID == poolID && m.ID == memberID)) })

/-- The reference backend: an operation listed in `failing` is refused and
leaves the resources untouched, every other request is run faithfully. -/
def cloudBackend : Backend Cloud where
  exec s c :=
    if s.failing.contains c.op then (.error ("backend refused " ++ c.op), s)
    else s.run c

/-! ## Notions used to state the properties -/

/-- The seven fields of a rule that `Equal` compares. -/
def ruleKey (r : SecurityGroupRule) : String × String × Int × Int × String × String × String :=
  (r.Direction, r.EtherType, r.PortRangeMin, r.PortRangeMax, r.Protocol, r.RemoteGroupID,
    r.RemoteIPPrefix)

/-- The desired rules with every `"self"` remote group resolved to the id of
the observed group. -/
def resolvedRules (desired observed : SecurityGroup) : List SecurityGroupRule :=
  desired.Rules.map (fun r => resolveSelf r observed.ID)

/-- Equality of two rule lists as sets, two rules being the same element when
`Equal` holds between them: each rule of either list has an `Equal` rule in
the other list. -/
def sameRuleSet (xs ys : List SecurityGroupRule) : Bool :=
  xs.all (fun x => ys.any (fun y => x.Equal y)) && ys.all (fun y => xs.any (fun x => y.Equal x))

/-- No two rules at different positions of the list are `Equal`: the list has
no repeated rule. -/
def distinctRules (xs : List SecurityGroupRule) : Prop :=
  xs.Pairwise (fun a b => a.Equal b = false)

instance (xs : List SecurityGroupRule) : Decidable (distinctRules xs) := by
  unfold distinctRules; infer_instance

/-- The mutating requests of the teardown of one pool: the monitor if the
pool has one, the listed members in order, the pool. -/
def poolTeardownCalls (pool : OSPool) (members : List OSMember) : List Call :=
  (if pool.MonitorID != "" then [Call.monitorsDelete pool.MonitorID] else []) ++
    members.map (fun m => Call.membersDelete pool.ID m.ID) ++ [Call.poolsDelete pool.ID]

/-- The mutating requests of a manual teardown: the pools with their listed
members, then the listeners, then the load balancer. -/
def teardownCalls (lbID : String) (pools : List (OSPool × List OSMember))
    (listeners : List OSListener) : List Call :=
  pools.flatMap (fun pm => poolTeardownCalls pm.1 pm.2) ++
    listeners.map (fun l => Call.listenersDelete l.ID) ++ [Call.loadbalancersDelete lbID false]

/-- The pair of requests: `c1` deletes a pool and `c2` deletes a member (of
any pool). -/
def poolDeleteThenMemberDelete (c1 c2 : Call) : Bool :=
  match c1, c2 with
  | .poolsDelete _, .membersDelete _ _ => true
  | _, _ => false

/-- The pair of requests: `c1` deletes a pool and `c2` deletes a member of
that same pool. -/
def poolDeleteThenOwnMemberDelete (c1 c2 : Call) : Bool :=
  match c1, c2 with
  | .poolsDelete poolID, .membersDelete memberPoolID _ => poolID == memberPoolID
  | _, _ => false

/-- The creation of a listener, a pool or a health monitor. -/
def isChildCreate : Call → Bool
  | .listenersCreate _ | .poolsCreate _ | .monitorsCreate _ => true
  | _ => false

/-- A probe of a load balancer, the request a load-balancer wait is made of. -/
def isLoadBalancerGet : Call → Bool
  | .loadbalancersGet _ => true
  | _ => false

/-- If `c2` creates a listener, pool or monitor, the request `c1` before it
is a probe of a load balancer. -/
def waitPrecedes (c1 c2 : Call) : Prop :=
  isChildCreate c2 = true → isLoadBalancerGet c1 = true

instance : DecidableRel waitPrecedes :=
  fun c1 c2 => inferInstanceAs (Decidable (isChildCreate c2 = true → isLoadBalancerGet c1 = true))

/-- How far a trace is past a creation of a listener, pool or monitor: `idle`
when no such creation is pending, `probing k` when the last one was followed
so far by `k` probes of the load balancer. -/
inductive Gate where
  | idle
  | probing (k : Nat)
deriving DecidableEq, Repr

/-- One request seen by the gate of the load balancer `lbID`.  After a
creation only probes of `lbID` may come, at least one and at most
`backoffSteps`; `none` is a violation. -/
def gateStep (lbID : String) : Gate → Call → Option Gate
  | .idle, c => if isChildCreate c then some (.probing 0) else some .idle
  | .probing k, c =>
    if c = .loadbalancersGet lbID then
      if k < backoffSteps then some (.probing (k + 1)) else none
    else if k = 0 then none
    else if isChildCreate c then some (.probing 0) else some .idle

/-- The gate run over a trace. -/
def gateRun (lbID : String) : Gate → List Call → Option Gate
  | g, [] => some g
  | g, c :: t =>
    match gateStep lbID g c with
    | none => none
    | some g1 => gateRun lbID g1 t

/-- A gate that is not right behind a creation. -/
def Settled : Gate → Prop
  | .idle => True
  | .probing k => 1 ≤ k

/-- The requests issued between two worlds pass the gate of `lbID` from every
settled gate; when `ok` holds the gate they leave is settled too. -/
def Gates {σ : Type} (lbID : String) (w w1 : World σ) (ok : Prop) : Prop :=
  ∃ d, w1.trace = w.trace ++ d ∧
    ∀ g, Settled g → ∃ g1, gateRun lbID g d = some g1 ∧ (ok → Settled g1)

/-- The load balancer a pass of `ReconcileLoadBalancer` works on: the first
one the lookup by name returns or, when the lookup returns none, the one the
creation returns. -/
def isPassLoadBalancer {σ : Type} (b : Backend σ) (loadBalancerName : String)
    (c : OpenStackCluster) (s : σ) (lb : OSLoadBalancer) : Prop :=
  (∃ rest s1, b.exec s (.loadbalancersList loadBalancerName) = (.ok (lb :: rest), s1)) ∨
  (∃ s1 s2 net subnet, b.exec s (.loadbalancersList loadBalancerName) = (.ok [], s1) ∧
    c.Status.Network = some net ∧ net.Subnet = some subnet ∧
    b.exec s1 (.loadbalancersCreate ⟨loadBalancerName, subnet.ID⟩) = (.ok lb, s2))

/-- The kind and the name of the resource a create request asks for. -/
def createdResource : Call → Option (String × String)
  | .loadbalancersCreate opts => some ("loadbalancer", opts.Name)
  | .floatingipsCreate opts => some ("floatingip", opts.FloatingIP)
  | .listenersCreate opts => some ("listener", opts.Name)
  | .poolsCreate opts => some ("pool", opts.Name)
  | .monitorsCreate opts => some ("monitor", opts.Name)
  | _ => none

/-- The listener, pool and monitor of one port, by kind and name. -/
def portTriple (loadBalancerName : String) (port : Int) : List (String × String) :=
  [("listener", lbPortObjectsNameOf loadBalancerName port),
   ("pool", lbPortObjectsNameOf loadBalancerName port),
   ("monitor", lbPortObjectsNameOf loadBalancerName port)]

/-- A reference cloud that refuses nothing, holds the ACTIVE load balancer
`lbID`, and holds no listener, pool or monitor under any of `names`. -/
def PortsReady (s : Cloud) (lbID : String) (names : List String) : Prop :=
  s.failing = [] ∧
  (∃ lb, findByID (fun l : OSLoadBalancer => l.ID) s.loadbalancers lbID = .ok lb ∧
    lb.ProvisioningStatus = "ACTIVE") ∧
  ∀ n ∈ names, n ∉ s.listeners.map (fun l => l.Name) ∧ n ∉ s.pools.map (fun p => p.Name) ∧
    n ∉ s.monitors.map (fun m => m.Name)

/-- The request that recreates a desired rule in the group `groupID`. -/
def recreateOpts (groupID : String) (r : SecurityGroupRule) : RuleCreateOpts :=
  { Direction := r.Direction
    PortRangeMin := r.PortRangeMin
    PortRangeMax := r.PortRangeMax
    Protocol := r.Protocol
    EtherType := r.EtherType
    RemoteGroupID := if r.RemoteGroupID = "self" then groupID else r.RemoteGroupID
    RemoteIPPrefix := r.RemoteIPPrefix
    SecGroupID := groupID }

/-! ## Concrete inputs -/

/-- A tcp ingress rule. -/
def tcpRule : SecurityGroupRule :=
  { Direction := "ingress", EtherType := "IPv4", Protocol := "tcp" }

/-- A udp ingress rule. -/
def udpRule : SecurityGroupRule :=
  { Direction := "ingress", EtherType := "IPv4", Protocol := "udp" }

/-- A desired rule whose remote group is the placeholder. -/
def selfRule : SecurityGroupRule :=
  { Direction := "ingress", EtherType := "IPv4", PortRangeMin := 1, PortRangeMax := 65535,
    Protocol := "tcp", RemoteGroupID := "self" }

/-- The rule a backend stores for a desired rule of the group `groupID`. -/
def storedRule (groupID : String) (r : SecurityGroupRule) : OSSecGroupRule :=
  { ID := "rule-" ++ r.EtherType ++ "-" ++ r.Protocol ++ "-" ++ toString r.PortRangeMin
    Direction := r.Direction
    EtherType := r.EtherType
    SecGroupID := groupID
    PortRangeMin := r.PortRangeMin
    PortRangeMax := r.PortRangeMax
    Protocol := r.Protocol
    RemoteGroupID := (resolveSelf r groupID).RemoteGroupID
    RemoteIPPrefix := r.RemoteIPPrefix }

/-- The control-plane group of cluster `demo` as stored by a backend, its
rules in reverse order. -/
def storedControlPlaneGroup : OSSecGroup :=
  { ID := "sg-cp", Name := "k8s-cluster-demo-secgroup-controlplane"
    Rules := ((generateControlPlaneGroup "demo").Rules.map (storedRule "sg-cp")).reverse }

/-- The global group of cluster `demo` as stored by a backend. -/
def storedGlobalGroup : OSSecGroup :=
  { ID := "sg-all", Name := "k8s-cluster-demo-secgroup-all"
    Rules := (generateGlobalGroup "demo").Rules.map (storedRule "sg-all") }

/-- The observed global group with its rules in reverse order. -/
def observedGlobalReversed : SecurityGroup :=
  { ID := "sg-all", Name := "k8s-cluster-demo-secgroup-all"
    Rules := (resolvedRules (generateGlobalGroup "demo") { ID := "sg-all" }).reverse }

/-- The cluster `demo`: managed security groups, a reconciled network, the
primary port 6443 and the additional port 6444. -/
def demoCluster : OpenStackCluster :=
  { Spec := { ManagedSecurityGroups := true, NodeCIDR := "10.6.0.0/24",
              ExternalNetworkID := "ext-1", APIServerLoadBalancerFloatingIP := "172.24.4.10",
              APIServerLoadBalancerPort := 6443, APIServerLoadBalancerAdditionalPorts := [6444] }
    Status := { Network := some { ID := "net-1", Name := "k8s-cluster-demo" } } }

/-- The subnet of cluster `demo`. -/
def demoSubnet : OSSubnet :=
  { ID := "sub-1", Name := "k8s-cluster-demo", CIDR := "10.6.0.0/24", NetworkID := "net-1" }

/-- A cloud holding exactly one subnet for the network and CIDR of `demo`. -/
def oneSubnetCloud : Cloud := { subnets := [demoSubnet] }

/-- A cloud holding two subnets for the network and CIDR of `demo`. -/
def twoSubnetCloud : Cloud := { subnets := [demoSubnet, { demoSubnet with ID := "sub-2" }] }

/-- The first pass of `ReconcileSubnet` over `oneSubnetCloud`. -/
def firstSubnetPass : Outcome Cloud :=
  ReconcileSubnet cloudBackend "k8s" "demo" demoCluster ⟨oneSubnetCloud, []⟩

/-- The second pass, on the cluster and the cloud the first pass left behind,
with a fresh trace. -/
def secondSubnetPass : Outcome Cloud :=
  ReconcileSubnet cloudBackend "k8s" "demo" firstSubnetPass.cluster ⟨firstSubnetPass.world.st, []⟩

/-- A cloud holding both security groups of `demo` with the desired rules. -/
def matchedCloud : Cloud := { groups := [storedControlPlaneGroup, storedGlobalGroup] }

/-- The security-group pass over an empty cloud that refuses every
`groups.Create`. -/
def refusedGroupCreate : Outcome Cloud :=
  ReconcileSecurityGroups cloudBackend ["controlplane", "global"] "demo" demoCluster
    ⟨{ failing := ["groups.Create"] }, []⟩

/-- The security-group pass over an empty cloud that refuses every
`rules.Create`. -/
def refusedRuleCreate : Outcome Cloud :=
  ReconcileSecurityGroups cloudBackend ["controlplane", "global"] "demo" demoCluster
    ⟨{ failing := ["rules.Create"] }, []⟩

/-- A cloud in which every lookup name of cluster `demo` matches two
resources. -/
def duplicatesCloud : Cloud :=
  { networks := [{ ID := "net-1", Name := "k8s-cluster-demo" },
                 { ID := "net-2", Name := "k8s-cluster-demo" }]
    groups := [{ ID := "sg-1", Name := "k8s-cluster-demo-secgroup-all" },
               { ID := "sg-2", Name := "k8s-cluster-demo-secgroup-all" }]
    loadbalancers := [{ ID := "lb-1", Name := "k8s-cluster-demo-kubeapi" },
                      { ID := "lb-2", Name := "k8s-cluster-demo-kubeapi" }]
    floatingips := [{ ID := "fip-1", FloatingIP := "172.24.4.10" },
                    { ID := "fip-2", FloatingIP := "172.24.4.10" }]
    listeners := [{ ID := "ls-1", Name := "k8s-cluster-demo-kubeapi-6443" },
                  { ID := "ls-2", Name := "k8s-cluster-demo-kubeapi-6443" }]
    pools := [{ ID := "pool-1", Name := "k8s-cluster-demo-kubeapi-6443" },
              { ID := "pool-2", Name := "k8s-cluster-demo-kubeapi-6443" }]
    monitors := [{ ID := "mon-1", Name := "k8s-cluster-demo-kubeapi-6443" },
                 { ID := "mon-2", Name := "k8s-cluster-demo-kubeapi-6443" }]
    members := [{ ID := "mem-1", Name := "k8s-cluster-demo-kubeapi-6443-cp0", PoolID := "pool-1" },
                { ID := "mem-2", Name := "k8s-cluster-demo-kubeapi-6443-cp0", PoolID := "pool-1" }] }

/-- The world of `duplicatesCloud` with an empty trace. -/
def duplicatesWorld : World Cloud := ⟨duplicatesCloud, []⟩

/-- The cluster `demo` after network, subnet and load balancer were
reconciled. -/
def memberCluster : OpenStackCluster :=
  let net : Network :=
    { ID := "net-1", Name := "k8s-cluster-demo"
      Subnet := some { ID := "sub-1", Name := "k8s-cluster-demo", CIDR := "10.6.0.0/24" }
      APIServerLoadBalancer := some { ID := "lb-1", Name := "k8s-cluster-demo-kubeapi" } }
  { demoCluster with Status := { Network := some net } }

/-- A cloud with an ACTIVE load balancer and the pools of both ports; the
member of machine `cp0` exists in the pool of port 6443 with the address
10.0.0.6 and is missing from the pool of port 6444. -/
def memberCloud : Cloud :=
  { loadbalancers :=
      [{ ID := "lb-1", Name := "k8s-cluster-demo-kubeapi", ProvisioningStatus := "ACTIVE" }]
    pools := [{ ID := "pool-6443", Name := "k8s-cluster-demo-kubeapi-6443" },
              { ID := "pool-6444", Name := "k8s-cluster-demo-kubeapi-6444" }]
    members := [{ ID := "mem-1", Name := "k8s-cluster-demo-kubeapi-6443-cp0",
                  Address := "10.0.0.6", ProtocolPort := 6443, SubnetID := "sub-1",
                  PoolID := "pool-6443" }] }

/-- The member pass for the control-plane machine `cp0` with address
10.0.0.6 over `memberCloud`. -/
def memberPass : Option String × World Cloud :=
  ReconcileLoadBalancerMember cloudBackend "k8s" "kubeapi" "demo" { IsControlPlane := true }
    { Name := "cp0" } memberCluster "10.0.0.6" ⟨memberCloud, []⟩

/-- The cloud `oneSubnetCloud` after the ownership tags were put on its
subnet. -/
def taggedSubnetCloud : Cloud :=
  { subnets := [demoSubnet]
    tags := [("subnets", "sub-1", ["cluster-api-provider-openstack", "demo"])] }

/-- The cluster `demo` with the single port 6443, after network, subnet and
load balancer were reconciled. -/
def singlePortCluster : OpenStackCluster :=
  { memberCluster with
    Spec := { memberCluster.Spec with APIServerLoadBalancerAdditionalPorts := [] } }

/-- A cloud with an ACTIVE load balancer and the pool of port 6443, which
holds the member of machine `cp0` at the address 10.0.0.5. -/
def staleMemberCloud : Cloud :=
  { loadbalancers :=
      [{ ID := "lb-1", Name := "k8s-cluster-demo-kubeapi", ProvisioningStatus := "ACTIVE" }]
    pools := [{ ID := "pool-6443", Name := "k8s-cluster-demo-kubeapi-6443" }]
    members := [{ ID := "mem-1", Name := "k8s-cluster-demo-kubeapi-6443-cp0",
                  Address := "10.0.0.5", ProtocolPort := 6443, SubnetID := "sub-1",
                  PoolID := "pool-6443" }] }

/-- The member pass for the control-plane machine `cp0` with the address
10.0.0.6 over `staleMemberCloud`. -/
def staleMemberPass : Option String × World Cloud :=
  ReconcileLoadBalancerMember cloudBackend "k8s" "kubeapi" "demo" { IsControlPlane := true }
    { Name := "cp0" } singlePortCluster "10.0.0.6" ⟨staleMemberCloud, []⟩

/-- A cloud with the ACTIVE load balancer `lb-1`, its two listeners and its
two pools: `pool-1` has the monitor `mon-1` and one member, `pool-2` has no
monitor and two members. -/
def teardownCloud : Cloud :=
  { loadbalancers :=
      [{ ID := "lb-1", Name := "k8s-cluster-demo-kubeapi", ProvisioningStatus := "ACTIVE" }]
    listeners := [{ ID := "ls-1", Name := "k8s-cluster-demo-kubeapi-6443", LoadbalancerID := "lb-1" },
                  { ID := "ls-2", Name := "k8s-cluster-demo-kubeapi-6444", LoadbalancerID := "lb-1" }]
    pools := [{ ID := "pool-1", Name := "k8s-cluster-demo-kubeapi-6443", LoadbalancerID := "lb-1",
                MonitorID := "mon-1" },
              { ID := "pool-2", Name := "k8s-cluster-demo-kubeapi-6444", LoadbalancerID := "lb-1" }]
    monitors := [{ ID := "mon-1", Name := "k8s-cluster-demo-kubeapi-6443", PoolID := "pool-1" }]
    members := [{ ID := "mem-1", Name := "k8s-cluster-demo-kubeapi-6443-cp0", PoolID := "pool-1" },
                { ID := "mem-2", Name := "k8s-cluster-demo-kubeapi-6444-cp0", PoolID := "pool-2" },
                { ID := "mem-3", Name := "k8s-cluster-demo-kubeapi-6444-cp1", PoolID := "pool-2" }] }

/-- The manual teardown of `lb-1` over `teardownCloud`. -/
def teardownPass : Option String × World Cloud :=
  deleteLoadBalancerNeutronV2 cloudBackend "lb-1" ⟨teardownCloud, []⟩

/-- A cloud whose load balancer stays in `PENDING_CREATE` and whose floating
IP stays `DOWN`. -/
def pendingCloud : Cloud :=
  { loadbalancers := [{ ID := "lb-1", Name := "k8s-cluster-demo-kubeapi",
                        ProvisioningStatus := "PENDING_CREATE" }]
    floatingips := [{ ID := "fip-1", FloatingIP := "172.24.4.10", Status := "DOWN" }] }

/-- The cluster `demo` after network and subnet were reconciled, before the
load balancer. -/
def lbReadyCluster : OpenStackCluster :=
  let net : Network :=
    { ID := "net-1", Name := "k8s-cluster-demo"
      Subnet := some { ID := "sub-1", Name := "k8s-cluster-demo", CIDR := "10.6.0.0/24" } }
  { demoCluster with Status := { Network := some net } }

/-- The cluster `lbReadyCluster` with the primary port repeated among the
additional ports. -/
def repeatedPortCluster : OpenStackCluster :=
  { lbReadyCluster with
    Spec := { lbReadyCluster.Spec with APIServerLoadBalancerAdditionalPorts := [6443] } }

/-- A cloud that already holds the ACTIVE load balancer of `demo` and nothing
else. -/
def adoptedLbCloud : Cloud :=
  { loadbalancers := [{ ID := "lb-1", Name := "k8s-cluster-demo-kubeapi",
                        ProvisioningStatus := "ACTIVE", VipPortID := "vip-1" }] }

/-- The load-balancer pass of `demo` over `adoptedLbCloud`. -/
def adoptedLbPass : Run Cloud :=
  ReconcileLoadBalancer cloudBackend "k8s" "kubeapi" "demo" lbReadyCluster ⟨adoptedLbCloud, []⟩

/-- The load-balancer pass of `demo` over an empty cloud. -/
def freshLbPass : Run Cloud :=
  ReconcileLoadBalancer cloudBackend "k8s" "kubeapi" "demo" lbReadyCluster ⟨{}, []⟩

/-- The load-balancer pass of `repeatedPortCluster` over an empty cloud. -/
def repeatedPortPass : Run Cloud :=
  ReconcileLoadBalancer cloudBackend "k8s" "kubeapi" "demo" repeatedPortCluster ⟨{}, []⟩

/-- A cloud with the ACTIVE load balancer of `demo` and no pool. -/
def noPoolCloud : Cloud :=
  { loadbalancers :=
      [{ ID := "lb-1", Name := "k8s-cluster-demo-kubeapi", ProvisioningStatus := "ACTIVE" }] }

/-- A cloud holding exactly the network of `demo`. -/
def oneNetworkCloud : Cloud := { networks := [{ ID := "net-1", Name := "k8s-cluster-demo" }] }

/-- The cluster `demo` before any pass. -/
def newCluster : OpenStackCluster := { demoCluster with Status := {} }

/-- A stored group with the id `sg-all` whose only rule is a stale one. -/
def staleGroup : OSSecGroup :=
  { ID := "sg-all", Name := "k8s-cluster-demo-secgroup-all"
    Rules := [{ ID := "rule-old", Direction := "ingress", EtherType := "IPv4",
                SecGroupID := "sg-all", Protocol := "tcp", PortRangeMin := 80,
                PortRangeMax := 80 }] }

/-- The rule pass that brings `staleGroup` to the desired global group. -/
def staleGroupPass : (SecurityGroup × Option String) × World Cloud :=
  reconcileGroup cloudBackend (generateGlobalGroup "demo")
    (convertOSSecGroupToConfigSecGroup staleGroup) ⟨{ groups := [staleGroup] }, []⟩

/-- A desired group with two rules that differ only in the remote group: the
placeholder in one, the literal id `sg-all` in the other. -/
def selfAndLiteralGroup : SecurityGroup :=
  { Name := "k8s-cluster-demo-secgroup-all"
    Rules := [selfRule, { selfRule with RemoteGroupID := "sg-all" }] }

/-- An observed group `sg-all` holding the resolved `selfRule` and the same
rule with the protocol replaced by udp. -/
def selfAndUdpObserved : SecurityGroup :=
  { ID := "sg-all", Name := "k8s-cluster-demo-secgroup-all"
    Rules := [{ selfRule with RemoteGroupID := "sg-all" },
              { selfRule with RemoteGroupID := "sg-all", Protocol := "udp" }] }

/-- The observed global group `sg-all` of `demo`, its rules in reverse order
and the tcp rule carrying the protocol sctp instead. -/
def observedGlobalSctp : SecurityGroup :=
  { ID := "sg-all", Name := "k8s-cluster-demo-secgroup-all"
    Rules := ((resolvedRules (generateGlobalGroup "demo") { ID := "sg-all" }).tail).reverse ++
      [{ selfRule with RemoteGroupID := "sg-all", Protocol := "sctp" }] }

/-- The manual teardown of the load balancer of `demo` over `teardownCloud`. -/
def firstTeardown : Run Cloud :=
  DeleteLoadBalancer cloudBackend "k8s" "kubeapi" "demo" lbReadyCluster ⟨teardownCloud, []⟩

/-- The same teardown invoked again on the cloud the first one left behind,
with a fresh trace. -/
def secondTeardown : Run Cloud :=
  DeleteLoadBalancer cloudBackend "k8s" "kubeapi" "demo" lbReadyCluster
    ⟨firstTeardown.world.st, []⟩

/-- The cluster `demo` with cascading delete enabled and an empty status: load
balancing was never reconciled. -/
def octaviaCluster : OpenStackCluster :=
  { newCluster with Spec := { newCluster.Spec with UseOctavia := true } }

/-- A cloud whose load balancer stays in `PENDING_CREATE` and that holds no
floating IP. -/
def stuckLbCloud : Cloud :=
  { loadbalancers := [{ ID := "lb-1", Name := "k8s-cluster-demo-kubeapi",
                        ProvisioningStatus := "PENDING_CREATE" }] }

/-- The cloud `adoptedLbCloud` refusing every `listeners.Create`. -/
def refusedListenerCloud : Cloud := { adoptedLbCloud with failing := ["listeners.Create"] }

/-- The load-balancer pass of `demo` over `refusedListenerCloud`. -/
def refusedListenerPass : Run Cloud :=
  ReconcileLoadBalancer cloudBackend "k8s" "kubeapi" "demo" lbReadyCluster
    ⟨refusedListenerCloud, []⟩

/-! ## Auxiliary lemmas -/

theorem equal_iff_key (r x : SecurityGroupRule) : r.Equal x = true ↔ ruleKey r = ruleKey x := by
  simp [SecurityGroupRule.Equal, ruleKey, and_assoc]

theorem ruleMatched_iff (r : SecurityGroupRule) (l : List SecurityGroupRule) :
    ruleMatched r l = true ↔ ruleKey r ∈ l.map ruleKey := by
  induction l with
  | nil => simp [ruleMatched]
  | cons a t ih =>
    unfold ruleMatched
    by_cases h : a.Equal r = true
    · simp [h, (equal_iff_key a r).1 h]
    · have hk : ¬ ruleKey a = ruleKey r := fun e => h ((equal_iff_key a r).2 e)
      have hk2 : ¬ ruleKey r = ruleKey a := fun e => hk e.symm
      simp [h, ih, hk2]

theorem matchRules_iff (o : SecurityGroup) (l : List SecurityGroupRule) :
    matchRules o l = true ↔
      ∀ k ∈ (l.map (fun r => resolveSelf r o.ID)).map ruleKey, k ∈ o.Rules.map ruleKey := by
  induction l with
  | nil => simp [matchRules]
  | cons a t ih =>
    unfold matchRules
    by_cases h : ruleMatched (resolveSelf a o.ID) o.Rules = true
    · have h2 := (ruleMatched_iff _ _).1 h
      simp only [h, Bool.not_true, Bool.false_eq_true, if_false, ih]
      simp only [List.map_cons, List.mem_cons, forall_eq_or_imp]
      exact ⟨fun H => ⟨h2, H⟩, fun H => H.2⟩
    · have h2 : ¬ ruleKey (resolveSelf a o.ID) ∈ o.Rules.map ruleKey :=
        fun e => h ((ruleMatched_iff _ _).2 e)
      simp only [Bool.not_eq_true] at h
      simp only [h, Bool.not_false, if_true, Bool.false_eq_true, false_iff]
      simp only [List.map_cons, List.mem_cons, forall_eq_or_imp]
      exact fun H => h2 H.1

/-- What `matchGroups` decides: equal lengths, and every resolved desired rule
has an `Equal` observed rule. -/
theorem matchGroups_iff (d o : SecurityGroup) :
    matchGroups d o = true ↔
      d.Rules.length = o.Rules.length ∧
        ∀ k ∈ (resolvedRules d o).map ruleKey, k ∈ o.Rules.map ruleKey := by
  unfold matchGroups resolvedRules
  by_cases h : d.Rules.length = o.Rules.length
  · simp only [h, ne_eq, not_true_eq_false, if_false, matchRules_iff, true_and]
  · simp [h]

theorem sameRuleSet_iff (xs ys : List SecurityGroupRule) :
    sameRuleSet xs ys = true ↔
      (∀ k ∈ xs.map ruleKey, k ∈ ys.map ruleKey) ∧ (∀ k ∈ ys.map ruleKey, k ∈ xs.map ruleKey) := by
  simp only [sameRuleSet, Bool.and_eq_true, List.all_eq_true, List.any_eq_true, equal_iff_key,
    List.mem_map, forall_exists_index, and_imp, forall_apply_eq_imp_iff₂]
  constructor
  · rintro ⟨h1, h2⟩
    exact ⟨fun a ha => (h1 a ha).imp fun b hb => ⟨hb.1, hb.2.symm⟩,
      fun a ha => (h2 a ha).imp fun b hb => ⟨hb.1, hb.2.symm⟩⟩
  · rintro ⟨h1, h2⟩
    exact ⟨fun a ha => (h1 a ha).imp fun b hb => ⟨hb.1, hb.2.symm⟩,
      fun a ha => (h2 a ha).imp fun b hb => ⟨hb.1, hb.2.symm⟩⟩

theorem distinctRules_iff (xs : List SecurityGroupRule) :
    distinctRules xs ↔ (xs.map ruleKey).Nodup := by
  unfold distinctRules List.Nodup
  rw [List.pairwise_map]
  apply List.Pairwise.iff
  intro a b
  rw [← Bool.not_eq_true, equal_iff_key]

/-- A request whose backend answer is known. -/
theorem call_eq {σ : Type} (b : Backend σ) (w : World σ) (c : Call) (r : Except String c.Res)
    (s1 : σ) (h : b.exec w.st c = (r, s1)) :
    call b w c = (r, { st := s1, trace := w.trace ++ [c] }) := by
  simp [call, h]

/-- One pass of `ReconcileSubnet` when the filter matches exactly the subnet
`s`: the subnet is listed, its tags are replaced, and it is recorded when the
tag replacement succeeded. -/
theorem ReconcileSubnet_adopt {σ : Type} (b : Backend σ) (networkPrefix clusterName : String)
    (c : OpenStackCluster) (w : World σ) (net : Network) (s : OSSubnet) (s1 s2 : σ)
    (t : Except String (List String))
    (hnet : c.Status.Network = some net) (hid : net.ID ≠ "")
    (hl : b.exec w.st (.subnetsList net.ID c.Spec.NodeCIDR) = (.ok [s], s1))
    (ht : b.exec s1 (.tagsReplaceAll "subnets" s.ID (ownershipTags clusterName)) = (t, s2)) :
    ReconcileSubnet b networkPrefix clusterName c w =
      match t with
      | .error e =>
        ⟨some e, c, ⟨s2, w.trace ++ [.subnetsList net.ID c.Spec.NodeCIDR,
          .tagsReplaceAll "subnets" s.ID (ownershipTags clusterName)]⟩⟩
      | .ok _ =>
        ⟨none, { c with Status := { c.Status with Network := some { net with
            Subnet := some { ID := s.ID, Name := s.Name, CIDR := s.CIDR } } } },
          ⟨s2, w.trace ++ [.subnetsList net.ID c.Spec.NodeCIDR,
            .tagsReplaceAll "subnets" s.ID (ownershipTags clusterName)]⟩⟩ := by
  have ht2 : b.exec (⟨s1, w.trace ++ [Call.subnetsList net.ID c.Spec.NodeCIDR]⟩ : World σ).st
      (.tagsReplaceAll "subnets" s.ID (ownershipTags clusterName)) = (t, s2) := ht
  cases t with
  | error e =>
    simp [ReconcileSubnet, hnet, hid, call_eq b w _ _ _ hl, tagAndRecordSubnet,
      call_eq b _ _ _ _ ht2]
  | ok v =>
    simp [ReconcileSubnet, hnet, hid, call_eq b w _ _ _ hl, tagAndRecordSubnet,
      call_eq b _ _ _ _ ht2]

theorem getSecurityGroupByName_single {σ : Type} (b : Backend σ) (name : String) (w : World σ)
    (g : OSSecGroup) (s1 : σ) (h : b.exec w.st (.groupsList name) = (.ok [g], s1)) :
    getSecurityGroupByName b name w =
      ((convertOSSecGroupToConfigSecGroup g, none), ⟨s1, w.trace ++ [.groupsList name]⟩) := by
  simp [getSecurityGroupByName, call_eq b w _ _ _ h]

/-- One iteration of the security-group loop on a group that exists and
matches: the only request is the lookup. -/
theorem reconcileSecGroupLoop_matched {σ : Type} (b : Backend σ) (clusterName k : String)
    (rest : List String) (obs : ObservedMap) (w : World σ) (g : OSSecGroup) (s1 : σ)
    (h : b.exec w.st (.groupsList (desiredSecGroups clusterName k).Name) = (.ok [g], s1))
    (hid : g.ID ≠ "")
    (hm : matchGroups (desiredSecGroups clusterName k)
      (convertOSSecGroupToConfigSecGroup g) = true) :
    reconcileSecGroupLoop b clusterName (k :: rest) obs w =
      reconcileSecGroupLoop b clusterName rest (obs.set k (convertOSSecGroupToConfigSecGroup g))
        ⟨s1, w.trace ++ [.groupsList (desiredSecGroups clusterName k).Name]⟩ := by
  have hid2 : (convertOSSecGroupToConfigSecGroup g).ID ≠ "" := hid
  rw [reconcileSecGroupLoop]
  simp [getSecurityGroupByName_single b _ w g s1 h, hid2, hm]

/-! ## C1: `matchGroups` and set equality -/

/-- C1, counterexample: with a repeated rule the result of `matchGroups` is
not set equality.  Desired `[tcp, tcp]` against observed `[tcp, udp]` is
judged a match although the observed set has one more element, and desired
`[tcp]` against observed `[tcp, tcp]` is judged a mismatch although the two
sets are equal. -/
theorem matchGroups_repeated_rules_not_set_equality :
    (matchGroups { Rules := [tcpRule, tcpRule] } { ID := "g", Rules := [tcpRule, udpRule] } = true ∧
      sameRuleSet (resolvedRules { Rules := [tcpRule, tcpRule] }
        { ID := "g", Rules := [tcpRule, udpRule] }) [tcpRule, udpRule] = false) ∧
    (matchGroups { Rules := [tcpRule] } { ID := "g", Rules := [tcpRule, tcpRule] } = false ∧
      sameRuleSet (resolvedRules { Rules := [tcpRule] }
        { ID := "g", Rules := [tcpRule, tcpRule] }) [tcpRule, tcpRule] = true) := by
  decide

/-- C1, amended: for every desired group `d` and observed group `o` whose rule
lists (the desired one after resolving `"self"` to `o.ID`) hold no repeated
rule, `matchGroups d o` is true if and only if the resolved desired rules and
the observed rules are equal as sets under `Equal`. -/
theorem matchGroups_iff_sameRuleSet_of_distinct (d o : SecurityGroup)
    (hd : distinctRules (resolvedRules d o)) (ho : distinctRules o.Rules) :
    matchGroups d o = true ↔ sameRuleSet (resolvedRules d o) o.Rules = true := by
  rw [matchGroups_iff, sameRuleSet_iff]
  rw [distinctRules_iff] at hd ho
  have hlen : ((resolvedRules d o).map ruleKey).length = d.Rules.length := by
    simp [resolvedRules]
  have hlen2 : (o.Rules.map ruleKey).length = o.Rules.length := by simp
  constructor
  · rintro ⟨hl, hsub⟩
    have hp := (List.subperm_of_subset hd hsub).perm_of_length_le (by omega)
    exact ⟨hsub, fun k hk => hp.symm.subset hk⟩
  · rintro ⟨h1, h2⟩
    have l1 := (List.subperm_of_subset hd h1).length_le
    have l2 := (List.subperm_of_subset ho h2).length_le
    exact ⟨by omega, h1⟩

/-- C1, witness: the generated global group of `demo` against the observed
group holding the same rules in reverse order. -/
theorem matchGroups_iff_sameRuleSet_of_distinct_witness :
    distinctRules (resolvedRules (generateGlobalGroup "demo") observedGlobalReversed) ∧
    distinctRules observedGlobalReversed.Rules ∧
    (matchGroups (generateGlobalGroup "demo") observedGlobalReversed = true ↔
      sameRuleSet (resolvedRules (generateGlobalGroup "demo") observedGlobalReversed)
        observedGlobalReversed.Rules = true) :=
  ⟨by decide, by decide,
    matchGroups_iff_sameRuleSet_of_distinct (generateGlobalGroup "demo") observedGlobalReversed
      (by decide) (by decide)⟩

/-! ## C2: a failed creation in `ReconcileSecurityGroups` -/

/-- C2, the code at the failing input: both groups of `demo` are absent and
the backend refuses every group creation (first part) or every rule creation
(second part).  `ReconcileSecurityGroups` returns nil and writes an empty
security group under both status keys; the claim asks for a non-nil error and
no write. -/
theorem ReconcileSecurityGroups_swallows_create_failure :
    (refusedGroupCreate.err = none ∧
      refusedGroupCreate.cluster.Status.ControlPlaneSecurityGroup = some {} ∧
      refusedGroupCreate.cluster.Status.GlobalSecurityGroup = some {} ∧
      refusedGroupCreate.world.st.groups = []) ∧
    (refusedRuleCreate.err = none ∧
      refusedRuleCreate.cluster.Status.ControlPlaneSecurityGroup = some {} ∧
      refusedRuleCreate.cluster.Status.GlobalSecurityGroup = some {}) := by
  decide

/-! ## C3: lookups on an ambiguous name -/

/-- C3, the code at the failing input: every lookup name matches two
resources.  `getNetworkByName` and `getSecurityGroupByName` return an error;
the six `checkIf...Exists` helpers return the first element and no error. -/
theorem checkIfExists_returns_first_of_many :
    (getNetworkByName cloudBackend "k8s-cluster-demo" duplicatesWorld).1 =
      .error "too many resources" ∧
    (getSecurityGroupByName cloudBackend "k8s-cluster-demo-secgroup-all" duplicatesWorld).1.2 =
      some "more than one security group found named: k8s-cluster-demo-secgroup-all" ∧
    (checkIfLbExists cloudBackend "k8s-cluster-demo-kubeapi" duplicatesWorld).1 =
      .ok (some { ID := "lb-1", Name := "k8s-cluster-demo-kubeapi" }) ∧
    (checkIfFloatingIPExists cloudBackend "172.24.4.10" duplicatesWorld).1 =
      .ok (some { ID := "fip-1", FloatingIP := "172.24.4.10" }) ∧
    (checkIfListenerExists cloudBackend "k8s-cluster-demo-kubeapi-6443" duplicatesWorld).1 =
      .ok (some { ID := "ls-1", Name := "k8s-cluster-demo-kubeapi-6443" }) ∧
    (checkIfPoolExists cloudBackend "k8s-cluster-demo-kubeapi-6443" duplicatesWorld).1 =
      .ok (some { ID := "pool-1", Name := "k8s-cluster-demo-kubeapi-6443" }) ∧
    (checkIfMonitorExists cloudBackend "k8s-cluster-demo-kubeapi-6443" duplicatesWorld).1 =
      .ok (some { ID := "mon-1", Name := "k8s-cluster-demo-kubeapi-6443" }) ∧
    (checkIfLbMemberExists cloudBackend "pool-1" "k8s-cluster-demo-kubeapi-6443-cp0"
        duplicatesWorld).1 =
      .ok (some { ID := "mem-1", Name := "k8s-cluster-demo-kubeapi-6443-cp0",
                  PoolID := "pool-1" }) :=
  ⟨rfl, rfl, rfl, rfl, rfl, rfl, rfl, rfl⟩

/-! ## C4: members of every port -/

/-- C4, the code at the failing input: a control-plane machine, the status
complete, both pools present, the member of port 6443 already at the address
10.0.0.6 and the member of port 6444 missing.  `ReconcileLoadBalancerMember`
returns nil after the two lookups of port 6443; the pool of port 6444 is
never looked up and holds no member. -/
theorem ReconcileLoadBalancerMember_stops_at_first_matching_port :
    memberPass.1 = none ∧
    memberPass.2.trace =
      [.poolsList "k8s-cluster-demo-kubeapi-6443" "",
       .membersList "pool-6443" "k8s-cluster-demo-kubeapi-6443-cp0"] ∧
    (memberPass.2.st.pools.filter (fun p => p.Name == "k8s-cluster-demo-kubeapi-6444")).length = 1 ∧
    memberPass.2.st.members.filter (fun m => m.PoolID == "pool-6444") = [] := by
  decide

/-! ## C5: `matchGroups` under reordering -/

/-- C5: `matchGroups` does not depend on the order of either rule list, and
an observed rule list that is a permutation of the desired rules with
`"self"` resolved to `o.ID` is judged a match. -/
theorem matchGroups_perm (d o : SecurityGroup) :
    (∀ dRules oRules : List SecurityGroupRule, dRules.Perm d.Rules → oRules.Perm o.Rules →
      matchGroups { d with Rules := dRules } { o with Rules := oRules } = matchGroups d o) ∧
    (o.Rules.Perm (resolvedRules d o) → matchGroups d o = true) := by
  constructor
  · intro dRules oRules hd ho
    rw [Bool.eq_iff_iff, matchGroups_iff, matchGroups_iff]
    simp only [resolvedRules]
    have hd2 := (hd.map (fun r => resolveSelf r o.ID)).map ruleKey
    have ho2 := ho.map ruleKey
    rw [hd.length_eq, ho.length_eq]
    constructor
    · rintro ⟨hl, hs⟩
      exact ⟨hl, fun k hk => ho2.subset (hs k (hd2.symm.subset hk))⟩
    · rintro ⟨hl, hs⟩
      exact ⟨hl, fun k hk => ho2.symm.subset (hs k (hd2.subset hk))⟩
  · intro h
    rw [matchGroups_iff]
    refine ⟨?_, fun k hk => (h.map ruleKey).symm.subset hk⟩
    have := h.length_eq
    simp [resolvedRules] at this
    exact this.symm

/-- C5, witness: the global group of `demo` and the observed group with the
resolved rules reversed; both rule lists are reversed once more. -/
theorem matchGroups_perm_witness :
    matchGroups
        { generateGlobalGroup "demo" with Rules := (generateGlobalGroup "demo").Rules.reverse }
        { observedGlobalReversed with Rules := observedGlobalReversed.Rules.reverse } =
      matchGroups (generateGlobalGroup "demo") observedGlobalReversed ∧
    matchGroups (generateGlobalGroup "demo") observedGlobalReversed = true :=
  ⟨(matchGroups_perm (generateGlobalGroup "demo") observedGlobalReversed).1 _ _
      (List.reverse_perm _) (List.reverse_perm _),
   (matchGroups_perm (generateGlobalGroup "demo") observedGlobalReversed).2
      (List.reverse_perm _)⟩

/-! ## C6: the `"self"` placeholder -/

/-- C6, counterexample: an observed group whose own id is the string `"self"`.
Its only rule agrees with the desired rule on the six other fields and has
the literal remote group `"self"`, and `matchGroups` is true, not false. -/
theorem matchGroups_literal_self_counterexample :
    selfRule.RemoteGroupID = "self" ∧
    ({ selfRule with ID := "rule-1" } : SecurityGroupRule).RemoteGroupID = "self" ∧
    matchGroups { Rules := [selfRule] }
      { ID := "self", Rules := [{ selfRule with ID := "rule-1" }] } = true := by
  decide

/-- C6, amended: for a desired rule `r` with remote group `"self"` and an
observed group `o` whose only rule `x` agrees with `r` on Direction,
EtherType, PortRangeMin, PortRangeMax, Protocol and RemoteIPPrefix,
`matchGroups` is true when `x.RemoteGroupID` equals `o.ID`, and is false when
`x.RemoteGroupID` is the literal `"self"` and `o.ID` is not `"self"`. -/
theorem matchGroups_self_placeholder (d o : SecurityGroup) (r x : SecurityGroupRule)
    (hd : d.Rules = [r]) (ho : o.Rules = [x]) (hself : r.RemoteGroupID = "self")
    (h1 : x.Direction = r.Direction) (h2 : x.EtherType = r.EtherType)
    (h3 : x.PortRangeMin = r.PortRangeMin) (h4 : x.PortRangeMax = r.PortRangeMax)
    (h5 : x.Protocol = r.Protocol) (h6 : x.RemoteIPPrefix = r.RemoteIPPrefix) :
    (x.RemoteGroupID = o.ID → matchGroups d o = true) ∧
    (x.RemoteGroupID = "self" → o.ID ≠ "self" → matchGroups d o = false) := by
  have key : matchGroups d o = true ↔ o.ID = x.RemoteGroupID := by
    rw [matchGroups_iff]
    simp [resolvedRules, hd, ho, resolveSelf, hself, ruleKey, h1, h2, h3, h4, h5, h6]
  constructor
  · intro h
    exact key.2 h.symm
  · intro h hne
    rw [← Bool.not_eq_true, key, h]
    exact hne

/-- C6, witness: the observed group `sg-all`, once with the remote group
`sg-all` on its rule and once with the literal `"self"`. -/
theorem matchGroups_self_placeholder_witness :
    matchGroups { Rules := [selfRule] }
        { ID := "sg-all", Rules := [{ selfRule with ID := "rule-1", RemoteGroupID := "sg-all" }] }
      = true ∧
    matchGroups { Rules := [selfRule] }
        { ID := "sg-all", Rules := [{ selfRule with ID := "rule-1" }] } = false :=
  ⟨(matchGroups_self_placeholder { Rules := [selfRule] }
      { ID := "sg-all", Rules := [{ selfRule with ID := "rule-1", RemoteGroupID := "sg-all" }] }
      selfRule { selfRule with ID := "rule-1", RemoteGroupID := "sg-all" }
      rfl rfl rfl rfl rfl rfl rfl rfl rfl).1 rfl,
   (matchGroups_self_placeholder { Rules := [selfRule] }
      { ID := "sg-all", Rules := [{ selfRule with ID := "rule-1" }] }
      selfRule { selfRule with ID := "rule-1" }
      rfl rfl rfl rfl rfl rfl rfl rfl rfl).2 rfl (by decide)⟩

/-! ## C7: `SecurityGroupRule.Equal` -/

/-- C7: `r.Equal x` is true exactly when the two rules agree on Direction,
EtherType, PortRangeMin, PortRangeMax, Protocol, RemoteGroupID and
RemoteIPPrefix, and the result does not change when the ID or the
SecurityGroupID of either rule is replaced. -/
theorem equal_compares_seven_fields (r x : SecurityGroupRule) :
    (r.Equal x = true ↔
      r.Direction = x.Direction ∧ r.EtherType = x.EtherType ∧
      r.PortRangeMin = x.PortRangeMin ∧ r.PortRangeMax = x.PortRangeMax ∧
      r.Protocol = x.Protocol ∧ r.RemoteGroupID = x.RemoteGroupID ∧
      r.RemoteIPPrefix = x.RemoteIPPrefix) ∧
    (∀ id1 sg1 id2 sg2 : String,
      SecurityGroupRule.Equal { r with ID := id1, SecurityGroupID := sg1 }
        { x with ID := id2, SecurityGroupID := sg2 } = r.Equal x) := by
  constructor
  · simp [SecurityGroupRule.Equal, and_assoc]
  · intro id1 sg1 id2 sg2
    rfl

/-! ## C8: `ReconcileSubnet` twice -/

/-- C8, counterexample: the network of `demo` exists and exactly one subnet
matches.  Both passes succeed and leave the same cluster object, and the
second pass issues a tag replacement, which is a mutating request. -/
theorem ReconcileSubnet_second_pass_replaces_tags :
    firstSubnetPass.err = none ∧
    firstSubnetPass.world.st.subnets = [demoSubnet] ∧
    secondSubnetPass.err = none ∧
    secondSubnetPass.cluster = firstSubnetPass.cluster ∧
    secondSubnetPass.world.trace =
      [.subnetsList "net-1" "10.6.0.0/24",
       .tagsReplaceAll "subnets" "sub-1" ["cluster-api-provider-openstack", "demo"]] ∧
    secondSubnetPass.world.trace.any Call.mutating = true := by
  decide

/-- C8, amended: when the status network exists, the subnet filter matches
exactly the subnet `s` at both passes and the tag replacement of the second
pass succeeds exactly if that of the first did, the second pass leaves the
cluster object (hence the status) of the first, returns an error exactly if
the first did, and issues two requests: the subnet listing and one
replacement of the tags of `s`; it creates no subnet. -/
theorem ReconcileSubnet_twice {σ : Type} (b : Backend σ) (networkPrefix clusterName : String)
    (c : OpenStackCluster) (w : World σ) (net : Network) (s : OSSubnet) (s1 s2 s3 s4 : σ)
    (t1 t2 : Except String (List String))
    (hnet : c.Status.Network = some net) (hid : net.ID ≠ "")
    (hl1 : b.exec w.st (.subnetsList net.ID c.Spec.NodeCIDR) = (.ok [s], s1))
    (ht1 : b.exec s1 (.tagsReplaceAll "subnets" s.ID (ownershipTags clusterName)) = (t1, s2))
    (hl2 : b.exec s2 (.subnetsList net.ID c.Spec.NodeCIDR) = (.ok [s], s3))
    (ht2 : b.exec s3 (.tagsReplaceAll "subnets" s.ID (ownershipTags clusterName)) = (t2, s4))
    (hsame : t1.isOk = t2.isOk) :
    (ReconcileSubnet b networkPrefix clusterName
        (ReconcileSubnet b networkPrefix clusterName c w).cluster
        (ReconcileSubnet b networkPrefix clusterName c w).world).cluster =
      (ReconcileSubnet b networkPrefix clusterName c w).cluster ∧
    (ReconcileSubnet b networkPrefix clusterName
        (ReconcileSubnet b networkPrefix clusterName c w).cluster
        (ReconcileSubnet b networkPrefix clusterName c w).world).err.isNone =
      (ReconcileSubnet b networkPrefix clusterName c w).err.isNone ∧
    (ReconcileSubnet b networkPrefix clusterName
        (ReconcileSubnet b networkPrefix clusterName c w).cluster
        (ReconcileSubnet b networkPrefix clusterName c w).world).world.trace =
      (ReconcileSubnet b networkPrefix clusterName c w).world.trace ++
        [.subnetsList net.ID c.Spec.NodeCIDR,
         .tagsReplaceAll "subnets" s.ID (ownershipTags clusterName)] := by
  have h1 := ReconcileSubnet_adopt b networkPrefix clusterName c w net s s1 s2 t1 hnet hid hl1 ht1
  cases t1 with
  | error e1 =>
    cases t2 with
    | ok v2 => simp [Except.isOk, Except.toBool] at hsame
    | error e2 =>
      rw [h1]
      have h2 := ReconcileSubnet_adopt b networkPrefix clusterName c
        ⟨s2, w.trace ++ [.subnetsList net.ID c.Spec.NodeCIDR,
          .tagsReplaceAll "subnets" s.ID (ownershipTags clusterName)]⟩ net s s3 s4
        (.error e2) hnet hid hl2 ht2
      simp only [h2]
      simp
  | ok v1 =>
    cases t2 with
    | error e2 => simp [Except.isOk, Except.toBool] at hsame
    | ok v2 =>
      rw [h1]
      have h2 := ReconcileSubnet_adopt b networkPrefix clusterName
        { c with Status := { c.Status with Network := some { net with
            Subnet := some { ID := s.ID, Name := s.Name, CIDR := s.CIDR } } } }
        ⟨s2, w.trace ++ [.subnetsList net.ID c.Spec.NodeCIDR,
          .tagsReplaceAll "subnets" s.ID (ownershipTags clusterName)]⟩
        { net with Subnet := some { ID := s.ID, Name := s.Name, CIDR := s.CIDR } } s s3 s4
        (.ok v2) rfl hid hl2 ht2
      simp only [h2]
      simp

/-- C8, witness: the reference backend holding the one subnet of `demo`. -/
theorem ReconcileSubnet_twice_witness :
    (ReconcileSubnet cloudBackend "k8s" "demo"
        (ReconcileSubnet cloudBackend "k8s" "demo" demoCluster ⟨oneSubnetCloud, []⟩).cluster
        (ReconcileSubnet cloudBackend "k8s" "demo" demoCluster ⟨oneSubnetCloud, []⟩).world).cluster =
      (ReconcileSubnet cloudBackend "k8s" "demo" demoCluster ⟨oneSubnetCloud, []⟩).cluster ∧
    (ReconcileSubnet cloudBackend "k8s" "demo"
        (ReconcileSubnet cloudBackend "k8s" "demo" demoCluster ⟨oneSubnetCloud, []⟩).cluster
        (ReconcileSubnet cloudBackend "k8s" "demo" demoCluster ⟨oneSubnetCloud, []⟩).world).err.isNone =
      (ReconcileSubnet cloudBackend "k8s" "demo" demoCluster ⟨oneSubnetCloud, []⟩).err.isNone ∧
    (ReconcileSubnet cloudBackend "k8s" "demo"
        (ReconcileSubnet cloudBackend "k8s" "demo" demoCluster ⟨oneSubnetCloud, []⟩).cluster
        (ReconcileSubnet cloudBackend "k8s" "demo" demoCluster ⟨oneSubnetCloud, []⟩).world).world.trace =
      (ReconcileSubnet cloudBackend "k8s" "demo" demoCluster ⟨oneSubnetCloud, []⟩).world.trace ++
        [.subnetsList "net-1" "10.6.0.0/24",
         .tagsReplaceAll "subnets" "sub-1" (ownershipTags "demo")] :=
  ReconcileSubnet_twice cloudBackend "k8s" "demo" demoCluster ⟨oneSubnetCloud, []⟩
    { ID := "net-1", Name := "k8s-cluster-demo" } demoSubnet
    oneSubnetCloud taggedSubnetCloud taggedSubnetCloud taggedSubnetCloud
    (.ok (ownershipTags "demo")) (.ok (ownershipTags "demo"))
    rfl (by decide) rfl rfl rfl rfl rfl

/-! ## C9: `ReconcileSubnet` on an ambiguous subnet -/

/-- C9: when the status holds a network with a non-empty id and the backend
lists two or more subnets for that network id and the configured CIDR,
`ReconcileSubnet` returns an error, its only request is the subnet listing
(no subnet creation, no tag replacement), and the cluster object, with it
`Status.Network.Subnet`, is unchanged. -/
theorem ReconcileSubnet_ambiguous {σ : Type} (b : Backend σ) (networkPrefix clusterName : String)
    (c : OpenStackCluster) (w : World σ) (net : Network) (subnetList : List OSSubnet) (s1 : σ)
    (hnet : c.Status.Network = some net) (hid : net.ID ≠ "")
    (hlist : b.exec w.st (.subnetsList net.ID c.Spec.NodeCIDR) = (.ok subnetList, s1))
    (hmany : 2 ≤ subnetList.length) :
    (ReconcileSubnet b networkPrefix clusterName c w).err =
        some (tooManySubnets subnetList.length c.Spec.NodeCIDR) ∧
      (ReconcileSubnet b networkPrefix clusterName c w).world.trace =
        w.trace ++ [.subnetsList net.ID c.Spec.NodeCIDR] ∧
      (ReconcileSubnet b networkPrefix clusterName c w).cluster = c := by
  have hgt : subnetList.length > 1 := by omega
  simp [ReconcileSubnet, hnet, hid, call_eq b w _ _ _ hlist, hgt]

/-- C9, witness: the reference backend holding two subnets for the network
and CIDR of `demo`. -/
theorem ReconcileSubnet_ambiguous_witness :
    (ReconcileSubnet cloudBackend "k8s" "demo" demoCluster ⟨twoSubnetCloud, []⟩).err =
        some (tooManySubnets 2 "10.6.0.0/24") ∧
      (ReconcileSubnet cloudBackend "k8s" "demo" demoCluster ⟨twoSubnetCloud, []⟩).world.trace =
        [] ++ [.subnetsList "net-1" "10.6.0.0/24"] ∧
      (ReconcileSubnet cloudBackend "k8s" "demo" demoCluster ⟨twoSubnetCloud, []⟩).cluster =
        demoCluster :=
  ReconcileSubnet_ambiguous cloudBackend "k8s" "demo" demoCluster ⟨twoSubnetCloud, []⟩
    { ID := "net-1", Name := "k8s-cluster-demo" } [demoSubnet, { demoSubnet with ID := "sub-2" }]
    twoSubnetCloud rfl (by decide) rfl (by decide)

/-! ## C10: `ReconcileSecurityGroups` on matching groups -/

/-- C10: with `ManagedSecurityGroups` set, in either order `[k1, k2]` of the
two map keys, if each lookup returns exactly one group with a non-empty id
that `matchGroups` judges equal to the desired group, then
`ReconcileSecurityGroups` returns nil, its only requests are the two lookups
(no group creation, rule creation or rule deletion), and the status records
exactly the two observed groups. -/
theorem ReconcileSecurityGroups_matched {σ : Type} (b : Backend σ) (clusterName k1 k2 : String)
    (c : OpenStackCluster) (w : World σ) (g1 g2 : OSSecGroup) (s1 s2 : σ)
    (hkeys : (k1 = "controlplane" ∧ k2 = "global") ∨ (k1 = "global" ∧ k2 = "controlplane"))
    (hmanaged : c.Spec.ManagedSecurityGroups = true)
    (hl1 : b.exec w.st (.groupsList (desiredSecGroups clusterName k1).Name) = (.ok [g1], s1))
    (hl2 : b.exec s1 (.groupsList (desiredSecGroups clusterName k2).Name) = (.ok [g2], s2))
    (hid1 : g1.ID ≠ "") (hid2 : g2.ID ≠ "")
    (hm1 : matchGroups (desiredSecGroups clusterName k1)
      (convertOSSecGroupToConfigSecGroup g1) = true)
    (hm2 : matchGroups (desiredSecGroups clusterName k2)
      (convertOSSecGroupToConfigSecGroup g2) = true) :
    ReconcileSecurityGroups b [k1, k2] clusterName c w =
      ⟨none,
       { c with Status := { c.Status with
          ControlPlaneSecurityGroup :=
            some (convertOSSecGroupToConfigSecGroup (if k1 = "controlplane" then g1 else g2))
          GlobalSecurityGroup :=
            some (convertOSSecGroupToConfigSecGroup (if k1 = "global" then g1 else g2)) } },
       ⟨s2, w.trace ++ [.groupsList (desiredSecGroups clusterName k1).Name,
                        .groupsList (desiredSecGroups clusterName k2).Name]⟩⟩ := by
  have hl2w : b.exec (⟨s1, w.trace ++ [Call.groupsList (desiredSecGroups clusterName k1).Name]⟩ :
      World σ).st (.groupsList (desiredSecGroups clusterName k2).Name) = (.ok [g2], s2) := hl2
  unfold ReconcileSecurityGroups
  rw [reconcileSecGroupLoop_matched b clusterName k1 [k2] _ w g1 s1 hl1 hid1 hm1,
    reconcileSecGroupLoop_matched b clusterName k2 [] _ _ g2 s2 hl2w hid2 hm2]
  rcases hkeys with ⟨h1, h2⟩ | ⟨h1, h2⟩ <;> subst h1 <;> subst h2 <;>
    simp [hmanaged, reconcileSecGroupLoop, ObservedMap.set]

/-- C10, witness: the reference backend holding both groups of `demo` with
the desired rules, the map ranged with the global key first. -/
theorem ReconcileSecurityGroups_matched_witness :
    ReconcileSecurityGroups cloudBackend ["global", "controlplane"] "demo" demoCluster
        ⟨matchedCloud, []⟩ =
      ⟨none,
       { demoCluster with Status := { demoCluster.Status with
          ControlPlaneSecurityGroup :=
            some (convertOSSecGroupToConfigSecGroup
              (if "global" = "controlplane" then storedGlobalGroup else storedControlPlaneGroup))
          GlobalSecurityGroup :=
            some (convertOSSecGroupToConfigSecGroup
              (if "global" = "global" then storedGlobalGroup else storedControlPlaneGroup)) } },
       ⟨matchedCloud, [] ++ [.groupsList (desiredSecGroups "demo" "global").Name,
                        .groupsList (desiredSecGroups "demo" "controlplane").Name]⟩⟩ :=
  ReconcileSecurityGroups_matched cloudBackend "demo" "global" "controlplane" demoCluster
    ⟨matchedCloud, []⟩ storedGlobalGroup storedControlPlaneGroup matchedCloud matchedCloud
    (Or.inr ⟨rfl, rfl⟩) rfl rfl rfl (by decide) (by decide) (by decide) (by decide)

/-! ## Auxiliary lemmas: waits, teardown, load balancer, rule passes -/

theorem call_trace {σ : Type} (b : Backend σ) (w : World σ) (c : Call) :
    (call b w c).2.trace = w.trace ++ [c] := rfl

theorem call_fst {σ : Type} (b : Backend σ) (w : World σ) (c : Call) :
    (call b w c).1 = (b.exec w.st c).1 := rfl

/-- A wait whose condition issues the one request `c` per attempt issues `c`
at most `steps` times, and at least once unless `steps` is zero. -/
theorem ExponentialBackoff_trace {σ : Type} (cond : World σ → Except String Bool × World σ)
    (c : Call) (hc : ∀ w, (cond w).2.trace = w.trace ++ [c]) :
    ∀ (steps : Nat) (w : World σ), ∃ n, n ≤ steps ∧ (0 < steps → 1 ≤ n) ∧
      (ExponentialBackoff cond steps w).2.trace = w.trace ++ List.replicate n c := by
  intro steps
  induction steps with
  | zero =>
    intro w
    exact ⟨0, le_refl _, by simp, by simp [ExponentialBackoff]⟩
  | succ k ih =>
    intro w
    have h := hc w
    unfold ExponentialBackoff
    rcases hcw : cond w with ⟨r, w1⟩
    rw [hcw] at h
    simp only at h
    cases r with
    | error e => exact ⟨1, by omega, by simp, by simp [h]⟩
    | ok v =>
      cases v with
      | true => exact ⟨1, by omega, by simp, by simp [h]⟩
      | false =>
        obtain ⟨n, hn, -, ht⟩ := ih w1
        refine ⟨n + 1, by omega, by intro _; omega, ?_⟩
        simp only [ht, h, List.replicate_succ, List.append_assoc, List.singleton_append]

/-- A load-balancer wait issues between one and ten probes and nothing else. -/
theorem waitForLoadBalancer_trace {σ : Type} (b : Backend σ) (id target : String) (w : World σ) :
    ∃ n, (1 ≤ n ∧ n ≤ 10) ∧
      (waitForLoadBalancer b id target w).2.trace =
        w.trace ++ List.replicate n (.loadbalancersGet id) := by
  have key := ExponentialBackoff_trace (fun (w0 : World σ) =>
    match call b w0 (.loadbalancersGet id) with
    | (.error e, w1) => (.error e, w1)
    | (.ok lb, w1) => (.ok (lb.ProvisioningStatus == target), w1)) (.loadbalancersGet id)
    (by
      intro w0
      beta_reduce
      rcases h : call b w0 (.loadbalancersGet id) with ⟨r, w1⟩
      have ht := call_trace b w0 (.loadbalancersGet id)
      rw [h] at ht
      cases r <;> simpa using ht) backoffSteps w
  obtain ⟨n, h1, h2, h3⟩ := key
  exact ⟨n, ⟨h2 (by decide), h1⟩, h3⟩

/-- A floating-IP wait issues between one and ten probes and nothing else. -/
theorem waitForFloatingIP_trace {σ : Type} (b : Backend σ) (id target : String) (w : World σ) :
    ∃ n, (1 ≤ n ∧ n ≤ 10) ∧
      (waitForFloatingIP b id target w).2.trace =
        w.trace ++ List.replicate n (.floatingipsGet id) := by
  have key := ExponentialBackoff_trace (fun (w0 : World σ) =>
    match call b w0 (.floatingipsGet id) with
    | (.error e, w1) => (.error e, w1)
    | (.ok fp, w1) => (.ok (fp.Status == target), w1)) (.floatingipsGet id)
    (by
      intro w0
      beta_reduce
      rcases h : call b w0 (.floatingipsGet id) with ⟨r, w1⟩
      have ht := call_trace b w0 (.floatingipsGet id)
      rw [h] at ht
      cases r <;> simpa using ht) backoffSteps w
  obtain ⟨n, h1, h2, h3⟩ := key
  exact ⟨n, ⟨h2 (by decide), h1⟩, h3⟩

/-- A listener wait issues between one and ten probes and nothing else. -/
theorem waitForListener_trace {σ : Type} (b : Backend σ) (id : String) (w : World σ) :
    ∃ n, (1 ≤ n ∧ n ≤ 10) ∧
      (waitForListener b id w).2.trace = w.trace ++ List.replicate n (.listenersGet id) := by
  have key := ExponentialBackoff_trace (fun (w0 : World σ) =>
    match call b w0 (.listenersGet id) with
    | (.error e, w1) => (.error e, w1)
    | (.ok _, w1) => (.ok true, w1)) (.listenersGet id)
    (by
      intro w0
      beta_reduce
      rcases h : call b w0 (.listenersGet id) with ⟨r, w1⟩
      have ht := call_trace b w0 (.listenersGet id)
      rw [h] at ht
      cases r <;> simpa using ht) backoffSteps w
  obtain ⟨n, h1, h2, h3⟩ := key
  exact ⟨n, ⟨h2 (by decide), h1⟩, h3⟩

theorem waitForLoadBalancer_mutating {σ : Type} (b : Backend σ) (id target : String)
    (w : World σ) :
    (waitForLoadBalancer b id target w).2.trace.filter Call.mutating =
      w.trace.filter Call.mutating := by
  obtain ⟨n, -, ht⟩ := waitForLoadBalancer_trace b id target w
  rw [ht, List.filter_append]
  have : (List.replicate n (Call.loadbalancersGet id)).filter Call.mutating = [] := by
    rw [List.filter_eq_nil_iff]
    intro a ha
    rw [List.eq_of_mem_replicate ha]
    simp [Call.mutating]
  rw [this, List.append_nil]

/-- A wait that ended, as known from the pair it returned. -/
theorem waitForLoadBalancer_ok {σ : Type} (b : Backend σ) (id target : String) (w w1 : World σ)
    (r : Option String) (h : waitForLoadBalancer b id target w = (r, w1)) :
    ∃ n, (1 ≤ n ∧ n ≤ 10) ∧ w1.trace = w.trace ++ List.replicate n (.loadbalancersGet id) := by
  obtain ⟨n, hn, ht⟩ := waitForLoadBalancer_trace b id target w
  rw [h] at ht
  exact ⟨n, hn, ht⟩

theorem createLbMember_ok {σ : Type} (b : Backend σ) (lbID poolID name : String) (port : Int)
    (ip subnetID : String) (w w1 : World σ)
    (h : createLbMember b lbID poolID name port ip subnetID w = (none, w1)) :
    ∃ n3 n4, (1 ≤ n3 ∧ n3 ≤ 10) ∧ (1 ≤ n4 ∧ n4 ≤ 10) ∧
      w1.trace = w.trace ++ List.replicate n3 (.loadbalancersGet lbID) ++
        [.membersCreate poolID
          { Name := name, ProtocolPort := port, Address := ip, SubnetID := subnetID }] ++
        List.replicate n4 (.loadbalancersGet lbID) := by
  unfold createLbMember at h
  rcases hw : waitForLoadBalancer b lbID "ACTIVE" w with ⟨r, wa⟩
  rw [hw] at h
  cases r with
  | some e => simp at h
  | none =>
    obtain ⟨n3, ⟨h3a, h3b⟩, h3t⟩ := waitForLoadBalancer_ok b lbID _ w wa _ hw
    simp only at h
    rcases hc : call b wa (.membersCreate poolID
      { Name := name, ProtocolPort := port, Address := ip, SubnetID := subnetID }) with ⟨rc, wb⟩
    have hct := call_trace b wa (.membersCreate poolID
      { Name := name, ProtocolPort := port, Address := ip, SubnetID := subnetID })
    rw [hc] at h hct
    cases rc with
    | error e => simp at h
    | ok v =>
      simp only at h hct
      obtain ⟨n4, ⟨h4a, h4b⟩, h4t⟩ := waitForLoadBalancer_ok b lbID _ wb w1 _ h
      exact ⟨n3, n4, ⟨h3a, h3b⟩, ⟨h4a, h4b⟩, by rw [h4t, hct, h3t]⟩

/-- A wait whose condition keeps answering false runs out of steps after
exactly `steps` attempts. -/
theorem ExponentialBackoff_exhausts {σ : Type} (cond : World σ → Except String Bool × World σ)
    (c : Call) (Inv : σ → Prop)
    (hc : ∀ w, Inv w.st → (cond w).1 = .ok false ∧ Inv (cond w).2.st ∧
      (cond w).2.trace = w.trace ++ [c]) :
    ∀ (steps : Nat) (w : World σ), Inv w.st →
      (ExponentialBackoff cond steps w).1 = some errWaitTimeout ∧
      (ExponentialBackoff cond steps w).2.trace = w.trace ++ List.replicate steps c := by
  intro steps
  induction steps with
  | zero => intro w _; simp [ExponentialBackoff]
  | succ k ih =>
    intro w hw
    obtain ⟨h1, h2, h3⟩ := hc w hw
    unfold ExponentialBackoff
    rcases hcw : cond w with ⟨r, w1⟩
    rw [hcw] at h1 h2 h3
    simp only at h1 h2 h3
    subst h1
    obtain ⟨i1, i2⟩ := ih w1 h2
    simp only [i1, i2, h3, List.replicate_succ, List.append_assoc, List.singleton_append,
      and_self]

theorem call_mutating {σ : Type} (b : Backend σ) (w : World σ) (c : Call) :
    (call b w c).2.trace.filter Call.mutating =
      w.trace.filter Call.mutating ++ (if c.mutating then [c] else []) := by
  rw [call_trace, List.filter_append]
  by_cases h : c.mutating = true <;> simp [h]

theorem deleteMembers_ok {σ : Type} (b : Backend σ) (lbID poolID : String) :
    ∀ (members : List OSMember) (w w1 : World σ),
      deleteMembers b lbID poolID members w = (none, w1) →
      w1.trace.filter Call.mutating =
        w.trace.filter Call.mutating ++ members.map (fun m => Call.membersDelete poolID m.ID) := by
  intro members
  induction members with
  | nil => intro w w1 h; simp [deleteMembers] at h; simp [← h]
  | cons m rest ih =>
    intro w w1 h
    unfold deleteMembers at h
    rcases hd : call b w (.membersDelete poolID m.ID) with ⟨rd, wa⟩
    have td := call_mutating b w (.membersDelete poolID m.ID)
    rw [hd] at h td
    cases rd with
    | error e => simp at h
    | ok v =>
      simp only at h td
      rcases hw : waitForLoadBalancer b lbID "ACTIVE" wa with ⟨r, wb⟩
      have tw := waitForLoadBalancer_mutating b lbID "ACTIVE" wa
      rw [hw] at h tw
      cases r with
      | some e => simp at h
      | none =>
        simp only at h tw
        rw [ih wb w1 h, tw, td]
        simp [Call.mutating]

theorem deletePoolMonitor_ok {σ : Type} (b : Backend σ) (lbID : String) (pool : OSPool)
    (w w1 : World σ) (h : deletePoolMonitor b lbID pool w = (none, w1)) :
    w1.trace.filter Call.mutating = w.trace.filter Call.mutating ++
      (if pool.MonitorID != "" then [Call.monitorsDelete pool.MonitorID] else []) := by
  unfold deletePoolMonitor at h
  by_cases hm : (pool.MonitorID != "") = true
  · simp only [hm, if_true] at h ⊢
    rcases hd : call b w (.monitorsDelete pool.MonitorID) with ⟨rd, wa⟩
    have td := call_mutating b w (.monitorsDelete pool.MonitorID)
    rw [hd] at h td
    cases rd with
    | error e => simp at h
    | ok v =>
      simp only at h td
      rcases hw : waitForLoadBalancer b lbID "ACTIVE" wa with ⟨r, wb⟩
      have tw := waitForLoadBalancer_mutating b lbID "ACTIVE" wa
      rw [hw] at h tw
      cases r with
      | some e => simp at h
      | none =>
        simp only [Prod.mk.injEq, true_and] at h tw
        subst h
        rw [tw, td]
        simp [Call.mutating]
  · simp only [hm, Bool.false_eq_true, if_false, Prod.mk.injEq, true_and] at h ⊢
    subst h
    simp

theorem deletePools_ok {σ : Type} (b : Backend σ) (lbID : String) :
    ∀ (pools : List OSPool) (w w1 : World σ),
      deletePools b lbID pools w = (none, w1) →
      ∃ pms : List (OSPool × List OSMember),
        pms.map Prod.fst = pools ∧
        (∀ pm ∈ pms, ∃ s, (b.exec s (.membersList pm.1.ID "")).1 = .ok pm.2) ∧
        w1.trace.filter Call.mutating = w.trace.filter Call.mutating ++
          pms.flatMap (fun pm => poolTeardownCalls pm.1 pm.2) := by
  intro pools
  induction pools with
  | nil =>
    intro w w1 h
    simp [deletePools] at h
    exact ⟨[], rfl, by simp, by simp [← h]⟩
  | cons p rest ih =>
    intro w w1 h
    unfold deletePools at h
    rcases hmon : deletePoolMonitor b lbID p w with ⟨rm, wa⟩
    rw [hmon] at h
    cases rm with
    | some e => simp at h
    | none =>
      have tmon := deletePoolMonitor_ok b lbID p w wa hmon
      simp only at h
      rcases hl : call b wa (.membersList p.ID "") with ⟨rl, wb⟩
      have tl := call_mutating b wa (.membersList p.ID "")
      have fl := call_fst b wa (.membersList p.ID "")
      rw [hl] at h tl fl
      cases rl with
      | error e => simp at h
      | ok members =>
        simp only at h tl fl
        rcases hdm : deleteMembers b lbID p.ID members wb with ⟨rdm, wc⟩
        rw [hdm] at h
        cases rdm with
        | some e => simp at h
        | none =>
          have tdm := deleteMembers_ok b lbID p.ID members wb wc hdm
          simp only at h
          rcases hd : call b wc (.poolsDelete p.ID) with ⟨rd, wd⟩
          have td := call_mutating b wc (.poolsDelete p.ID)
          rw [hd] at h td
          cases rd with
          | error e => simp at h
          | ok v =>
            simp only at h td
            rcases hw : waitForLoadBalancer b lbID "ACTIVE" wd with ⟨r, we⟩
            have tw := waitForLoadBalancer_mutating b lbID "ACTIVE" wd
            rw [hw] at h tw
            cases r with
            | some e => simp at h
            | none =>
              simp only at h tw
              obtain ⟨pms, hp1, hp2, hp3⟩ := ih we w1 h
              refine ⟨(p, members) :: pms, by simp [hp1], ?_, ?_⟩
              · intro pm hpm
                rcases List.mem_cons.1 hpm with rfl | hpm
                · exact ⟨wa.st, fl.symm⟩
                · exact hp2 pm hpm
              · rw [hp3, tw, td, tdm, tl, tmon]
                simp [Call.mutating, poolTeardownCalls]

theorem deleteListeners_ok {σ : Type} (b : Backend σ) (lbID : String) :
    ∀ (listeners : List OSListener) (w w1 : World σ),
      deleteListeners b lbID listeners w = (none, w1) →
      w1.trace.filter Call.mutating =
        w.trace.filter Call.mutating ++ listeners.map (fun l => Call.listenersDelete l.ID) := by
  intro listeners
  induction listeners with
  | nil => intro w w1 h; simp [deleteListeners] at h; simp [← h]
  | cons m rest ih =>
    intro w w1 h
    unfold deleteListeners at h
    rcases hd : call b w (.listenersDelete m.ID) with ⟨rd, wa⟩
    have td := call_mutating b w (.listenersDelete m.ID)
    rw [hd] at h td
    cases rd with
    | error e => simp at h
    | ok v =>
      simp only at h td
      rcases hw : waitForLoadBalancer b lbID "ACTIVE" wa with ⟨r, wb⟩
      have tw := waitForLoadBalancer_mutating b lbID "ACTIVE" wa
      rw [hw] at h tw
      cases r with
      | some e => simp at h
      | none =>
        simp only at h tw
        rw [ih wb w1 h, tw, td]
        simp [Call.mutating]

/-- The mutating requests of a successful manual teardown. -/
theorem deleteLoadBalancerNeutronV2_mutations {σ : Type} (b : Backend σ) (id : String)
    (w : World σ) (lb : OSLoadBalancer) (lbListeners : List OSListener) (lbPools : List OSPool)
    (s1 s2 s3 : σ)
    (hget : b.exec w.st (.loadbalancersGet id) = (.ok lb, s1))
    (hlisteners : b.exec s1 (.listenersList "" lb.ID) = (.ok lbListeners, s2))
    (hpools : b.exec s2 (.poolsList "" lb.ID) = (.ok lbPools, s3))
    (hok : (deleteLoadBalancerNeutronV2 b id w).1 = none) :
    ∃ pms : List (OSPool × List OSMember),
      pms.map Prod.fst = lbPools ∧
      (∀ pm ∈ pms, ∃ s, (b.exec s (.membersList pm.1.ID "")).1 = .ok pm.2) ∧
      (deleteLoadBalancerNeutronV2 b id w).2.trace.filter Call.mutating =
        w.trace.filter Call.mutating ++ teardownCalls lb.ID pms lbListeners := by
  have h2 : b.exec (⟨s1, w.trace ++ [Call.loadbalancersGet id]⟩ : World σ).st
      (.listenersList "" lb.ID) = (.ok lbListeners, s2) := hlisteners
  have h3 : b.exec (⟨s2, w.trace ++ [Call.loadbalancersGet id] ++ [Call.listenersList "" lb.ID]⟩ :
      World σ).st (.poolsList "" lb.ID) = (.ok lbPools, s3) := hpools
  revert hok
  simp only [deleteLoadBalancerNeutronV2, call_eq b w _ _ _ hget, call_eq b _ _ _ _ h2,
    call_eq b _ _ _ _ h3]
  rcases hp : deletePools b lb.ID lbPools _ with ⟨rp, wa⟩
  cases rp with
  | some e => simp
  | none =>
    obtain ⟨pms, hp1, hp2, hp3⟩ := deletePools_ok b lb.ID lbPools _ wa hp
    simp only
    rcases hl : deleteListeners b lb.ID lbListeners wa with ⟨rl, wb⟩
    cases rl with
    | some e => simp
    | none =>
      have tl := deleteListeners_ok b lb.ID lbListeners wa wb hl
      simp only
      rcases hd : call b wb (.loadbalancersDelete lb.ID false) with ⟨rd, wc⟩
      have td := call_mutating b wb (.loadbalancersDelete lb.ID false)
      rw [hd] at td
      cases rd with
      | error e => simp
      | ok v =>
        intro _
        refine ⟨pms, hp1, hp2, ?_⟩
        simp only at td
        rw [td, tl, hp3]
        simp [Call.mutating, teardownCalls]

theorem own_of_not_pool (c1 c2 : Call) (h : ∀ p, c1 ≠ .poolsDelete p) :
    poolDeleteThenOwnMemberDelete c1 c2 = false := by
  cases c1 <;> first | rfl | exact absurd rfl (h _)

theorem own_of_not_member (c1 c2 : Call) (h : ∀ p m, c2 ≠ .membersDelete p m) :
    poolDeleteThenOwnMemberDelete c1 c2 = false := by
  cases c2 <;> first | (cases c1 <;> rfl) | exact absurd rfl (h _ _)

theorem mem_poolTeardownCalls (pool : OSPool) (members : List OSMember) (c : Call)
    (h : c ∈ poolTeardownCalls pool members) :
    c = .monitorsDelete pool.MonitorID ∨ (∃ m, c = .membersDelete pool.ID m) ∨
      c = .poolsDelete pool.ID := by
  unfold poolTeardownCalls at h
  simp only [List.mem_append, List.mem_map, List.mem_singleton] at h
  rcases h with (h | ⟨m, -, rfl⟩) | h
  · left
    by_cases hm : (pool.MonitorID != "") = true
    · simpa [hm] using h
    · simp [hm] at h
  · exact Or.inr (Or.inl ⟨m.ID, rfl⟩)
  · exact Or.inr (Or.inr h)

theorem pairwise_poolTeardownCalls (pool : OSPool) (members : List OSMember) :
    (poolTeardownCalls pool members).Pairwise
      (fun c1 c2 => poolDeleteThenOwnMemberDelete c1 c2 = false) := by
  unfold poolTeardownCalls
  rw [List.pairwise_append]
  refine ⟨?_, List.pairwise_singleton _ _, ?_⟩
  · apply List.pairwise_of_forall_mem_list
    intro a ha c _
    apply own_of_not_pool
    intro p hp
    subst hp
    simp only [List.mem_append, List.mem_map] at ha
    rcases ha with ha | ⟨m, -, hm⟩
    · by_cases hmon : (pool.MonitorID != "") = true
      · simp [hmon] at ha
      · simp [hmon] at ha
    · cases hm
  · intro a _ c hc
    apply own_of_not_member
    intro p m hpm
    subst hpm
    simp at hc

theorem pairwise_teardownCalls (lbID : String) (pms : List (OSPool × List OSMember))
    (listeners : List OSListener) (hnodup : (pms.map (fun pm => pm.1.ID)).Nodup) :
    (teardownCalls lbID pms listeners).Pairwise
      (fun c1 c2 => poolDeleteThenOwnMemberDelete c1 c2 = false) := by
  unfold teardownCalls
  rw [List.append_assoc, List.pairwise_append]
  refine ⟨?_, ?_, ?_⟩
  · rw [List.pairwise_flatMap]
    refine ⟨fun pm _ => pairwise_poolTeardownCalls pm.1 pm.2, ?_⟩
    unfold List.Nodup at hnodup
    rw [List.pairwise_map] at hnodup
    refine hnodup.imp ?_
    intro a1 a2 hne x hx y hy
    rcases mem_poolTeardownCalls _ _ _ hx with rfl | ⟨m, rfl⟩ | rfl
    · exact own_of_not_pool _ _ (fun p hp => by cases hp)
    · exact own_of_not_pool _ _ (fun p hp => by cases hp)
    · rcases mem_poolTeardownCalls _ _ _ hy with rfl | ⟨m, rfl⟩ | rfl
      · rfl
      · simpa [poolDeleteThenOwnMemberDelete] using hne
      · rfl
  · apply List.pairwise_of_forall_mem_list
    intro a _ c hc
    apply own_of_not_member
    intro p m hpm
    subst hpm
    simp at hc
  · intro a _ c hc
    apply own_of_not_member
    intro p m hpm
    subst hpm
    simp at hc

theorem gateRun_append (lbID : String) : ∀ (a d : List Call) (g : Gate),
    gateRun lbID g (a ++ d) = (gateRun lbID g a).bind (fun g1 => gateRun lbID g1 d) := by
  intro a
  induction a with
  | nil => intro d g; rfl
  | cons x t ih =>
    intro d g
    simp only [List.cons_append, gateRun]
    cases gateStep lbID g x with
    | none => rfl
    | some g1 => exact ih d g1

theorem gateStep_plain (lbID : String) (g : Gate) (c : Call) (hg : Settled g)
    (hc : isChildCreate c = false) (hne : c ≠ .loadbalancersGet lbID) :
    gateStep lbID g c = some .idle := by
  cases g with
  | idle => simp [gateStep, hc]
  | probing k =>
    have hk : k ≠ 0 := by
      intro h
      subst h
      exact absurd hg (by simp [Settled])
    simp [gateStep, hc, hne, hk]

theorem gateStep_create (lbID : String) (g : Gate) (c : Call) (hg : Settled g)
    (hc : isChildCreate c = true) : gateStep lbID g c = some (.probing 0) := by
  have hne : c ≠ .loadbalancersGet lbID := by
    intro h
    subst h
    cases hc
  cases g with
  | idle => simp [gateStep, hc]
  | probing k =>
    have hk : k ≠ 0 := by
      intro h
      subst h
      exact absurd hg (by simp [Settled])
    simp [gateStep, hc, hne, hk]

theorem gateRun_plain (lbID : String) : ∀ (d : List Call) (g : Gate), Settled g →
    (∀ c ∈ d, isChildCreate c = false ∧ c ≠ .loadbalancersGet lbID) →
    ∃ g1, gateRun lbID g d = some g1 ∧ Settled g1 := by
  intro d
  induction d with
  | nil => intro g hg _; exact ⟨g, rfl, hg⟩
  | cons x t ih =>
    intro g hg hd
    have hx := hd x (List.mem_cons_self _ _)
    simp only [gateRun, gateStep_plain lbID g x hg hx.1 hx.2]
    exact ih .idle trivial (fun c hc => hd c (List.mem_cons_of_mem _ hc))

theorem gateRun_idle_plain (lbID : String) : ∀ (d : List Call),
    (∀ c ∈ d, isChildCreate c = false) → gateRun lbID .idle d = some .idle := by
  intro d
  induction d with
  | nil => intro _; rfl
  | cons x t ih =>
    intro hd
    have hx := hd x (List.mem_cons_self _ _)
    simp only [gateRun, gateStep, hx, Bool.false_eq_true, if_false]
    exact ih (fun c hc => hd c (List.mem_cons_of_mem _ hc))

theorem gateRun_probes (lbID : String) : ∀ (n k : Nat), k + n ≤ backoffSteps →
    gateRun lbID (.probing k) (List.replicate n (.loadbalancersGet lbID)) =
      some (.probing (k + n)) := by
  intro n
  induction n with
  | zero => intro k _; rfl
  | succ m ih =>
    intro k hk
    have hlt : k < backoffSteps := by omega
    simp only [List.replicate_succ, gateRun, gateStep, if_true, hlt]
    rw [ih (k + 1) (by omega)]
    congr 2
    omega

/-- What the gate has seen after a creation: probes of the load balancer,
then a request that is not one. -/
theorem gateRun_probing (lbID : String) : ∀ (post : List Call) (k : Nat) (g1 : Gate),
    gateRun lbID (.probing k) post = some g1 →
    ∃ m rest, post = List.replicate m (.loadbalancersGet lbID) ++ rest ∧
      (0 < m → k + m ≤ backoffSteps) ∧
      rest.head? ≠ some (.loadbalancersGet lbID) ∧
      (rest ≠ [] → 1 ≤ k + m) ∧ (rest = [] → g1 = .probing (k + m)) := by
  intro post
  induction post with
  | nil =>
    intro k g1 h
    simp only [gateRun, Option.some.injEq] at h
    exact ⟨0, [], rfl, by omega, by simp, by simp, fun _ => h.symm⟩
  | cons x t ih =>
    intro k g1 h
    by_cases hx : x = .loadbalancersGet lbID
    · subst hx
      simp only [gateRun, gateStep, if_true] at h
      by_cases hk : k < backoffSteps
      · simp only [hk, if_true] at h
        obtain ⟨m, rest, h1, h2, h3, h4, h5⟩ := ih (k + 1) g1 h
        refine ⟨m + 1, rest, by rw [h1, List.replicate_succ, List.cons_append], ?_, h3, ?_, ?_⟩
        · intro _
          by_cases hm : 0 < m
          · have := h2 hm
            omega
          · omega
        · intro _; omega
        · intro hr
          rw [h5 hr]
          congr 1
          omega
      · simp [hk] at h
    · refine ⟨0, x :: t, rfl, by omega, by simpa using fun h => hx h, ?_, by simp⟩
      intro _
      by_contra hk
      have hk0 : k = 0 := by omega
      subst hk0
      simp [gateRun, gateStep, hx] at h

/-- A passed gate, read at one creation of the trace. -/
theorem gateRun_split (lbID : String) (pre post : List Call) (x : Call) (g g1 : Gate)
    (h : gateRun lbID g (pre ++ x :: post) = some g1) (hx : isChildCreate x = true) :
    (post = [] ∧ g1 = .probing 0) ∨
    ∃ n rest, 1 ≤ n ∧ n ≤ backoffSteps ∧
      post = List.replicate n (.loadbalancersGet lbID) ++ rest ∧
      rest.head? ≠ some (.loadbalancersGet lbID) := by
  rw [gateRun_append] at h
  cases h1 : gateRun lbID g pre with
  | none => simp [h1] at h
  | some g2 =>
    simp only [h1, Option.some_bind, gateRun] at h
    have hne : x ≠ .loadbalancersGet lbID := by
      intro e
      subst e
      cases hx
    have hstep : gateStep lbID g2 x = none ∨ gateStep lbID g2 x = some (.probing 0) := by
      cases g2 with
      | idle => right; simp [gateStep, hx]
      | probing k =>
        by_cases hk : k = 0
        · left; simp [gateStep, hne, hk]
        · right; simp [gateStep, hne, hk, hx]
    rcases hstep with hs | hs
    · simp [hs] at h
    · simp only [hs] at h
      obtain ⟨m, rest, e1, e2, e3, e4, e5⟩ := gateRun_probing lbID post 0 g1 h
      by_cases hp : post = []
      · left
        subst hp
        have hm : m = 0 := by
          cases m with
          | zero => rfl
          | succ j => simp [List.replicate_succ] at e1
        have hr : rest = [] := by
          subst hm
          simpa using e1.symm
        refine ⟨rfl, ?_⟩
        rw [e5 hr, hm]
      · right
        have hm : 1 ≤ m := by
          by_cases hr : rest = []
          · subst hr
            cases m with
            | zero => simp at e1; exact absurd e1 hp
            | succ j => omega
          · have := e4 hr
            omega
        exact ⟨m, rest, hm, by have := e2 (by omega); omega, e1, e3⟩

theorem Gates.refl {σ : Type} (lbID : String) (w : World σ) (ok : Prop) : Gates lbID w w ok :=
  ⟨[], by simp, fun g hg => ⟨g, rfl, fun _ => hg⟩⟩

theorem Gates.trans {σ : Type} {lbID : String} {w w1 w2 : World σ} {ok : Prop}
    (h1 : Gates lbID w w1 True) (h2 : Gates lbID w1 w2 ok) : Gates lbID w w2 ok := by
  obtain ⟨a, ha, ra⟩ := h1
  obtain ⟨d, hd, rd⟩ := h2
  refine ⟨a ++ d, by rw [hd, ha, List.append_assoc], ?_⟩
  intro g hg
  obtain ⟨g1, e1, s1⟩ := ra g hg
  obtain ⟨g2, e2, s2⟩ := rd g1 (s1 trivial)
  exact ⟨g2, by rw [gateRun_append, e1]; exact e2, s2⟩

theorem Gates.mono {σ : Type} {lbID : String} {w w1 : World σ} {ok ok2 : Prop}
    (h : Gates lbID w w1 ok) (hi : ok2 → ok) : Gates lbID w w1 ok2 := by
  obtain ⟨a, ha, ra⟩ := h
  refine ⟨a, ha, fun g hg => ?_⟩
  obtain ⟨g1, e1, s1⟩ := ra g hg
  exact ⟨g1, e1, fun h2 => s1 (hi h2)⟩

theorem Gates.weaken {σ : Type} {lbID : String} {w w1 : World σ} {ok : Prop}
    (h : Gates lbID w w1 True) : Gates lbID w w1 ok :=
  h.mono (fun _ => trivial)

/-- Requests that are neither a child creation nor a probe of `lbID`. -/
theorem gates_of_plain {σ : Type} (lbID : String) (w w1 : World σ) (d : List Call)
    (ht : w1.trace = w.trace ++ d)
    (hd : ∀ c ∈ d, isChildCreate c = false ∧ c ≠ .loadbalancersGet lbID) :
    Gates lbID w w1 True := by
  refine ⟨d, ht, fun g hg => ?_⟩
  obtain ⟨g1, e1, s1⟩ := gateRun_plain lbID d g hg hd
  exact ⟨g1, e1, fun _ => s1⟩

theorem gates_call {σ : Type} (b : Backend σ) (lbID : String) (w : World σ) (c : Call)
    (hc : isChildCreate c = false) (hne : c ≠ .loadbalancersGet lbID) :
    Gates lbID w (call b w c).2 True :=
  gates_of_plain lbID w _ [c] rfl (by simpa using ⟨hc, hne⟩)

/-- A child creation on its own, as when the backend refuses it. -/
theorem gates_create {σ : Type} (b : Backend σ) (lbID : String) (w : World σ) (c : Call)
    (hc : isChildCreate c = true) : Gates lbID w (call b w c).2 False := by
  refine ⟨[c], rfl, fun g hg => ⟨.probing 0, ?_, fun h => h.elim⟩⟩
  simp only [gateRun, gateStep_create lbID g c hg hc]

theorem gates_waitForFloatingIP {σ : Type} (b : Backend σ) (lbID id target : String)
    (w : World σ) : Gates lbID w (waitForFloatingIP b id target w).2 True := by
  obtain ⟨n, -, ht⟩ := waitForFloatingIP_trace b id target w
  refine gates_of_plain lbID w _ _ ht ?_
  intro c hc
  rw [List.eq_of_mem_replicate hc]
  exact ⟨rfl, by simp⟩

theorem gates_waitForListener {σ : Type} (b : Backend σ) (lbID id : String)
    (w : World σ) : Gates lbID w (waitForListener b id w).2 True := by
  obtain ⟨n, -, ht⟩ := waitForListener_trace b id w
  refine gates_of_plain lbID w _ _ ht ?_
  intro c hc
  rw [List.eq_of_mem_replicate hc]
  exact ⟨rfl, by simp⟩

/-- A child creation followed by the wait for `lbID`. -/
theorem gates_create_wait {σ : Type} (b : Backend σ) (lbID target : String) (w : World σ)
    (c : Call) (hc : isChildCreate c = true) :
    Gates lbID w (waitForLoadBalancer b lbID target (call b w c).2).2 True := by
  obtain ⟨n, ⟨hn, hn2⟩, ht⟩ := waitForLoadBalancer_trace b lbID target (call b w c).2
  refine ⟨[c] ++ List.replicate n (.loadbalancersGet lbID),
    by rw [ht, call_trace, List.append_assoc], fun g hg => ⟨.probing (0 + n), ?_, fun _ => ?_⟩⟩
  · rw [gateRun_append]
    simp only [gateRun, gateStep_create lbID g c hg hc, Option.some_bind]
    exact gateRun_probes lbID n 0 (by simp only [backoffSteps]; omega)
  · simp only [Settled]
    omega

theorem ensureListener_gates {σ : Type} (b : Backend σ) (lbID name : String) (port : Int)
    (w : World σ) :
    Gates lbID w (ensureListener b lbID name port w).2
      (∃ l, (ensureListener b lbID name port w).1 = .ok l) := by
  unfold ensureListener checkIfListenerExists
  have e1 := gates_call b lbID w (.listenersList name "") rfl (by simp)
  rcases h1 : call b w (.listenersList name "") with ⟨r1, w1⟩
  rw [h1] at e1
  rcases r1 with e | ls
  · exact e1.weaken
  rcases ls with _ | ⟨l, rest⟩
  · simp only
    have e2 := gates_create_wait b lbID "ACTIVE" w1
      (.listenersCreate (listenerCreateOpts lbID name port)) rfl
    have e2f := gates_create b lbID w1
      (.listenersCreate (listenerCreateOpts lbID name port)) rfl
    rcases h2 : call b w1 (.listenersCreate (listenerCreateOpts lbID name port)) with ⟨r2, w2⟩
    rw [h2] at e2 e2f
    rcases r2 with e | listener
    · exact e1.trans (e2f.mono (by simp))
    · simp only at e2 ⊢
      rcases h3 : waitForLoadBalancer b lbID "ACTIVE" w2 with ⟨r3, w3⟩
      rw [h3] at e2
      rcases r3 with _ | e
      · simp only
        have e4 := gates_waitForListener b lbID listener.ID w3
        rcases h4 : waitForListener b listener.ID w3 with ⟨r4, w4⟩
        rw [h4] at e4
        rcases r4 with _ | e
        · exact (e1.trans (e2.trans e4)).weaken
        · exact (e1.trans (e2.trans e4)).weaken
      · exact (e1.trans e2).weaken
  · exact e1.weaken

theorem ensurePool_gates {σ : Type} (b : Backend σ) (lbID name listenerID : String)
    (w : World σ) :
    Gates lbID w (ensurePool b lbID name listenerID w).2
      (∃ p, (ensurePool b lbID name listenerID w).1 = .ok p) := by
  unfold ensurePool checkIfPoolExists
  have e1 := gates_call b lbID w (.poolsList name "") rfl (by simp)
  rcases h1 : call b w (.poolsList name "") with ⟨r1, w1⟩
  rw [h1] at e1
  rcases r1 with e | ls
  · exact e1.weaken
  rcases ls with _ | ⟨l, rest⟩
  · simp only
    have e2 := gates_create_wait b lbID "ACTIVE" w1
      (.poolsCreate (poolCreateOpts name listenerID)) rfl
    have e2f := gates_create b lbID w1
      (.poolsCreate (poolCreateOpts name listenerID)) rfl
    rcases h2 : call b w1 (.poolsCreate (poolCreateOpts name listenerID)) with ⟨r2, w2⟩
    rw [h2] at e2 e2f
    rcases r2 with e | pool
    · exact e1.trans (e2f.mono (by simp))
    · simp only at e2 ⊢
      rcases h3 : waitForLoadBalancer b lbID "ACTIVE" w2 with ⟨r3, w3⟩
      rw [h3] at e2
      rcases r3 with _ | e
      · exact (e1.trans e2).weaken
      · exact (e1.trans e2).weaken
  · exact e1.weaken

theorem ensureMonitor_gates {σ : Type} (b : Backend σ) (lbID name poolID : String)
    (w : World σ) :
    Gates lbID w (ensureMonitor b lbID name poolID w).2
      ((ensureMonitor b lbID name poolID w).1 = none) := by
  unfold ensureMonitor checkIfMonitorExists
  have e1 := gates_call b lbID w (.monitorsList name) rfl (by simp)
  rcases h1 : call b w (.monitorsList name) with ⟨r1, w1⟩
  rw [h1] at e1
  rcases r1 with e | ls
  · exact e1.weaken
  rcases ls with _ | ⟨l, rest⟩
  · simp only
    have e2 := gates_create_wait b lbID "ACTIVE" w1
      (.monitorsCreate (monitorCreateOpts name poolID)) rfl
    have e2f := gates_create b lbID w1
      (.monitorsCreate (monitorCreateOpts name poolID)) rfl
    rcases h2 : call b w1 (.monitorsCreate (monitorCreateOpts name poolID)) with ⟨r2, w2⟩
    rw [h2] at e2 e2f
    rcases r2 with e | mon
    · exact e1.trans (e2f.mono (by simp))
    · simp only at e2 ⊢
      exact (e1.trans e2).weaken
  · exact e1.weaken

theorem reconcilePorts_gates {σ : Type} (b : Backend σ) (lbID loadBalancerName : String) :
    ∀ (ports : List Int) (w : World σ),
      Gates lbID w (reconcilePorts b lbID loadBalancerName ports w).2
        ((reconcilePorts b lbID loadBalancerName ports w).1 = none) := by
  intro ports
  induction ports with
  | nil => intro w; exact Gates.refl _ _ _
  | cons port rest ih =>
    intro w
    unfold reconcilePorts
    simp only
    have e1 := ensureListener_gates b lbID (lbPortObjectsNameOf loadBalancerName port) port w
    rcases h1 : ensureListener b lbID (lbPortObjectsNameOf loadBalancerName port) port w
      with ⟨r1, w1⟩
    rw [h1] at e1
    rcases r1 with e | listener
    · exact e1.mono (by simp)
    · have e1t : Gates lbID w w1 True := e1.mono (fun _ => ⟨listener, rfl⟩)
      simp only
      have e2 := ensurePool_gates b lbID (lbPortObjectsNameOf loadBalancerName port)
        listener.ID w1
      rcases h2 : ensurePool b lbID (lbPortObjectsNameOf loadBalancerName port) listener.ID w1
        with ⟨r2, w2⟩
      rw [h2] at e2
      rcases r2 with e | pool
      · exact e1t.trans (e2.mono (by simp))
      · have e2t : Gates lbID w1 w2 True := e2.mono (fun _ => ⟨pool, rfl⟩)
        simp only
        have e3 := ensureMonitor_gates b lbID (lbPortObjectsNameOf loadBalancerName port)
          pool.ID w2
        rcases h3 : ensureMonitor b lbID (lbPortObjectsNameOf loadBalancerName port) pool.ID w2
          with ⟨r3, w3⟩
        rw [h3] at e3
        rcases r3 with _ | e
        · have e3t : Gates lbID w2 w3 True := e3.mono (fun _ => rfl)
          exact e1t.trans (e2t.trans (e3t.trans (ih w3)))
        · exact e1t.trans (e2t.trans (e3.mono (by simp)))

theorem ensureFloatingIP_gates {σ : Type} (b : Backend σ) (lbID : String)
    (c : OpenStackCluster) (lb : OSLoadBalancer) (w : World σ) :
    Gates lbID w (ensureFloatingIP b c lb w).2 True := by
  have assoc : ∀ (fp : OSFloatingIP) (w0 : World σ), Gates lbID w0
      (match call b w0 (.floatingipsUpdate fp.ID lb.VipPortID) with
        | (.error e, w1) => ((.error ("error allocating floating IP: " ++ e) :
            Except String OSFloatingIP), w1)
        | (.ok fp2, w1) =>
          match waitForFloatingIP b fp2.ID "ACTIVE" w1 with
          | (some e, w2) => (.error e, w2)
          | (none, w2) => (.ok fp2, w2)).2 True := by
    intro fp w0
    have e1 := gates_call b lbID w0 (.floatingipsUpdate fp.ID lb.VipPortID) rfl (by simp)
    rcases h1 : call b w0 (.floatingipsUpdate fp.ID lb.VipPortID) with ⟨r1, w1⟩
    rw [h1] at e1
    rcases r1 with e | fp2
    · exact e1
    · simp only
      have e2 := gates_waitForFloatingIP b lbID fp2.ID "ACTIVE" w1
      rcases h2 : waitForFloatingIP b fp2.ID "ACTIVE" w1 with ⟨r2, w2⟩
      rw [h2] at e2
      rcases r2 with _ | e
      · exact e1.trans e2
      · exact e1.trans e2
  unfold ensureFloatingIP checkIfFloatingIPExists
  have e1 := gates_call b lbID w (.floatingipsList c.Spec.APIServerLoadBalancerFloatingIP) rfl
    (by simp)
  rcases h1 : call b w (.floatingipsList c.Spec.APIServerLoadBalancerFloatingIP) with ⟨r1, w1⟩
  rw [h1] at e1
  rcases r1 with e | ls
  · exact e1
  rcases ls with _ | ⟨fp, rest⟩
  · simp only
    have e2 := gates_call b lbID w1 (.floatingipsCreate
      ⟨c.Spec.APIServerLoadBalancerFloatingIP, c.Spec.ExternalNetworkID⟩) rfl (by simp)
    rcases h2 : call b w1 (.floatingipsCreate
      ⟨c.Spec.APIServerLoadBalancerFloatingIP, c.Spec.ExternalNetworkID⟩) with ⟨r2, w2⟩
    rw [h2] at e2
    rcases r2 with e | fp
    · exact e1.trans e2
    · exact e1.trans (e2.trans (assoc fp w2))
  · exact e1.trans (assoc fp w1)

theorem reconcileWithLoadBalancer_gates {σ : Type} (b : Backend σ) (loadBalancerName : String)
    (c : OpenStackCluster) (lb : OSLoadBalancer) (w : World σ) :
    Gates lb.ID w (reconcileWithLoadBalancer b loadBalancerName c lb w).world
      (¬ ∃ e, (reconcileWithLoadBalancer b loadBalancerName c lb w).err? = some (some e)) := by
  unfold reconcileWithLoadBalancer
  have e1 := ensureFloatingIP_gates b lb.ID c lb w
  rcases h1 : ensureFloatingIP b c lb w with ⟨r1, w1⟩
  rw [h1] at e1
  rcases r1 with e | fp
  · exact e1.weaken
  · simp only
    have e2 := reconcilePorts_gates b lb.ID loadBalancerName
      (c.Spec.APIServerLoadBalancerPort :: c.Spec.APIServerLoadBalancerAdditionalPorts) w1
    rcases h2 : reconcilePorts b lb.ID loadBalancerName
      (c.Spec.APIServerLoadBalancerPort :: c.Spec.APIServerLoadBalancerAdditionalPorts) w1
      with ⟨r2, w2⟩
    rw [h2] at e2
    rcases r2 with _ | e
    · have e2t : Gates lb.ID w1 w2 True := e2.mono (fun _ => rfl)
      cases c.Status.Network <;> exact (e1.trans e2t).weaken
    · exact e1.trans (e2.mono (by simp [Run.err?]))

theorem gated_after_prefix {σ : Type} (lbID : String) (w w1 : World σ) (ok : Prop)
    (hp : ∀ c ∈ w.trace, isChildCreate c = false) (h : Gates lbID w w1 ok) :
    ∃ g1, gateRun lbID .idle w1.trace = some g1 ∧ (ok → Settled g1) := by
  obtain ⟨d, hd, rd⟩ := h
  obtain ⟨g1, e1, s1⟩ := rd .idle trivial
  refine ⟨g1, ?_, s1⟩
  rw [hd, gateRun_append, gateRun_idle_plain lbID _ hp]
  exact e1

/-- A pass of `ReconcileLoadBalancer` from an empty trace either creates no
listener, pool or monitor, or its trace passes the gate of the load balancer
it works on. -/
theorem ReconcileLoadBalancer_gated {σ : Type} (b : Backend σ)
    (networkPrefix kubeapiLBSuffix clusterName : String) (c : OpenStackCluster) (s : σ) :
    (∀ x ∈ (ReconcileLoadBalancer b networkPrefix kubeapiLBSuffix clusterName c
        ⟨s, []⟩).world.trace, isChildCreate x = false) ∨
    ∃ lb, isPassLoadBalancer b (loadBalancerNameOf networkPrefix clusterName kubeapiLBSuffix)
        c s lb ∧
      ∃ g1, gateRun lb.ID .idle (ReconcileLoadBalancer b networkPrefix kubeapiLBSuffix
          clusterName c ⟨s, []⟩).world.trace = some g1 ∧
        ((¬ ∃ e, (ReconcileLoadBalancer b networkPrefix kubeapiLBSuffix clusterName c
          ⟨s, []⟩).err? = some (some e)) → Settled g1) := by
  unfold ReconcileLoadBalancer
  split
  · left; simp [Run.world]
  split
  · left; simp [Run.world]
  split
  · left; simp [Run.world]
  simp only [checkIfLbExists]
  rcases hx : b.exec s (.loadbalancersList
    (loadBalancerNameOf networkPrefix clusterName kubeapiLBSuffix)) with ⟨r1, s1⟩
  rw [call_eq b ⟨s, []⟩ _ r1 s1 (by exact hx)]
  rcases r1 with e | ls
  · left; simp [Run.world, isChildCreate]
  rcases ls with _ | ⟨lb, rest⟩
  · simp only
    cases hn : c.Status.Network with
    | none => left; simp [Run.world, isChildCreate]
    | some net =>
      simp only
      cases hs : net.Subnet with
      | none => left; simp [Run.world, isChildCreate]
      | some subnet =>
        simp only
        rcases hc : b.exec s1 (.loadbalancersCreate
          ⟨loadBalancerNameOf networkPrefix clusterName kubeapiLBSuffix, subnet.ID⟩)
          with ⟨r2, s2⟩
        rw [call_eq b ⟨s1, _⟩ _ r2 s2 (by exact hc)]
        rcases r2 with e | lb
        · left; simp [Run.world, isChildCreate]
        · simp only
          obtain ⟨n, -, ht⟩ := waitForLoadBalancer_trace b lb.ID "ACTIVE"
            ⟨s2, [] ++ [Call.loadbalancersList
                (loadBalancerNameOf networkPrefix clusterName kubeapiLBSuffix)] ++
              [Call.loadbalancersCreate
                ⟨loadBalancerNameOf networkPrefix clusterName kubeapiLBSuffix, subnet.ID⟩]⟩
          rcases h3 : waitForLoadBalancer b lb.ID "ACTIVE"
            ⟨s2, [] ++ [Call.loadbalancersList
                (loadBalancerNameOf networkPrefix clusterName kubeapiLBSuffix)] ++
              [Call.loadbalancersCreate
                ⟨loadBalancerNameOf networkPrefix clusterName kubeapiLBSuffix, subnet.ID⟩]⟩
            with ⟨r3, w3⟩
          rw [h3] at ht
          simp only at ht
          have hplain : ∀ x ∈ w3.trace, isChildCreate x = false := by
            intro x hx2
            rw [ht] at hx2
            simp only [List.nil_append, List.mem_append, List.mem_singleton, List.mem_cons,
              List.mem_replicate, List.not_mem_nil, or_false] at hx2
            rcases hx2 with (rfl | rfl) | ⟨-, rfl⟩ <;> rfl
          rcases r3 with _ | e
          · right
            exact ⟨lb, Or.inr ⟨s1, s2, net, subnet, hx, hn, hs, hc⟩,
              gated_after_prefix lb.ID w3 _ _ hplain
                (reconcileWithLoadBalancer_gates b _ c lb w3)⟩
          · left
            simpa [Run.world] using hplain
  · right
    exact ⟨lb, Or.inl ⟨rest, s1, hx⟩,
      gated_after_prefix lb.ID ⟨s1, [] ++ [Call.loadbalancersList
        (loadBalancerNameOf networkPrefix clusterName kubeapiLBSuffix)]⟩ _ _
        (by simp [isChildCreate]) (reconcileWithLoadBalancer_gates b _ c lb _)⟩

theorem cloud_call (w : World Cloud) (c : Call) (h : w.st.failing = []) :
    call cloudBackend w c = ((w.st.run c).1, ⟨(w.st.run c).2, w.trace ++ [c]⟩) := by
  simp [call, cloudBackend, h]

theorem lbPortObjectsNameOf_ne_empty (loadBalancerName : String) (port : Int) :
    lbPortObjectsNameOf loadBalancerName port ≠ "" := by
  intro h
  have := congrArg String.length h
  simp only [lbPortObjectsNameOf, String.length_append] at this
  have h1 : "-".length = 1 := rfl
  have h0 : "".length = 0 := rfl
  omega

theorem filterField_eq (wanted actual : String) (h : wanted ≠ "") :
    filterField wanted actual = (wanted == actual) := by
  simp [filterField, h]

theorem ExponentialBackoff_first {σ : Type}
    (cond : World σ → Except String Bool × World σ) (steps : Nat) (w w1 : World σ)
    (h : cond w = (.ok true, w1)) : ExponentialBackoff cond (steps + 1) w = (none, w1) := by
  simp [ExponentialBackoff, h]

theorem cloud_get_lb (s : Cloud) (id : String) (lb : OSLoadBalancer)
    (hfind : findByID (fun l : OSLoadBalancer => l.ID) s.loadbalancers id = .ok lb) :
    s.run (.loadbalancersGet id) = (.ok lb, s) :=
  congrArg (fun r => (r, s)) hfind

theorem cloud_get_listener (s : Cloud) (id : String) (l : OSListener)
    (hfind : findByID (fun l : OSListener => l.ID) s.listeners id = .ok l) :
    s.run (.listenersGet id) = (.ok l, s) :=
  congrArg (fun r => (r, s)) hfind

theorem cloud_wait_active (w : World Cloud) (lbID : String) (lb : OSLoadBalancer)
    (hf : w.st.failing = [])
    (hfind : findByID (fun l : OSLoadBalancer => l.ID) w.st.loadbalancers lbID = .ok lb)
    (hactive : lb.ProvisioningStatus = "ACTIVE") :
    waitForLoadBalancer cloudBackend lbID "ACTIVE" w =
      (none, ⟨w.st, w.trace ++ [.loadbalancersGet lbID]⟩) := by
  unfold waitForLoadBalancer
  apply ExponentialBackoff_first
  rw [cloud_call _ _ hf, cloud_get_lb w.st lbID lb hfind]
  simp [hactive]

theorem findByID_append_self {α : Type} (getID : α → String) (xs : List α) (x : α) :
    ∃ y, findByID getID (xs ++ [x]) (getID x) = .ok y := by
  unfold findByID
  cases h : (xs ++ [x]).find? (fun y => getID y == getID x) with
  | some y => exact ⟨y, rfl⟩
  | none =>
    rw [List.find?_eq_none] at h
    have := h x (by simp)
    simp at this

theorem cloud_waitForListener (w : World Cloud) (id : String) (l : OSListener)
    (hf : w.st.failing = [])
    (hfind : findByID (fun l : OSListener => l.ID) w.st.listeners id = .ok l) :
    waitForListener cloudBackend id w = (none, ⟨w.st, w.trace ++ [.listenersGet id]⟩) := by
  unfold waitForListener
  apply ExponentialBackoff_first
  rw [cloud_call _ _ hf, cloud_get_listener w.st id l hfind]

theorem filter_name_nil {α : Type} (getName getOther : α → String) (xs : List α)
    (name : String) (hname : name ≠ "") (hnew : name ∉ xs.map getName) :
    xs.filter (fun x => filterField name (getName x) && filterField "" (getOther x)) = [] := by
  rw [List.filter_eq_nil_iff]
  intro x hx
  have : name ≠ getName x := fun e => hnew (by rw [e]; exact List.mem_map_of_mem _ hx)
  simp [filterField_eq _ _ hname, this]

theorem filter_name_nil_single {α : Type} (getName : α → String) (xs : List α)
    (name : String) (hname : name ≠ "") (hnew : name ∉ xs.map getName) :
    xs.filter (fun x => filterField name (getName x)) = [] := by
  rw [List.filter_eq_nil_iff]
  intro x hx
  have : name ≠ getName x := fun e => hnew (by rw [e]; exact List.mem_map_of_mem _ hx)
  simp [filterField_eq _ _ hname, this]

theorem cloud_ensureListener (w : World Cloud) (lbID name : String) (port : Int)
    (lb : OSLoadBalancer) (hf : w.st.failing = [])
    (hfind : findByID (fun l : OSLoadBalancer => l.ID) w.st.loadbalancers lbID = .ok lb)
    (hactive : lb.ProvisioningStatus = "ACTIVE")
    (hname : name ≠ "") (hnew : name ∉ w.st.listeners.map (fun l => l.Name)) :
    ∃ (l : OSListener) (s1 : Cloud),
      ensureListener cloudBackend lbID name port w =
        (.ok l, ⟨s1, w.trace ++ [.listenersList name "",
          .listenersCreate (listenerCreateOpts lbID name port), .loadbalancersGet lbID,
          .listenersGet l.ID]⟩) ∧
      s1.failing = w.st.failing ∧ s1.loadbalancers = w.st.loadbalancers ∧
      s1.listeners.map (fun l => l.Name) = w.st.listeners.map (fun l => l.Name) ++ [name] ∧
      s1.pools = w.st.pools ∧ s1.monitors = w.st.monitors := by
  have hrun1 : w.st.run (.listenersList name "") = (.ok [], w.st) := by
    simp only [Cloud.run, filter_name_nil _ _ _ name hname hnew]
  obtain ⟨l, hl⟩ : ∃ l : OSListener,
      (w.st.run (.listenersCreate (listenerCreateOpts lbID name port))).1 = .ok l ∧
      (w.st.run (.listenersCreate (listenerCreateOpts lbID name port))).2.listeners =
        w.st.listeners ++ [l] ∧ l.Name = name := ⟨_, rfl, rfl, rfl⟩
  obtain ⟨hl1, hl2, hl3⟩ := hl
  obtain ⟨y, hy⟩ := findByID_append_self (fun l : OSListener => l.ID) w.st.listeners l
  rw [← hl2] at hy
  refine ⟨l, (w.st.run (.listenersCreate (listenerCreateOpts lbID name port))).2, ?_, rfl, rfl,
    by rw [hl2]; simp [hl3], rfl, rfl⟩
  unfold ensureListener checkIfListenerExists
  rw [cloud_call _ _ hf, hrun1]
  simp only
  rw [cloud_call _ _ (by exact hf)]
  simp only [hl1]
  rw [cloud_wait_active _ lbID lb (by exact hf) (by exact hfind) hactive]
  simp only
  rw [cloud_waitForListener _ _ y (by exact hf) (by exact hy)]
  simp

theorem cloud_ensurePool (w : World Cloud) (lbID name listenerID : String)
    (lb : OSLoadBalancer) (hf : w.st.failing = [])
    (hfind : findByID (fun l : OSLoadBalancer => l.ID) w.st.loadbalancers lbID = .ok lb)
    (hactive : lb.ProvisioningStatus = "ACTIVE")
    (hname : name ≠ "") (hnew : name ∉ w.st.pools.map (fun p => p.Name)) :
    ∃ (p : OSPool) (s1 : Cloud),
      ensurePool cloudBackend lbID name listenerID w =
        (.ok p, ⟨s1, w.trace ++ [.poolsList name "",
          .poolsCreate (poolCreateOpts name listenerID), .loadbalancersGet lbID]⟩) ∧
      s1.failing = w.st.failing ∧ s1.loadbalancers = w.st.loadbalancers ∧
      s1.listeners = w.st.listeners ∧
      s1.pools.map (fun p => p.Name) = w.st.pools.map (fun p => p.Name) ++ [name] ∧
      s1.monitors = w.st.monitors := by
  have hrun1 : w.st.run (.poolsList name "") = (.ok [], w.st) := by
    simp only [Cloud.run, filter_name_nil _ _ _ name hname hnew]
  obtain ⟨p, hp1, hp2, hp3⟩ : ∃ p : OSPool,
      (w.st.run (.poolsCreate (poolCreateOpts name listenerID))).1 = .ok p ∧
      (w.st.run (.poolsCreate (poolCreateOpts name listenerID))).2.pools =
        w.st.pools ++ [p] ∧ p.Name = name := ⟨_, rfl, rfl, rfl⟩
  refine ⟨p, (w.st.run (.poolsCreate (poolCreateOpts name listenerID))).2, ?_, rfl, rfl, rfl,
    by rw [hp2]; simp [hp3], rfl⟩
  unfold ensurePool checkIfPoolExists
  rw [cloud_call _ _ hf, hrun1]
  simp only
  rw [cloud_call _ _ (by exact hf)]
  simp only [hp1]
  rw [cloud_wait_active _ lbID lb (by exact hf) (by exact hfind) hactive]
  simp

theorem cloud_ensureMonitor (w : World Cloud) (lbID name poolID : String)
    (lb : OSLoadBalancer) (hf : w.st.failing = [])
    (hfind : findByID (fun l : OSLoadBalancer => l.ID) w.st.loadbalancers lbID = .ok lb)
    (hactive : lb.ProvisioningStatus = "ACTIVE")
    (hname : name ≠ "") (hnew : name ∉ w.st.monitors.map (fun m => m.Name)) :
    ∃ s1 : Cloud,
      ensureMonitor cloudBackend lbID name poolID w =
        (none, ⟨s1, w.trace ++ [.monitorsList name,
          .monitorsCreate (monitorCreateOpts name poolID), .loadbalancersGet lbID]⟩) ∧
      s1.failing = w.st.failing ∧ s1.loadbalancers = w.st.loadbalancers ∧
      s1.listeners = w.st.listeners ∧
      s1.pools.map (fun p => p.Name) = w.st.pools.map (fun p => p.Name) ∧
      s1.monitors.map (fun m => m.Name) = w.st.monitors.map (fun m => m.Name) ++ [name] := by
  have hrun1 : w.st.run (.monitorsList name) = (.ok [], w.st) := by
    simp only [Cloud.run, filter_name_nil_single _ _ name hname hnew]
  obtain ⟨m, hm1, hm2, hm3⟩ : ∃ m : OSMonitor,
      (w.st.run (.monitorsCreate (monitorCreateOpts name poolID))).1 = .ok m ∧
      (w.st.run (.monitorsCreate (monitorCreateOpts name poolID))).2.monitors =
        w.st.monitors ++ [m] ∧ m.Name = name := ⟨_, rfl, rfl, rfl⟩
  have hpools : (w.st.run (.monitorsCreate (monitorCreateOpts name poolID))).2.pools.map
      (fun p => p.Name) = w.st.pools.map (fun p => p.Name) := by
    simp only [Cloud.run, List.map_map]
    apply List.map_congr_left
    intro p _
    simp only [Function.comp]
    split <;> rfl
  refine ⟨(w.st.run (.monitorsCreate (monitorCreateOpts name poolID))).2, ?_, rfl, rfl, rfl,
    hpools, by rw [hm2]; simp [hm3]⟩
  unfold ensureMonitor checkIfMonitorExists
  rw [cloud_call _ _ hf, hrun1]
  simp only
  rw [cloud_call _ _ (by exact hf)]
  simp only [hm1]
  rw [cloud_wait_active _ lbID lb (by exact hf) (by exact hfind) hactive]
  simp

theorem cloud_reconcilePorts (lbID loadBalancerName : String) :
    ∀ (ports : List Int) (w : World Cloud),
      PortsReady w.st lbID (ports.map (lbPortObjectsNameOf loadBalancerName)) →
      (ports.map (lbPortObjectsNameOf loadBalancerName)).Nodup →
      ∃ w1, reconcilePorts cloudBackend lbID loadBalancerName ports w = (none, w1) ∧
        w1.trace.filterMap createdResource =
          w.trace.filterMap createdResource ++ ports.flatMap (portTriple loadBalancerName) := by
  intro ports
  induction ports with
  | nil =>
    intro w _ _
    exact ⟨w, rfl, by simp⟩
  | cons port rest ih =>
    intro w hready hnodup
    obtain ⟨hf, ⟨lb, hfind, hactive⟩, hnames⟩ := hready
    rw [List.map_cons, List.nodup_cons] at hnodup
    obtain ⟨hhead, hrest⟩ := hnodup
    have hne := lbPortObjectsNameOf_ne_empty loadBalancerName port
    obtain ⟨hnl, hnp, hnm⟩ := hnames (lbPortObjectsNameOf loadBalancerName port) (by simp)
    obtain ⟨l, s1, e1, f1, b1, l1, p1, m1⟩ :=
      cloud_ensureListener w lbID _ port lb hf hfind hactive hne hnl
    generalize ht1 : w.trace ++ [Call.listenersList (lbPortObjectsNameOf loadBalancerName port) "",
      Call.listenersCreate (listenerCreateOpts lbID (lbPortObjectsNameOf loadBalancerName port) port),
      Call.loadbalancersGet lbID, Call.listenersGet l.ID] = t1 at e1
    obtain ⟨p, s2, e2, f2, b2, l2, p2, m2⟩ :=
      cloud_ensurePool ⟨s1, t1⟩ lbID (lbPortObjectsNameOf loadBalancerName port) l.ID lb
        (by rw [f1]; exact hf) (by rw [b1]; exact hfind) hactive hne (by rw [p1]; exact hnp)
    simp only at e2 f2 b2 l2 p2 m2
    generalize ht2 : t1 ++ [Call.poolsList (lbPortObjectsNameOf loadBalancerName port) "",
      Call.poolsCreate (poolCreateOpts (lbPortObjectsNameOf loadBalancerName port) l.ID),
      Call.loadbalancersGet lbID] = t2 at e2
    obtain ⟨s3, e3, f3, b3, l3, p3, m3⟩ :=
      cloud_ensureMonitor ⟨s2, t2⟩ lbID (lbPortObjectsNameOf loadBalancerName port) p.ID lb
        (by rw [f2, f1]; exact hf) (by rw [b2, b1]; exact hfind) hactive hne
        (by rw [m2, m1]; exact hnm)
    simp only at e3 f3 b3 l3 p3 m3
    have hready3 : PortsReady s3 lbID (rest.map (lbPortObjectsNameOf loadBalancerName)) := by
      refine ⟨by rw [f3, f2, f1]; exact hf, ⟨lb, by rw [b3, b2, b1]; exact hfind, hactive⟩, ?_⟩
      intro n hn
      obtain ⟨a1, a2, a3⟩ := hnames n (List.mem_cons_of_mem _ hn)
      have hnn : n ≠ lbPortObjectsNameOf loadBalancerName port := fun e => hhead (e ▸ hn)
      refine ⟨?_, ?_, ?_⟩
      · rw [l3, l2, l1]
        simp only [List.mem_append, List.mem_singleton, not_or]
        exact ⟨a1, hnn⟩
      · rw [p3, p2, p1]
        simp only [List.mem_append, List.mem_singleton, not_or]
        exact ⟨a2, hnn⟩
      · rw [m3, m2, m1]
        simp only [List.mem_append, List.mem_singleton, not_or]
        exact ⟨a3, hnn⟩
    obtain ⟨w1, hw1, hw2⟩ := ih ⟨s3, _⟩ hready3 hrest
    refine ⟨w1, ?_, ?_⟩
    · rw [reconcilePorts]
      simp only [e1, e2, e3]
      exact hw1
    · rw [hw2]
      subst ht2
      subst ht1
      simp [List.filterMap_append, createdResource, portTriple, listenerCreateOpts,
        poolCreateOpts, monitorCreateOpts]

theorem cloud_get_fip (s : Cloud) (id : String) (fp : OSFloatingIP)
    (hfind : findByID (fun f : OSFloatingIP => f.ID) s.floatingips id = .ok fp) :
    s.run (.floatingipsGet id) = (.ok fp, s) :=
  congrArg (fun r => (r, s)) hfind

theorem cloud_waitForFloatingIP (w : World Cloud) (id : String) (fp : OSFloatingIP)
    (hf : w.st.failing = [])
    (hfind : findByID (fun f : OSFloatingIP => f.ID) w.st.floatingips id = .ok fp)
    (hactive : fp.Status = "ACTIVE") :
    waitForFloatingIP cloudBackend id "ACTIVE" w =
      (none, ⟨w.st, w.trace ++ [.floatingipsGet id]⟩) := by
  unfold waitForFloatingIP
  apply ExponentialBackoff_first
  rw [cloud_call _ _ hf, cloud_get_fip w.st id fp hfind]
  simp [hactive]

theorem findByID_single {α : Type} (getID : α → String) (x : α) :
    findByID getID [x] (getID x) = .ok x := by
  simp [findByID]

/-- The floating-IP stage on a reference cloud without floating IPs. -/
theorem cloud_ensureFloatingIP (w : World Cloud) (c : OpenStackCluster) (lb : OSLoadBalancer)
    (hf : w.st.failing = []) (hnone : w.st.floatingips = []) :
    ∃ (fp : OSFloatingIP) (s1 : Cloud) (id : String),
      ensureFloatingIP cloudBackend c lb w =
        (.ok fp, ⟨s1, w.trace ++ [.floatingipsList c.Spec.APIServerLoadBalancerFloatingIP,
          .floatingipsCreate ⟨c.Spec.APIServerLoadBalancerFloatingIP, c.Spec.ExternalNetworkID⟩,
          .floatingipsUpdate id lb.VipPortID, .floatingipsGet id]⟩) ∧
      fp.FloatingIP = c.Spec.APIServerLoadBalancerFloatingIP ∧
      s1.failing = w.st.failing ∧ s1.loadbalancers = w.st.loadbalancers ∧
      s1.listeners = w.st.listeners ∧ s1.pools = w.st.pools ∧ s1.monitors = w.st.monitors := by
  obtain ⟨s, t⟩ := w
  obtain ⟨networks, subnets, groups, lbs, fips, ls, ps, ms, members, tags, nextID, failing⟩ := s
  simp only at hf hnone
  subst hf hnone
  rcases h : ensureFloatingIP cloudBackend c lb _ with ⟨r, w1⟩
  unfold ensureFloatingIP checkIfFloatingIPExists at h
  rw [cloud_call _ _ rfl] at h
  simp only [Cloud.run, List.filter_nil] at h
  rw [cloud_call _ _ rfl] at h
  simp only [Cloud.run] at h
  rw [cloud_call _ _ rfl] at h
  simp only [Cloud.run, List.nil_append, findByID_single (fun f : OSFloatingIP => f.ID)] at h
  rw [cloud_waitForFloatingIP _ _ _ rfl (by simp [findByID]; rfl) rfl] at h
  simp only [List.append_assoc, List.singleton_append, List.map_cons, List.map_nil,
    beq_self_eq_true, if_true, Prod.mk.injEq] at h
  obtain ⟨rfl, rfl⟩ := h
  exact ⟨_, _, _, rfl, rfl, rfl, rfl, rfl, rfl, rfl⟩

/-- The part of `ReconcileLoadBalancer` after the load balancer, on a
reference cloud that holds the ACTIVE load balancer and nothing else of it. -/
theorem cloud_reconcileWithLoadBalancer (w : World Cloud) (loadBalancerName : String)
    (c : OpenStackCluster) (lb found : OSLoadBalancer) (net : Network)
    (hnet : c.Status.Network = some net) (hf : w.st.failing = [])
    (hfind : findByID (fun l : OSLoadBalancer => l.ID) w.st.loadbalancers lb.ID = .ok found)
    (hactive : found.ProvisioningStatus = "ACTIVE")
    (hfips : w.st.floatingips = []) (hls : w.st.listeners = []) (hps : w.st.pools = [])
    (hms : w.st.monitors = [])
    (hdistinct : ((c.Spec.APIServerLoadBalancerPort ::
      c.Spec.APIServerLoadBalancerAdditionalPorts).map
        (lbPortObjectsNameOf loadBalancerName)).Nodup) :
    ∃ out, reconcileWithLoadBalancer cloudBackend loadBalancerName c lb w = .returned out ∧
      out.err = none ∧
      out.world.trace.filterMap createdResource =
        w.trace.filterMap createdResource ++
        [("floatingip", c.Spec.APIServerLoadBalancerFloatingIP)] ++
        (c.Spec.APIServerLoadBalancerPort :: c.Spec.APIServerLoadBalancerAdditionalPorts).flatMap
          (portTriple loadBalancerName) ∧
      ∃ net1 recorded, out.cluster.Status.Network = some net1 ∧
        net1.APIServerLoadBalancer = some recorded ∧
        recorded.IP = c.Spec.APIServerLoadBalancerFloatingIP := by
  obtain ⟨fp, s1, id, e1, hfp, f1, b1, l1, p1, m1⟩ := cloud_ensureFloatingIP w c lb hf hfips
  generalize ht1 : w.trace ++ [Call.floatingipsList c.Spec.APIServerLoadBalancerFloatingIP,
    Call.floatingipsCreate ⟨c.Spec.APIServerLoadBalancerFloatingIP, c.Spec.ExternalNetworkID⟩,
    Call.floatingipsUpdate id lb.VipPortID, Call.floatingipsGet id] = t1 at e1
  have hready : PortsReady s1 lb.ID ((c.Spec.APIServerLoadBalancerPort ::
      c.Spec.APIServerLoadBalancerAdditionalPorts).map (lbPortObjectsNameOf loadBalancerName)) := by
    refine ⟨by rw [f1]; exact hf, ⟨found, by rw [b1]; exact hfind, hactive⟩, ?_⟩
    intro n _
    rw [l1, p1, m1, hls, hps, hms]
    simp
  obtain ⟨w1, hw1, hw2⟩ := cloud_reconcilePorts lb.ID loadBalancerName _ ⟨s1, t1⟩ hready hdistinct
  unfold reconcileWithLoadBalancer
  simp only [e1, hw1, hnet]
  refine ⟨_, rfl, rfl, ?_, _, _, rfl, rfl, hfp⟩
  simp only [hw2]
  subst ht1
  simp [List.filterMap_append, createdResource]

theorem digitChar_toNat (k : Nat) (hk : k < 10) : (Nat.digitChar k).toNat - 48 = k := by
  interval_cases k <;> rfl

theorem digitChar_ne_minus (k : Nat) (hk : k < 10) : Nat.digitChar k ≠ '-' := by
  interval_cases k <;> decide

/-- Reading the decimal digits back gives the number. -/
theorem toDigitsCore_decode : ∀ (fuel n : Nat) (ds : List Char), n < fuel →
    List.foldl (fun acc ch => acc * 10 + (ch.toNat - 48)) 0 (Nat.toDigitsCore 10 fuel n ds) =
      List.foldl (fun acc ch => acc * 10 + (ch.toNat - 48)) n ds := by
  intro fuel
  induction fuel with
  | zero => intro n ds h; omega
  | succ f ih =>
    intro n ds h
    unfold Nat.toDigitsCore
    simp only
    by_cases h0 : n / 10 = 0
    · simp only [h0, if_true, List.foldl_cons, Nat.zero_mul, Nat.zero_add]
      rw [digitChar_toNat _ (Nat.mod_lt _ (by decide))]
      congr 1
      omega
    · simp only [h0, if_false]
      rw [ih (n / 10) _ (by omega), List.foldl_cons, digitChar_toNat _ (Nat.mod_lt _ (by decide))]
      congr 1
      omega

theorem toDigitsCore_head : ∀ (fuel n : Nat) (ds : List Char),
    ∃ k rest, k < 10 ∧ Nat.toDigitsCore 10 (fuel + 1) n ds = Nat.digitChar k :: rest := by
  intro fuel
  induction fuel with
  | zero =>
    intro n ds
    refine ⟨n % 10, ds, Nat.mod_lt _ (by decide), ?_⟩
    unfold Nat.toDigitsCore
    simp only
    split
    · rfl
    · rfl
  | succ f ih =>
    intro n ds
    unfold Nat.toDigitsCore
    simp only
    split
    · exact ⟨n % 10, ds, Nat.mod_lt _ (by decide), rfl⟩
    · exact ih _ _

theorem nat_repr_injective (n m : Nat) (h : Nat.repr n = Nat.repr m) : n = m := by
  have hd : Nat.toDigits 10 n = Nat.toDigits 10 m := by
    have := congrArg String.data h
    simpa [Nat.repr, List.asString] using this
  have := congrArg (List.foldl (fun acc ch => acc * 10 + (ch.toNat - 48)) 0) hd
  unfold Nat.toDigits at this
  rw [toDigitsCore_decode _ _ _ (Nat.lt_succ_self n),
    toDigitsCore_decode _ _ _ (Nat.lt_succ_self m)] at this
  simpa using this

theorem nat_repr_ne_minus (n : Nat) (s : String) : Nat.repr n ≠ "-" ++ s := by
  intro h
  have := congrArg String.data h
  obtain ⟨k, rest, hk, hkr⟩ := toDigitsCore_head n n []
  simp only [Nat.repr, List.asString, Nat.toDigits, hkr, String.data_append] at this
  simp only [List.singleton_append, List.cons.injEq] at this
  exact digitChar_ne_minus k hk this.1

theorem int_toString_injective (a b : Int) (h : toString a = toString b) : a = b := by
  cases a with
  | ofNat n =>
    cases b with
    | ofNat m =>
      have : Nat.repr n = Nat.repr m := h
      rw [nat_repr_injective n m this]
    | negSucc m =>
      have : Nat.repr n = "-" ++ Nat.repr (m + 1) := h
      exact absurd this (nat_repr_ne_minus _ _)
  | negSucc n =>
    cases b with
    | ofNat m =>
      have : "-" ++ Nat.repr (n + 1) = Nat.repr m := h
      exact absurd this.symm (nat_repr_ne_minus _ _)
    | negSucc m =>
      have h2 : "-" ++ Nat.repr (n + 1) = "-" ++ Nat.repr (m + 1) := h
      have h3 := congrArg String.data h2
      simp only [String.data_append, List.append_cancel_left_eq] at h3
      have h4 : Nat.repr (n + 1) = Nat.repr (m + 1) := String.ext h3
      have := nat_repr_injective _ _ h4
      have hnm : n = m := by omega
      rw [hnm]

/-- Distinct ports have distinct per-port names. -/
theorem lbPortObjectsNameOf_injective (loadBalancerName : String) :
    Function.Injective (lbPortObjectsNameOf loadBalancerName) := by
  intro p q h
  apply int_toString_injective
  have h2 := congrArg String.data h
  simp only [lbPortObjectsNameOf, String.data_append, List.append_cancel_left_eq] at h2
  exact String.ext h2

theorem reconcileMemberPorts_no_pool {σ : Type} (b : Backend σ)
    (loadBalancerName machineName lbID subnetID ip : String) (port : Int) (rest : List Int)
    (w : World σ) (s1 : σ)
    (h : b.exec w.st (.poolsList (lbPortObjectsNameOf loadBalancerName port) "") = (.ok [], s1)) :
    reconcileMemberPorts b loadBalancerName machineName lbID subnetID ip (port :: rest) w =
      (some "loadbalancer pool does not exist yet",
        ⟨s1, w.trace ++ [.poolsList (lbPortObjectsNameOf loadBalancerName port) ""]⟩) := by
  simp [reconcileMemberPorts, checkIfPoolExists, call_eq b w _ _ _ h]

theorem deleteRules_ok {σ : Type} (b : Backend σ) :
    ∀ (rules : List SecurityGroupRule) (w w1 : World σ),
      deleteRules b rules w = (none, w1) →
      w1.trace = w.trace ++ rules.map (fun r => Call.rulesDelete r.ID) := by
  intro rules
  induction rules with
  | nil => intro w w1 h; simp [deleteRules] at h; simp [← h]
  | cons r rest ih =>
    intro w w1 h
    unfold deleteRules at h
    rcases hd : call b w (.rulesDelete r.ID) with ⟨rd, wa⟩
    have td := call_trace b w (.rulesDelete r.ID)
    rw [hd] at h td
    cases rd with
    | error e => simp at h
    | ok v =>
      simp only at h td
      rw [ih wa w1 h, td]
      simp

theorem ruleCreateOpts_resolve (groupID : String) (r : SecurityGroupRule) :
    ruleCreateOpts (resolveSelf { r with SecurityGroupID := groupID } groupID) =
      recreateOpts groupID r := by
  unfold resolveSelf recreateOpts ruleCreateOpts
  by_cases h : r.RemoteGroupID = "self" <;> simp [h]

theorem createRules_ok {σ : Type} (b : Backend σ) (groupID : String) :
    ∀ (rules created : List SecurityGroupRule) (w w1 : World σ)
      (result : List SecurityGroupRule),
      createRules b groupID rules created w = (.ok result, w1) →
      w1.trace = w.trace ++ rules.map (fun r => Call.rulesCreate (recreateOpts groupID r)) ∧
        result.length = created.length + rules.length := by
  intro rules
  induction rules with
  | nil =>
    intro created w w1 result h
    simp [createRules] at h
    simp [← h.1, ← h.2]
  | cons r rest ih =>
    intro created w w1 result h
    unfold createRules at h
    simp only [createRule] at h
    rw [ruleCreateOpts_resolve] at h
    rcases hc : call b w (.rulesCreate (recreateOpts groupID r)) with ⟨rc, wa⟩
    have tc := call_trace b w (.rulesCreate (recreateOpts groupID r))
    rw [hc] at h tc
    cases rc with
    | error e => simp at h
    | ok v =>
      simp only at h tc
      obtain ⟨i1, i2⟩ := ih _ wa w1 result h
      refine ⟨by rw [i1, tc]; simp, by rw [i2]; simp; omega⟩

theorem generated_groups_distinct (clusterName : String) (o : SecurityGroup) :
    distinctRules (resolvedRules (generateControlPlaneGroup clusterName) o) ∧
    distinctRules (resolvedRules (generateGlobalGroup clusterName) o) := by
  have e1 : ("" : String) ≠ "self" := by decide
  constructor
  · rw [distinctRules_iff]
    simp [resolvedRules, generateControlPlaneGroup, defaultRules, resolveSelf, ruleKey, e1]
  · rw [distinctRules_iff]
    simp [resolvedRules, generateGlobalGroup, defaultRules, resolveSelf, ruleKey, e1]

/-! ## C11: a member with a stale address -/

/-- C11: for a control-plane machine and a single configured port whose pool
`pool` holds a member `m` under the deterministic name with an address other
than `ip`, a successful `ReconcileLoadBalancerMember` issues exactly: the pool
lookup, the member lookup, a load-balancer wait, one `members.Delete` of `m`
on the pool, a load-balancer wait, a load-balancer wait, one `members.Create`
on the pool with the address `ip`, a load-balancer wait.  Each wait is between
1 and 10 probes of the load balancer; no other request, so no update, occurs. -/
theorem ReconcileLoadBalancerMember_replaces_stale_member {σ : Type} (b : Backend σ) (networkPrefix kubeapiLBSuffix clusterName : String)
    (machine : Machine) (openStackMachine : OpenStackMachine) (c : OpenStackCluster)
    (ip : String) (w : World σ) (net : Network) (subnet : Subnet) (lb : LoadBalancer)
    (pool : OSPool) (pools : List OSPool) (m : OSMember) (ms : List OSMember) (s1 s2 : σ)
    (hcp : machine.IsControlPlane = true)
    (hnet : c.Status.Network = some net) (hsub : net.Subnet = some subnet)
    (hlb : net.APIServerLoadBalancer = some lb)
    (hsingle : c.Spec.APIServerLoadBalancerAdditionalPorts = [])
    (hpool : b.exec w.st (.poolsList
      (lbPortObjectsNameOf (loadBalancerNameOf networkPrefix clusterName kubeapiLBSuffix)
        c.Spec.APIServerLoadBalancerPort) "") = (.ok (pool :: pools), s1))
    (hmem : b.exec s1 (.membersList pool.ID
      (lbPortObjectsNameOf (loadBalancerNameOf networkPrefix clusterName kubeapiLBSuffix)
        c.Spec.APIServerLoadBalancerPort ++ "-" ++ openStackMachine.Name)) = (.ok (m :: ms), s2))
    (hstale : m.Address ≠ ip)
    (hok : (ReconcileLoadBalancerMember b networkPrefix kubeapiLBSuffix clusterName machine
      openStackMachine c ip w).1 = none) :
    ∃ n1 n2 n3 n4, (1 ≤ n1 ∧ n1 ≤ 10) ∧ (1 ≤ n2 ∧ n2 ≤ 10) ∧ (1 ≤ n3 ∧ n3 ≤ 10) ∧
      (1 ≤ n4 ∧ n4 ≤ 10) ∧
      (ReconcileLoadBalancerMember b networkPrefix kubeapiLBSuffix clusterName machine
        openStackMachine c ip w).2.trace =
        w.trace ++
        [.poolsList (lbPortObjectsNameOf
            (loadBalancerNameOf networkPrefix clusterName kubeapiLBSuffix)
            c.Spec.APIServerLoadBalancerPort) "",
         .membersList pool.ID (lbPortObjectsNameOf
            (loadBalancerNameOf networkPrefix clusterName kubeapiLBSuffix)
            c.Spec.APIServerLoadBalancerPort ++ "-" ++ openStackMachine.Name)] ++
        List.replicate n1 (.loadbalancersGet lb.ID) ++
        [.membersDelete pool.ID m.ID] ++
        List.replicate n2 (.loadbalancersGet lb.ID) ++
        List.replicate n3 (.loadbalancersGet lb.ID) ++
        [.membersCreate pool.ID
          { Name := lbPortObjectsNameOf
              (loadBalancerNameOf networkPrefix clusterName kubeapiLBSuffix)
              c.Spec.APIServerLoadBalancerPort ++ "-" ++ openStackMachine.Name
            ProtocolPort := c.Spec.APIServerLoadBalancerPort
            Address := ip
            SubnetID := subnet.ID }] ++
        List.replicate n4 (.loadbalancersGet lb.ID) := by
  have hmem2 : b.exec (⟨s1, w.trace ++ [Call.poolsList (lbPortObjectsNameOf
      (loadBalancerNameOf networkPrefix clusterName kubeapiLBSuffix)
      c.Spec.APIServerLoadBalancerPort) ""]⟩ : World σ).st (.membersList pool.ID
      (lbPortObjectsNameOf (loadBalancerNameOf networkPrefix clusterName kubeapiLBSuffix)
        c.Spec.APIServerLoadBalancerPort ++ "-" ++ openStackMachine.Name)) =
        (.ok (m :: ms), s2) := hmem
  have hne : (m.Address == ip) = false := by simpa using hstale
  revert hok
  simp only [ReconcileLoadBalancerMember, hcp, hnet, hsub, hlb, hsingle, reconcileMemberPorts,
    checkIfPoolExists, checkIfLbMemberExists, call_eq b w _ _ _ hpool,
    call_eq b _ _ _ _ hmem2, hne, Bool.not_true, Bool.false_eq_true, if_false]
  rcases hw1 : waitForLoadBalancer b lb.ID "ACTIVE" _ with ⟨r1, wa⟩
  cases r1 with
  | some e => simp
  | none =>
    obtain ⟨n1, ⟨a1, b1⟩, t1⟩ := waitForLoadBalancer_ok b lb.ID _ _ wa _ hw1
    simp only
    rcases hd : call b wa (.membersDelete pool.ID m.ID) with ⟨rd, wb⟩
    have td := call_trace b wa (.membersDelete pool.ID m.ID)
    rw [hd] at td
    cases rd with
    | error e => simp
    | ok v =>
      simp only
      rcases hw2 : waitForLoadBalancer b lb.ID "ACTIVE" wb with ⟨r2, wc⟩
      cases r2 with
      | some e => simp
      | none =>
        obtain ⟨n2, ⟨a2, b2⟩, t2⟩ := waitForLoadBalancer_ok b lb.ID _ _ wc _ hw2
        simp only
        rcases hcm : createLbMember b lb.ID pool.ID _ c.Spec.APIServerLoadBalancerPort ip
          subnet.ID wc with ⟨r3, wd⟩
        cases r3 with
        | some e => simp
        | none =>
          obtain ⟨n3, n4, a3, a4, t3⟩ := createLbMember_ok b lb.ID _ _ _ _ _ wc wd hcm
          intro _
          refine ⟨n1, n2, n3, n4, ⟨a1, b1⟩, ⟨a2, b2⟩, a3, a4, ?_⟩
          simp only at td t1
          simp only [t3, t2, td, t1, List.append_assoc, List.singleton_append, List.cons_append,
            List.nil_append]

/-- C11, witness: the reference backend holding the member of `cp0` at
10.0.0.5, reconciled with the address 10.0.0.6. -/
theorem ReconcileLoadBalancerMember_replaces_stale_member_witness :
    staleMemberPass.1 = none ∧
    ∃ n1 n2 n3 n4, (1 ≤ n1 ∧ n1 ≤ 10) ∧ (1 ≤ n2 ∧ n2 ≤ 10) ∧ (1 ≤ n3 ∧ n3 ≤ 10) ∧
      (1 ≤ n4 ∧ n4 ≤ 10) ∧
      staleMemberPass.2.trace =
        [] ++
        [.poolsList (lbPortObjectsNameOf (loadBalancerNameOf "k8s" "demo" "kubeapi") 6443) "",
         .membersList "pool-6443"
           (lbPortObjectsNameOf (loadBalancerNameOf "k8s" "demo" "kubeapi") 6443 ++ "-" ++ "cp0")] ++
        List.replicate n1 (.loadbalancersGet "lb-1") ++
        [.membersDelete "pool-6443" "mem-1"] ++
        List.replicate n2 (.loadbalancersGet "lb-1") ++
        List.replicate n3 (.loadbalancersGet "lb-1") ++
        [.membersCreate "pool-6443"
          { Name := lbPortObjectsNameOf (loadBalancerNameOf "k8s" "demo" "kubeapi") 6443 ++
              "-" ++ "cp0"
            ProtocolPort := 6443
            Address := "10.0.0.6"
            SubnetID := "sub-1" }] ++
        List.replicate n4 (.loadbalancersGet "lb-1") :=
  ⟨by decide,
   ReconcileLoadBalancerMember_replaces_stale_member cloudBackend "k8s" "kubeapi" "demo"
    { IsControlPlane := true } { Name := "cp0" } singlePortCluster "10.0.0.6"
    ⟨staleMemberCloud, []⟩
    { ID := "net-1", Name := "k8s-cluster-demo"
      Subnet := some { ID := "sub-1", Name := "k8s-cluster-demo", CIDR := "10.6.0.0/24" }
      APIServerLoadBalancer := some { ID := "lb-1", Name := "k8s-cluster-demo-kubeapi" } }
    { ID := "sub-1", Name := "k8s-cluster-demo", CIDR := "10.6.0.0/24" }
    { ID := "lb-1", Name := "k8s-cluster-demo-kubeapi" }
    { ID := "pool-6443", Name := "k8s-cluster-demo-kubeapi-6443" } []
    { ID := "mem-1", Name := "k8s-cluster-demo-kubeapi-6443-cp0", Address := "10.0.0.5",
      ProtocolPort := 6443, SubnetID := "sub-1", PoolID := "pool-6443" } []
    staleMemberCloud staleMemberCloud rfl rfl rfl rfl rfl rfl rfl (by decide) (by decide)⟩

/-! ## C12: members and pools in the manual teardown -/

/-- An ordering property of the mutating requests of a trace holds of the
whole trace when requests that are not mutating are unconstrained. -/
theorem pairwise_of_filter_mutating (R : Call → Call → Prop)
    (hR : ∀ a c, (a.mutating = false ∨ c.mutating = false) → R a c) :
    ∀ t : List Call, (t.filter Call.mutating).Pairwise R → t.Pairwise R := by
  intro t
  induction t with
  | nil => intro _; exact List.Pairwise.nil
  | cons x xs ih =>
    intro h
    cases hx : x.mutating with
    | false =>
      rw [List.filter_cons_of_neg (by simp [hx])] at h
      exact List.Pairwise.cons (fun y _ => hR x y (Or.inl hx)) (ih h)
    | true =>
      rw [List.filter_cons_of_pos (by simp [hx]), List.pairwise_cons] at h
      refine List.Pairwise.cons ?_ (ih h.2)
      intro y hy
      cases hy2 : y.mutating with
      | false => exact hR x y (Or.inr hy2)
      | true => exact h.1 y (List.mem_filter.2 ⟨hy, hy2⟩)

theorem own_of_not_mutating (c1 c2 : Call)
    (h : c1.mutating = false ∨ c2.mutating = false) :
    poolDeleteThenOwnMemberDelete c1 c2 = false := by
  rcases h with h | h
  · exact own_of_not_pool c1 c2 (fun p hp => by subst hp; simp [Call.mutating] at h)
  · exact own_of_not_member c1 c2 (fun p m hp => by subst hp; simp [Call.mutating] at h)

/-- C12, the claim as stated fails: in the successful teardown of a load
balancer with two pools that hold members, the members of the second pool are
deleted after the first pool was deleted. -/
theorem deleteLoadBalancerNeutronV2_member_delete_after_pool_delete :
    teardownPass.1 = none ∧
    teardownPass.2.trace.filter Call.mutating =
      [.monitorsDelete "mon-1", .membersDelete "pool-1" "mem-1", .poolsDelete "pool-1",
       .membersDelete "pool-2" "mem-2", .membersDelete "pool-2" "mem-3", .poolsDelete "pool-2",
       .listenersDelete "ls-1", .listenersDelete "ls-2", .loadbalancersDelete "lb-1" false] ∧
    ¬ teardownPass.2.trace.Pairwise (fun c1 c2 => poolDeleteThenMemberDelete c1 c2 = false) := by
  decide

/-- C12, amended: in the call trace of a successful manual teardown whose
pool listing returned pools of pairwise distinct ids, no member-delete call on
a pool occurs after the pool-delete call of that same pool. -/
theorem deleteLoadBalancerNeutronV2_members_before_own_pool {σ : Type} (b : Backend σ)
    (id : String) (s : σ) (lb : OSLoadBalancer) (lbListeners : List OSListener)
    (lbPools : List OSPool) (s1 s2 s3 : σ)
    (hget : b.exec s (.loadbalancersGet id) = (.ok lb, s1))
    (hlisteners : b.exec s1 (.listenersList "" lb.ID) = (.ok lbListeners, s2))
    (hpools : b.exec s2 (.poolsList "" lb.ID) = (.ok lbPools, s3))
    (hdistinct : (lbPools.map (fun p => p.ID)).Nodup)
    (hok : (deleteLoadBalancerNeutronV2 b id ⟨s, []⟩).1 = none) :
    (deleteLoadBalancerNeutronV2 b id ⟨s, []⟩).2.trace.Pairwise
      (fun c1 c2 => poolDeleteThenOwnMemberDelete c1 c2 = false) := by
  obtain ⟨pms, h1, -, h3⟩ := deleteLoadBalancerNeutronV2_mutations b id ⟨s, []⟩ lb lbListeners
    lbPools s1 s2 s3 hget hlisteners hpools hok
  apply pairwise_of_filter_mutating _ own_of_not_mutating
  rw [h3]
  simp only [List.filter_nil, List.nil_append]
  apply pairwise_teardownCalls
  have e : pms.map (fun pm => pm.1.ID) = lbPools.map (fun p => p.ID) := by
    rw [← h1, List.map_map]
    rfl
  rw [e]
  exact hdistinct

/-- C12, witness: the teardown of the load balancer of `teardownCloud`. -/
theorem deleteLoadBalancerNeutronV2_members_before_own_pool_witness :
    teardownPass.2.trace.Pairwise (fun c1 c2 => poolDeleteThenOwnMemberDelete c1 c2 = false) :=
  deleteLoadBalancerNeutronV2_members_before_own_pool cloudBackend "lb-1" teardownCloud
    { ID := "lb-1", Name := "k8s-cluster-demo-kubeapi", ProvisioningStatus := "ACTIVE" }
    teardownCloud.listeners teardownCloud.pools teardownCloud teardownCloud teardownCloud
    rfl rfl rfl (by decide) (by decide)

/-! ## C13: the order of the manual teardown -/

/-- C13: the mutating calls of a successful manual teardown are exactly, in
this order: for each listed pool in turn, the monitor-delete if the pool's
`MonitorID` is non-empty (and none otherwise), one member-delete per member
listed for the pool, one pool-delete; then one listener-delete per listed
listener; then the load-balancer delete, which is the last mutating call. -/
theorem deleteLoadBalancerNeutronV2_teardown_order {σ : Type} (b : Backend σ)
    (id : String) (w : World σ) (lb : OSLoadBalancer) (lbListeners : List OSListener)
    (lbPools : List OSPool) (s1 s2 s3 : σ)
    (hget : b.exec w.st (.loadbalancersGet id) = (.ok lb, s1))
    (hlisteners : b.exec s1 (.listenersList "" lb.ID) = (.ok lbListeners, s2))
    (hpools : b.exec s2 (.poolsList "" lb.ID) = (.ok lbPools, s3))
    (hok : (deleteLoadBalancerNeutronV2 b id w).1 = none) :
    ∃ pms : List (OSPool × List OSMember),
      pms.map Prod.fst = lbPools ∧
      (∀ pm ∈ pms, ∃ s, (b.exec s (.membersList pm.1.ID "")).1 = .ok pm.2) ∧
      (deleteLoadBalancerNeutronV2 b id w).2.trace.filter Call.mutating =
        w.trace.filter Call.mutating ++
          (pms.flatMap (fun pm =>
              (if pm.1.MonitorID != "" then [Call.monitorsDelete pm.1.MonitorID] else []) ++
                pm.2.map (fun m => Call.membersDelete pm.1.ID m.ID) ++
                [Call.poolsDelete pm.1.ID]) ++
            lbListeners.map (fun l => Call.listenersDelete l.ID) ++
            [Call.loadbalancersDelete lb.ID false]) ∧
      ((deleteLoadBalancerNeutronV2 b id w).2.trace.filter Call.mutating).getLast? =
        some (Call.loadbalancersDelete lb.ID false) := by
  obtain ⟨pms, h1, h2, h3⟩ := deleteLoadBalancerNeutronV2_mutations b id w lb lbListeners
    lbPools s1 s2 s3 hget hlisteners hpools hok
  refine ⟨pms, h1, h2, h3, ?_⟩
  rw [h3]
  unfold teardownCalls
  rw [← List.append_assoc, List.getLast?_append]
  rfl

/-- C13, witness: the teardown of the load balancer of `teardownCloud`. -/
theorem deleteLoadBalancerNeutronV2_teardown_order_witness :
    teardownPass.1 = none ∧
    ∃ pms : List (OSPool × List OSMember),
      pms.map Prod.fst = teardownCloud.pools ∧
      (∀ pm ∈ pms, ∃ s, (cloudBackend.exec s (.membersList pm.1.ID "")).1 = .ok pm.2) ∧
      teardownPass.2.trace.filter Call.mutating =
        ([] : List Call).filter Call.mutating ++
          (pms.flatMap (fun pm =>
              (if pm.1.MonitorID != "" then [Call.monitorsDelete pm.1.MonitorID] else []) ++
                pm.2.map (fun m => Call.membersDelete pm.1.ID m.ID) ++
                [Call.poolsDelete pm.1.ID]) ++
            teardownCloud.listeners.map (fun l => Call.listenersDelete l.ID) ++
            [Call.loadbalancersDelete "lb-1" false]) ∧
      (teardownPass.2.trace.filter Call.mutating).getLast? =
        some (Call.loadbalancersDelete "lb-1" false) :=
  ⟨by decide,
   deleteLoadBalancerNeutronV2_teardown_order cloudBackend "lb-1" ⟨teardownCloud, []⟩
    { ID := "lb-1", Name := "k8s-cluster-demo-kubeapi", ProvisioningStatus := "ACTIVE" }
    teardownCloud.listeners teardownCloud.pools teardownCloud teardownCloud teardownCloud
    rfl rfl rfl (by decide)⟩

/-! ## C14: exhausting the wait budget -/

/-- C14: on a backend where, from the current state on, the load-balancer Get
keeps succeeding with a provisioning status other than the target,
`waitForLoadBalancer` returns the timeout error after exactly 10 probes;
likewise, and independently, where the floating-IP Get keeps succeeding with a
status other than the target, `waitForFloatingIP` returns the timeout error
after exactly 10 probes. -/
theorem waits_exhaust_after_ten_probes {σ : Type} (b : Backend σ) (target : String)
    (w : World σ) :
    (∀ (lbID : String) (P : σ → Prop), P w.st →
      (∀ s, P s → ∃ lb, (b.exec s (.loadbalancersGet lbID)).1 = .ok lb ∧
        lb.ProvisioningStatus ≠ target ∧ P (b.exec s (.loadbalancersGet lbID)).2) →
      (waitForLoadBalancer b lbID target w).1 = some errWaitTimeout ∧
        (waitForLoadBalancer b lbID target w).2.trace =
          w.trace ++ List.replicate 10 (.loadbalancersGet lbID)) ∧
    (∀ (fipID : String) (Q : σ → Prop), Q w.st →
      (∀ s, Q s → ∃ fp, (b.exec s (.floatingipsGet fipID)).1 = .ok fp ∧
        fp.Status ≠ target ∧ Q (b.exec s (.floatingipsGet fipID)).2) →
      (waitForFloatingIP b fipID target w).1 = some errWaitTimeout ∧
        (waitForFloatingIP b fipID target w).2.trace =
          w.trace ++ List.replicate 10 (.floatingipsGet fipID)) := by
  constructor
  · intro lbID P hP0 hP
    unfold waitForLoadBalancer
    apply ExponentialBackoff_exhausts _ _ P _ backoffSteps w hP0
    intro w0 h0
    obtain ⟨lb, h1, h2, h3⟩ := hP w0.st h0
    have e : call b w0 (.loadbalancersGet lbID) =
        (.ok lb, ⟨(b.exec w0.st (.loadbalancersGet lbID)).2,
          w0.trace ++ [.loadbalancersGet lbID]⟩) := by
      simp [call, h1]
    simp [e, h2, h3]
  · intro fipID Q hQ0 hQ
    unfold waitForFloatingIP
    apply ExponentialBackoff_exhausts _ _ Q _ backoffSteps w hQ0
    intro w0 h0
    obtain ⟨fp, h1, h2, h3⟩ := hQ w0.st h0
    have e : call b w0 (.floatingipsGet fipID) =
        (.ok fp, ⟨(b.exec w0.st (.floatingipsGet fipID)).2,
          w0.trace ++ [.floatingipsGet fipID]⟩) := by
      simp [call, h1]
    simp [e, h2, h3]

/-- C14, witness: the reference backend holding a load balancer that stays in
`PENDING_CREATE` and no floating IP, and the one holding a floating IP that
stays `DOWN`. -/
theorem waits_exhaust_after_ten_probes_witness :
    ((waitForLoadBalancer cloudBackend "lb-1" "ACTIVE" ⟨stuckLbCloud, []⟩).1 =
        some errWaitTimeout ∧
      (waitForLoadBalancer cloudBackend "lb-1" "ACTIVE" ⟨stuckLbCloud, []⟩).2.trace =
        [] ++ List.replicate 10 (.loadbalancersGet "lb-1")) ∧
    ((waitForFloatingIP cloudBackend "fip-1" "ACTIVE" ⟨pendingCloud, []⟩).1 =
        some errWaitTimeout ∧
      (waitForFloatingIP cloudBackend "fip-1" "ACTIVE" ⟨pendingCloud, []⟩).2.trace =
        [] ++ List.replicate 10 (.floatingipsGet "fip-1")) :=
  ⟨(waits_exhaust_after_ten_probes cloudBackend "ACTIVE" ⟨stuckLbCloud, []⟩).1 "lb-1"
      (fun s => s = stuckLbCloud) rfl
      (fun s hs => by subst hs; exact ⟨_, rfl, by decide, rfl⟩),
   (waits_exhaust_after_ten_probes cloudBackend "ACTIVE" ⟨pendingCloud, []⟩).2 "fip-1"
      (fun s => s = pendingCloud) rfl
      (fun s hs => by subst hs; exact ⟨_, rfl, by decide, rfl⟩)⟩

/-! ## C15: waits around the creations of `ReconcileLoadBalancer` -/

/-- C15, the claim as stated fails.  With an adopted load balancer the pass
succeeds and the request right before a creation of a listener, pool or
monitor is not a probe of the load balancer: the first listener is created
right after its lookup by name, and no probe of the load balancer occurs
before.  When the backend refuses the creation of the listener, the pass
returns the error and the creation is the last request: no wait follows. -/
theorem ReconcileLoadBalancer_create_not_preceded_by_wait :
    adoptedLbPass.err? = some none ∧
    adoptedLbPass.world.trace.take 7 =
      [.loadbalancersList "k8s-cluster-demo-kubeapi",
       .floatingipsList "172.24.4.10",
       .floatingipsCreate { FloatingIP := "172.24.4.10", FloatingNetworkID := "ext-1" },
       .floatingipsUpdate "id-0" "vip-1",
       .floatingipsGet "id-0",
       .listenersList "k8s-cluster-demo-kubeapi-6443" "",
       .listenersCreate (listenerCreateOpts "lb-1" "k8s-cluster-demo-kubeapi-6443" 6443)] ∧
    ¬ adoptedLbPass.world.trace.Chain' waitPrecedes ∧
    refusedListenerPass.err? =
      some (some "error creating listener: backend refused listeners.Create") ∧
    refusedListenerPass.world.trace.getLast? =
      some (.listenersCreate (listenerCreateOpts "lb-1" "k8s-cluster-demo-kubeapi-6443" 6443)) := by
  have htake : adoptedLbPass.world.trace.take 7 =
      [.loadbalancersList "k8s-cluster-demo-kubeapi",
       .floatingipsList "172.24.4.10",
       .floatingipsCreate { FloatingIP := "172.24.4.10", FloatingNetworkID := "ext-1" },
       .floatingipsUpdate "id-0" "vip-1",
       .floatingipsGet "id-0",
       .listenersList "k8s-cluster-demo-kubeapi-6443" "",
       .listenersCreate (listenerCreateOpts "lb-1" "k8s-cluster-demo-kubeapi-6443" 6443)] := by
    decide
  refine ⟨by decide, htake, ?_, by decide, by decide⟩
  intro h
  rw [← List.take_append_drop 7 adoptedLbPass.world.trace, htake] at h
  have h2 := h.left_of_append
  simp [waitPrecedes, isChildCreate, isLoadBalancerGet] at h2

/-- C15, amended: in every call trace of `ReconcileLoadBalancer`, each call
`x` that creates a listener, a pool or a health monitor is immediately
followed by a load-balancer-ACTIVE wait on the load balancer the pass works
on, adopted or created: between 1 and 10 probes of that load balancer, after
which the next request is not such a probe.  The only exception is a creation
that ends the trace, and then the pass returned an error. -/
theorem ReconcileLoadBalancer_wait_follows_create {σ : Type} (b : Backend σ)
    (networkPrefix kubeapiLBSuffix clusterName : String) (c : OpenStackCluster) (s : σ)
    (pre post : List Call) (x : Call)
    (htrace : (ReconcileLoadBalancer b networkPrefix kubeapiLBSuffix clusterName c
      ⟨s, []⟩).world.trace = pre ++ x :: post)
    (hx : isChildCreate x = true) :
    ∃ lb, isPassLoadBalancer b (loadBalancerNameOf networkPrefix clusterName kubeapiLBSuffix)
        c s lb ∧
      ((post = [] ∧ ∃ e, (ReconcileLoadBalancer b networkPrefix kubeapiLBSuffix clusterName c
          ⟨s, []⟩).err? = some (some e)) ∨
        ∃ n rest, 1 ≤ n ∧ n ≤ 10 ∧
          post = List.replicate n (.loadbalancersGet lb.ID) ++ rest ∧
          rest.head? ≠ some (.loadbalancersGet lb.ID)) := by
  rcases ReconcileLoadBalancer_gated b networkPrefix kubeapiLBSuffix clusterName c s with
    hl | ⟨lb, hlb, g1, hrun, hs⟩
  · have := hl x (by rw [htrace]; simp)
    rw [hx] at this
    cases this
  · refine ⟨lb, hlb, ?_⟩
    rw [htrace] at hrun
    rcases gateRun_split lb.ID pre post x .idle g1 hrun hx with ⟨hp, hg⟩ | h
    · left
      refine ⟨hp, ?_⟩
      by_contra hne
      have := hs hne
      rw [hg] at this
      simp [Settled] at this
    · right
      exact h

/-- C15, witness: the first listener creation of the pass over the adopted
load balancer `lb-1`, which is followed by the wait, and the refused listener
creation, which ends the trace of a pass that returns an error. -/
theorem ReconcileLoadBalancer_wait_follows_create_witness :
    (∃ lb, isPassLoadBalancer cloudBackend (loadBalancerNameOf "k8s" "demo" "kubeapi")
        lbReadyCluster adoptedLbCloud lb ∧
      ((adoptedLbPass.world.trace.drop 7 = [] ∧
          ∃ e, adoptedLbPass.err? = some (some e)) ∨
        ∃ n rest, 1 ≤ n ∧ n ≤ 10 ∧
          adoptedLbPass.world.trace.drop 7 =
            List.replicate n (.loadbalancersGet lb.ID) ++ rest ∧
          rest.head? ≠ some (.loadbalancersGet lb.ID))) ∧
    (∃ lb, isPassLoadBalancer cloudBackend (loadBalancerNameOf "k8s" "demo" "kubeapi")
        lbReadyCluster refusedListenerCloud lb ∧
      ((([] : List Call) = [] ∧ ∃ e, refusedListenerPass.err? = some (some e)) ∨
        ∃ n rest, 1 ≤ n ∧ n ≤ 10 ∧
          ([] : List Call) = List.replicate n (.loadbalancersGet lb.ID) ++ rest ∧
          rest.head? ≠ some (.loadbalancersGet lb.ID))) :=
  ⟨ReconcileLoadBalancer_wait_follows_create cloudBackend "k8s" "kubeapi" "demo" lbReadyCluster
      adoptedLbCloud (adoptedLbPass.world.trace.take 6) (adoptedLbPass.world.trace.drop 7)
      (.listenersCreate (listenerCreateOpts "lb-1" "k8s-cluster-demo-kubeapi-6443" 6443))
      (by decide) rfl,
   ReconcileLoadBalancer_wait_follows_create cloudBackend "k8s" "kubeapi" "demo" lbReadyCluster
      refusedListenerCloud (refusedListenerPass.world.trace.take 6) []
      (.listenersCreate (listenerCreateOpts "lb-1" "k8s-cluster-demo-kubeapi-6443" 6443))
      (by decide) rfl⟩

/-! ## C16: a first load-balancer pass -/

/-- C16, the claim as stated fails: when an additional port repeats the
primary port (6443 and [6443], so k = 1), the pass over an empty faithful
cloud returns nil after one listener, one pool and one monitor creation, not
two of each: the second round adopts what the first created. -/
theorem ReconcileLoadBalancer_repeated_port_creates_once :
    repeatedPortPass.err? = some none ∧
    repeatedPortPass.world.trace.filterMap createdResource =
      [("loadbalancer", "k8s-cluster-demo-kubeapi"), ("floatingip", "172.24.4.10"),
       ("listener", "k8s-cluster-demo-kubeapi-6443"), ("pool", "k8s-cluster-demo-kubeapi-6443"),
       ("monitor", "k8s-cluster-demo-kubeapi-6443")] := by
  decide

/-- C16, amended: for a cluster with external-network id and floating-IP
literal set, a non-zero primary port and additional ports that are, together
with the primary port, pairwise distinct, a reconciled subnet in the status,
on the reference backend that refuses nothing and holds no load-balancer
resource, `ReconcileLoadBalancer` returns nil; its creations are exactly one
load balancer, one floating IP, and per port in the order p, a1, ..., ak one
listener, one pool and one monitor named `<lbName>-<port>`; the recorded
load-balancer IP is the configured floating address. -/
theorem ReconcileLoadBalancer_creates_one_triple_per_port (networkPrefix kubeapiLBSuffix clusterName : String) (c : OpenStackCluster)
    (s : Cloud) (net : Network) (subnet : Subnet)
    (hext : c.Spec.ExternalNetworkID ≠ "") (hfip : c.Spec.APIServerLoadBalancerFloatingIP ≠ "")
    (hport : c.Spec.APIServerLoadBalancerPort ≠ 0)
    (hnet : c.Status.Network = some net) (hsub : net.Subnet = some subnet)
    (hfaithful : s.failing = [])
    (hlbs : s.loadbalancers = []) (hfips : s.floatingips = []) (hls : s.listeners = [])
    (hps : s.pools = []) (hms : s.monitors = [])
    (hports : (c.Spec.APIServerLoadBalancerPort ::
      c.Spec.APIServerLoadBalancerAdditionalPorts).Nodup) :
    ∃ out, ReconcileLoadBalancer cloudBackend networkPrefix kubeapiLBSuffix clusterName c
        ⟨s, []⟩ = .returned out ∧
      out.err = none ∧
      out.world.trace.filterMap createdResource =
        [("loadbalancer", loadBalancerNameOf networkPrefix clusterName kubeapiLBSuffix),
         ("floatingip", c.Spec.APIServerLoadBalancerFloatingIP)] ++
        (c.Spec.APIServerLoadBalancerPort :: c.Spec.APIServerLoadBalancerAdditionalPorts).flatMap
          (portTriple (loadBalancerNameOf networkPrefix clusterName kubeapiLBSuffix)) ∧
      ∃ net1 recorded, out.cluster.Status.Network = some net1 ∧
        net1.APIServerLoadBalancer = some recorded ∧
        recorded.IP = c.Spec.APIServerLoadBalancerFloatingIP := by
  have hdistinct : ((c.Spec.APIServerLoadBalancerPort ::
      c.Spec.APIServerLoadBalancerAdditionalPorts).map (lbPortObjectsNameOf
        (loadBalancerNameOf networkPrefix clusterName kubeapiLBSuffix))).Nodup :=
    hports.map (lbPortObjectsNameOf_injective _)
  have hrun1 : s.run (.loadbalancersList
      (loadBalancerNameOf networkPrefix clusterName kubeapiLBSuffix)) = (.ok [], s) := by
    simp only [Cloud.run, hlbs, List.filter_nil]
  obtain ⟨lb, hlb1, hlb2, hlb3⟩ : ∃ lb : OSLoadBalancer,
      (s.run (.loadbalancersCreate
        ⟨loadBalancerNameOf networkPrefix clusterName kubeapiLBSuffix, subnet.ID⟩)).1 = .ok lb ∧
      (s.run (.loadbalancersCreate
        ⟨loadBalancerNameOf networkPrefix clusterName kubeapiLBSuffix, subnet.ID⟩)).2.loadbalancers
        = s.loadbalancers ++ [lb] ∧ lb.ProvisioningStatus = "ACTIVE" := ⟨_, rfl, rfl, rfl⟩
  have hfind : findByID (fun l : OSLoadBalancer => l.ID) (s.run (.loadbalancersCreate
      ⟨loadBalancerNameOf networkPrefix clusterName kubeapiLBSuffix, subnet.ID⟩)).2.loadbalancers
      lb.ID = .ok lb := by
    rw [hlb2, hlbs]
    exact findByID_single _ lb
  obtain ⟨out, h1, h2, h3, h4⟩ := cloud_reconcileWithLoadBalancer
    ⟨(s.run (.loadbalancersCreate
        ⟨loadBalancerNameOf networkPrefix clusterName kubeapiLBSuffix, subnet.ID⟩)).2,
      [Call.loadbalancersList (loadBalancerNameOf networkPrefix clusterName kubeapiLBSuffix),
       Call.loadbalancersCreate
        ⟨loadBalancerNameOf networkPrefix clusterName kubeapiLBSuffix, subnet.ID⟩,
       Call.loadbalancersGet lb.ID]⟩
    (loadBalancerNameOf networkPrefix clusterName kubeapiLBSuffix) c lb lb net hnet hfaithful
    hfind hlb3 hfips hls hps hms hdistinct
  refine ⟨out, ?_, h2, ?_, h4⟩
  · rw [← h1]
    unfold ReconcileLoadBalancer checkIfLbExists
    simp only [beq_iff_eq, hext, hfip, hport, if_false]
    rw [cloud_call _ _ (by exact hfaithful), hrun1]
    simp only [hnet, hsub]
    rw [cloud_call _ _ (by exact hfaithful)]
    simp only [hlb1]
    rw [cloud_wait_active _ _ lb (by exact hfaithful) (by exact hfind) hlb3]
    simp
  · rw [h3]
    simp [createdResource]

/-- C16, witness: cluster `demo`, primary port 6443, additional port 6444,
over an empty cloud. -/
theorem ReconcileLoadBalancer_creates_one_triple_per_port_witness :
    freshLbPass.world.trace.filterMap createdResource =
      [("loadbalancer", "k8s-cluster-demo-kubeapi"), ("floatingip", "172.24.4.10"),
       ("listener", "k8s-cluster-demo-kubeapi-6443"), ("pool", "k8s-cluster-demo-kubeapi-6443"),
       ("monitor", "k8s-cluster-demo-kubeapi-6443"),
       ("listener", "k8s-cluster-demo-kubeapi-6444"), ("pool", "k8s-cluster-demo-kubeapi-6444"),
       ("monitor", "k8s-cluster-demo-kubeapi-6444")] ∧
    ∃ out, freshLbPass = .returned out ∧
      out.err = none ∧
      out.world.trace.filterMap createdResource =
        [("loadbalancer", loadBalancerNameOf "k8s" "demo" "kubeapi"),
         ("floatingip", "172.24.4.10")] ++
        ([6443, 6444] : List Int).flatMap (portTriple (loadBalancerNameOf "k8s" "demo" "kubeapi")) ∧
      ∃ net1 recorded, out.cluster.Status.Network = some net1 ∧
        net1.APIServerLoadBalancer = some recorded ∧
        recorded.IP = "172.24.4.10" :=
  ⟨by decide,
   ReconcileLoadBalancer_creates_one_triple_per_port "k8s" "kubeapi" "demo" lbReadyCluster {}
    { ID := "net-1", Name := "k8s-cluster-demo"
      Subnet := some { ID := "sub-1", Name := "k8s-cluster-demo", CIDR := "10.6.0.0/24" } }
    { ID := "sub-1", Name := "k8s-cluster-demo", CIDR := "10.6.0.0/24" }
    (by decide) (by decide) (by decide) rfl rfl rfl rfl rfl rfl rfl rfl (by decide)⟩

/-! ## C17: missing prerequisites of `ReconcileLoadBalancerMember` -/

/-- C17: for a control-plane machine, if `Status.Network`, its `Subnet` or its
`APIServerLoadBalancer` is nil, `ReconcileLoadBalancerMember` returns an error
and leaves backend and trace untouched; if all three are present and the pool
lookup of the primary port answers with no pool, it returns the error
`loadbalancer pool does not exist yet` right after that lookup, the only
request; the same holds at every port the loop over the ports reaches. -/
theorem ReconcileLoadBalancerMember_missing_prerequisite {σ : Type} (b : Backend σ) (networkPrefix kubeapiLBSuffix clusterName : String)
    (machine : Machine) (openStackMachine : OpenStackMachine) (c : OpenStackCluster)
    (ip : String) (w : World σ) (hcp : machine.IsControlPlane = true) :
    ((c.Status.Network = none ∨ ∃ net, c.Status.Network = some net ∧
        (net.Subnet = none ∨ net.APIServerLoadBalancer = none)) →
      ∃ e, ReconcileLoadBalancerMember b networkPrefix kubeapiLBSuffix clusterName machine
        openStackMachine c ip w = (some e, w)) ∧
    (∀ (net : Network) (subnet : Subnet) (lb : LoadBalancer) (s1 : σ),
      c.Status.Network = some net → net.Subnet = some subnet →
      net.APIServerLoadBalancer = some lb →
      b.exec w.st (.poolsList (lbPortObjectsNameOf
        (loadBalancerNameOf networkPrefix clusterName kubeapiLBSuffix)
        c.Spec.APIServerLoadBalancerPort) "") = (.ok [], s1) →
      ReconcileLoadBalancerMember b networkPrefix kubeapiLBSuffix clusterName machine
        openStackMachine c ip w =
        (some "loadbalancer pool does not exist yet",
          ⟨s1, w.trace ++ [.poolsList (lbPortObjectsNameOf
            (loadBalancerNameOf networkPrefix clusterName kubeapiLBSuffix)
            c.Spec.APIServerLoadBalancerPort) ""]⟩)) ∧
    (∀ (loadBalancerName lbID subnetID : String) (port : Int) (rest : List Int)
      (w0 : World σ) (s1 : σ),
      b.exec w0.st (.poolsList (lbPortObjectsNameOf loadBalancerName port) "") = (.ok [], s1) →
      reconcileMemberPorts b loadBalancerName openStackMachine.Name lbID subnetID ip
        (port :: rest) w0 =
        (some "loadbalancer pool does not exist yet",
          ⟨s1, w0.trace ++ [.poolsList (lbPortObjectsNameOf loadBalancerName port) ""]⟩)) := by
  refine ⟨?_, ?_, ?_⟩
  · rintro (h | ⟨net, h, h2 | h2⟩)
    · simp [ReconcileLoadBalancerMember, hcp, h]
    · simp [ReconcileLoadBalancerMember, hcp, h, h2]
    · cases hs : net.Subnet with
      | none => simp [ReconcileLoadBalancerMember, hcp, h, hs]
      | some subnet => simp [ReconcileLoadBalancerMember, hcp, h, hs, h2]
  · intro net subnet lb s1 hn hs hl hp
    simp only [ReconcileLoadBalancerMember, hcp, hn, hs, hl, Bool.not_true, Bool.false_eq_true,
      if_false]
    exact reconcileMemberPorts_no_pool b _ _ _ _ _ _ _ w s1 hp
  · intro loadBalancerName lbID subnetID port rest w0 s1 hp
    exact reconcileMemberPorts_no_pool b _ _ _ _ _ _ _ w0 s1 hp

/-- C17, witness: control-plane machine `cp0`; the cluster `demo` without a
subnet in the status, and the complete cluster over a cloud without pools. -/
theorem ReconcileLoadBalancerMember_missing_prerequisite_witness :
    (∃ e, ReconcileLoadBalancerMember cloudBackend "k8s" "kubeapi" "demo"
        { IsControlPlane := true } { Name := "cp0" } demoCluster "10.0.0.6" ⟨noPoolCloud, []⟩ =
      (some e, ⟨noPoolCloud, []⟩)) ∧
    ReconcileLoadBalancerMember cloudBackend "k8s" "kubeapi" "demo"
        { IsControlPlane := true } { Name := "cp0" } memberCluster "10.0.0.6" ⟨noPoolCloud, []⟩ =
      (some "loadbalancer pool does not exist yet",
        ⟨noPoolCloud, [] ++ [.poolsList (lbPortObjectsNameOf
          (loadBalancerNameOf "k8s" "demo" "kubeapi") 6443) ""]⟩) :=
  ⟨(ReconcileLoadBalancerMember_missing_prerequisite cloudBackend "k8s" "kubeapi" "demo"
      { IsControlPlane := true } { Name := "cp0" } demoCluster "10.0.0.6" ⟨noPoolCloud, []⟩
      rfl).1 (Or.inr ⟨{ ID := "net-1", Name := "k8s-cluster-demo" }, rfl, Or.inl rfl⟩),
   (ReconcileLoadBalancerMember_missing_prerequisite cloudBackend "k8s" "kubeapi" "demo"
      { IsControlPlane := true } { Name := "cp0" } memberCluster "10.0.0.6" ⟨noPoolCloud, []⟩
      rfl).2.1
      { ID := "net-1", Name := "k8s-cluster-demo"
        Subnet := some { ID := "sub-1", Name := "k8s-cluster-demo", CIDR := "10.6.0.0/24" }
        APIServerLoadBalancer := some { ID := "lb-1", Name := "k8s-cluster-demo-kubeapi" } }
      { ID := "sub-1", Name := "k8s-cluster-demo", CIDR := "10.6.0.0/24" }
      { ID := "lb-1", Name := "k8s-cluster-demo-kubeapi" } noPoolCloud rfl rfl rfl rfl⟩

/-! ## C18: `ReconcileNetwork` adopts -/

/-- C18: if the lookup by the name `<networkPrefix>-cluster-<clusterName>`
answers with exactly one network `n` of non-empty id, `ReconcileNetwork`
issues that lookup and nothing else (no create, no tag replacement), returns
nil and sets `Status.Network` to the record holding exactly the id and name of
`n`; a second pass on the result, the lookup answering the same, issues one
more lookup and leaves the same status. -/
theorem ReconcileNetwork_adopts {σ : Type} (b : Backend σ) (networkPrefix clusterName : String)
    (c : OpenStackCluster) (w : World σ) (n : OSNetwork) (s1 s2 : σ)
    (hl1 : b.exec w.st (.networksList (networkPrefix ++ "-cluster-" ++ clusterName)) =
      (.ok [n], s1))
    (hid : n.ID ≠ "")
    (hl2 : b.exec s1 (.networksList (networkPrefix ++ "-cluster-" ++ clusterName)) =
      (.ok [n], s2)) :
    ReconcileNetwork b networkPrefix clusterName c w =
      ⟨none, { c with Status := { c.Status with Network := some { ID := n.ID, Name := n.Name } } },
        ⟨s1, w.trace ++ [.networksList (networkPrefix ++ "-cluster-" ++ clusterName)]⟩⟩ ∧
    ReconcileNetwork b networkPrefix clusterName
        (ReconcileNetwork b networkPrefix clusterName c w).cluster
        (ReconcileNetwork b networkPrefix clusterName c w).world =
      ⟨none, { c with Status := { c.Status with Network := some { ID := n.ID, Name := n.Name } } },
        ⟨s2, w.trace ++ [.networksList (networkPrefix ++ "-cluster-" ++ clusterName),
          .networksList (networkPrefix ++ "-cluster-" ++ clusterName)]⟩⟩ := by
  have first : ∀ (c0 : OpenStackCluster) (w0 : World σ) (s : σ),
      b.exec w0.st (.networksList (networkPrefix ++ "-cluster-" ++ clusterName)) = (.ok [n], s) →
      ReconcileNetwork b networkPrefix clusterName c0 w0 =
        ⟨none, { c0 with Status := { c0.Status with
            Network := some { ID := n.ID, Name := n.Name } } },
          ⟨s, w0.trace ++ [.networksList (networkPrefix ++ "-cluster-" ++ clusterName)]⟩⟩ := by
    intro c0 w0 s h
    simp [ReconcileNetwork, getNetworkByName, call_eq b w0 _ _ _ h, hid]
  refine ⟨first c w s1 hl1, ?_⟩
  rw [first c w s1 hl1]
  rw [first _ ⟨s1, _⟩ s2 hl2]
  simp

/-- C18, witness: the reference backend holding the one network of `demo`. -/
theorem ReconcileNetwork_adopts_witness :
    ReconcileNetwork cloudBackend "k8s" "demo" newCluster ⟨oneNetworkCloud, []⟩ =
      ⟨none, { newCluster with Status := { newCluster.Status with
          Network := some { ID := "net-1", Name := "k8s-cluster-demo" } } },
        ⟨oneNetworkCloud, [] ++ [.networksList ("k8s" ++ "-cluster-" ++ "demo")]⟩⟩ ∧
    ReconcileNetwork cloudBackend "k8s" "demo"
        (ReconcileNetwork cloudBackend "k8s" "demo" newCluster ⟨oneNetworkCloud, []⟩).cluster
        (ReconcileNetwork cloudBackend "k8s" "demo" newCluster ⟨oneNetworkCloud, []⟩).world =
      ⟨none, { newCluster with Status := { newCluster.Status with
          Network := some { ID := "net-1", Name := "k8s-cluster-demo" } } },
        ⟨oneNetworkCloud, [] ++ [.networksList ("k8s" ++ "-cluster-" ++ "demo"),
          .networksList ("k8s" ++ "-cluster-" ++ "demo")]⟩⟩ :=
  ReconcileNetwork_adopts cloudBackend "k8s" "demo" newCluster ⟨oneNetworkCloud, []⟩
    { ID := "net-1", Name := "k8s-cluster-demo" } oneNetworkCloud oneNetworkCloud
    rfl (by decide) rfl

/-! ## C19: `reconcileGroup` -/

/-- C19: a successful `reconcileGroup d o` issues one `rules.Delete` per rule
of `o.Rules`, by id and in list order, then one `rules.Create` per rule of
`d.Rules` in list order, each request with `SecGroupID` and, where the desired
remote group was `"self"`, `RemoteGroupID` set to `o.ID`, every other field as
desired; the returned group has the id and name of `o` and as many rules as
`d`. -/
theorem reconcileGroup_deletes_then_recreates {σ : Type} (b : Backend σ) (d o g : SecurityGroup) (w w1 : World σ)
    (h : reconcileGroup b d o w = ((g, none), w1)) :
    w1.trace = w.trace ++ o.Rules.map (fun r => Call.rulesDelete r.ID) ++
        d.Rules.map (fun r => Call.rulesCreate (recreateOpts o.ID r)) ∧
      g.ID = o.ID ∧ g.Name = o.Name ∧ g.Rules.length = d.Rules.length := by
  unfold reconcileGroup at h
  rcases hd : deleteRules b o.Rules w with ⟨rd, wa⟩
  rw [hd] at h
  cases rd with
  | some e => simp at h
  | none =>
    have td := deleteRules_ok b o.Rules w wa hd
    simp only at h
    rcases hc : createRules b o.ID d.Rules [] wa with ⟨rc, wb⟩
    rw [hc] at h
    cases rc with
    | error e => simp at h
    | ok created =>
      obtain ⟨i1, i2⟩ := createRules_ok b o.ID d.Rules [] wa wb created hc
      simp only [Prod.mk.injEq, and_true] at h
      obtain ⟨rfl, rfl⟩ := h
      exact ⟨by rw [i1, td], rfl, rfl, by simpa using i2⟩

/-- C19, witness: the stored group `sg-all` with one stale rule, brought to
the desired global group of `demo` on the reference backend. -/
theorem reconcileGroup_deletes_then_recreates_witness :
    staleGroupPass.2.trace = [] ++
        (convertOSSecGroupToConfigSecGroup staleGroup).Rules.map
          (fun r => Call.rulesDelete r.ID) ++
        (generateGlobalGroup "demo").Rules.map
          (fun r => Call.rulesCreate
            (recreateOpts (convertOSSecGroupToConfigSecGroup staleGroup).ID r)) ∧
      staleGroupPass.1.1.ID = (convertOSSecGroupToConfigSecGroup staleGroup).ID ∧
      staleGroupPass.1.1.Name = (convertOSSecGroupToConfigSecGroup staleGroup).Name ∧
      staleGroupPass.1.1.Rules.length = (generateGlobalGroup "demo").Rules.length :=
  reconcileGroup_deletes_then_recreates cloudBackend (generateGlobalGroup "demo")
    (convertOSSecGroupToConfigSecGroup staleGroup) staleGroupPass.1.1
    ⟨{ groups := [staleGroup] }, []⟩ staleGroupPass.2
    (Prod.ext (Prod.ext rfl (by decide)) rfl)

/-! ## C20: one protocol changed -/

/-- C20, the claim as stated fails: the two desired rules differ under
`Equal` (placeholder against the literal id), the observed rules are the
resolved desired rules with the protocol of one of them replaced, and
`matchGroups` still answers true, because both desired rules resolve to the
rule the observed group kept. -/
theorem matchGroups_protocol_changed_still_matches :
    distinctRules selfAndLiteralGroup.Rules ∧
    resolvedRules selfAndLiteralGroup selfAndUdpObserved =
      [{ selfRule with RemoteGroupID := "sg-all" }, { selfRule with RemoteGroupID := "sg-all" }] ∧
    selfAndUdpObserved.Rules =
      [{ selfRule with RemoteGroupID := "sg-all" },
       { ({ selfRule with RemoteGroupID := "sg-all" } : SecurityGroupRule) with
          Protocol := "udp" }] ∧
    matchGroups selfAndLiteralGroup selfAndUdpObserved = true := by
  decide

/-- C20, amended: for every desired group `d` and observed group `o` such
that the self-resolved rules of `d` are pairwise distinct under `Equal`, if
the rules of `o` are a permutation of those resolved rules except that one
rule has its `Protocol` replaced by a different value, `matchGroups d o` is
false; the resolved rules of `generateControlPlaneGroup` and of
`generateGlobalGroup` are pairwise distinct for every cluster name and every
observed id. -/
theorem matchGroups_protocol_changed (clusterName : String) (d o : SecurityGroup)
    (x : SecurityGroupRule) (rest : List SecurityGroupRule) (proto : String)
    (hdist : distinctRules (resolvedRules d o))
    (hd : (resolvedRules d o).Perm (x :: rest))
    (ho : o.Rules.Perm ({ x with Protocol := proto } :: rest))
    (hproto : proto ≠ x.Protocol) :
    matchGroups d o = false ∧
    distinctRules (resolvedRules (generateControlPlaneGroup clusterName) o) ∧
    distinctRules (resolvedRules (generateGlobalGroup clusterName) o) := by
  refine ⟨?_, generated_groups_distinct clusterName o⟩
  rw [← Bool.not_eq_true, matchGroups_iff]
  rintro ⟨-, hsub⟩
  rw [distinctRules_iff] at hdist
  have hnodup : ((x :: rest).map ruleKey).Nodup := (hd.map ruleKey).nodup_iff.1 hdist
  rw [List.map_cons, List.nodup_cons] at hnodup
  have hx : ruleKey x ∈ (resolvedRules d o).map ruleKey :=
    (hd.map ruleKey).symm.subset (by simp)
  have := (ho.map ruleKey).subset (hsub _ hx)
  rw [List.map_cons, List.mem_cons] at this
  rcases this with h | h
  · apply hproto
    simp only [ruleKey, Prod.mk.injEq] at h
    exact h.2.2.2.2.1.symm
  · exact hnodup.1 h

/-- C20, witness: the global group of `demo` against the observed group whose
rules are reversed and whose tcp rule carries sctp; the resolved rules of the
generated group are pairwise distinct. -/
theorem matchGroups_protocol_changed_witness :
    matchGroups (generateGlobalGroup "demo") observedGlobalSctp = false ∧
    distinctRules (resolvedRules (generateControlPlaneGroup "demo") observedGlobalSctp) ∧
    distinctRules (resolvedRules (generateGlobalGroup "demo") observedGlobalSctp) :=
  matchGroups_protocol_changed "demo" (generateGlobalGroup "demo") observedGlobalSctp
    { selfRule with RemoteGroupID := "sg-all" }
    (resolvedRules (generateGlobalGroup "demo") { ID := "sg-all" }).tail "sctp"
    (generated_groups_distinct "demo" observedGlobalSctp).2
    (List.Perm.refl _)
    ((List.perm_append_comm).trans ((List.reverse_perm _).cons _))
    (by decide)

/-! ## C21: `DeleteLoadBalancer` without a load balancer -/

/-- C21, the code at the failing input.  The first teardown of the load
balancer of `demo` returns nil and leaves no load balancer; the second
invocation looks the name up, finds nothing and panics on `lb.ID` instead of
returning.  The same happens on an empty cloud for a cluster that never had
a load balancer, with cascading delete enabled or not; the only request
issued is the lookup. -/
theorem DeleteLoadBalancer_panics_when_absent :
    firstTeardown.err? = some none ∧
    firstTeardown.world.st.loadbalancers = [] ∧
    secondTeardown =
      .panicked "nil pointer dereference: lb.ID"
        ⟨firstTeardown.world.st, [.loadbalancersList "k8s-cluster-demo-kubeapi"]⟩ ∧
    secondTeardown.err? = none ∧
    DeleteLoadBalancer cloudBackend "k8s" "kubeapi" "demo" octaviaCluster ⟨{}, []⟩ =
      .panicked "nil pointer dereference: lb.ID"
        ⟨{}, [.loadbalancersList "k8s-cluster-demo-kubeapi"]⟩ ∧
    DeleteLoadBalancer cloudBackend "k8s" "kubeapi" "demo" newCluster ⟨{}, []⟩ =
      .panicked "nil pointer dereference: lb.ID"
        ⟨{}, [.loadbalancersList "k8s-cluster-demo-kubeapi"]⟩ :=
  ⟨by decide, by decide, rfl, by decide, rfl, rfl⟩

/-! ## C22: `DeleteLoadBalancerMember` on an incomplete status -/

/-- C22, the code at the failing input.  For the control-plane machine `cp0`
and a status without a network, or with a network without a load-balancer
record, `DeleteLoadBalancerMember` panics on the read of
`Status.Network.APIServerLoadBalancer.ID` before any request, where
`ReconcileLoadBalancerMember` returns an error on the same status. -/
theorem DeleteLoadBalancerMember_panics_on_incomplete_status :
    DeleteLoadBalancerMember cloudBackend "k8s" "kubeapi" "demo" { IsControlPlane := true }
        (some { Name := "cp0" }) newCluster ⟨memberCloud, []⟩ =
      .panicked "nil pointer dereference: Status.Network" ⟨memberCloud, []⟩ ∧
    DeleteLoadBalancerMember cloudBackend "k8s" "kubeapi" "demo" { IsControlPlane := true }
        (some { Name := "cp0" }) demoCluster ⟨memberCloud, []⟩ =
      .panicked "nil pointer dereference: Status.Network.APIServerLoadBalancer"
        ⟨memberCloud, []⟩ ∧
    ReconcileLoadBalancerMember cloudBackend "k8s" "kubeapi" "demo" { IsControlPlane := true }
        { Name := "cp0" } newCluster "10.0.0.6" ⟨memberCloud, []⟩ =
      (some "network is not yet available in openStackCluster.Status", ⟨memberCloud, []⟩) ∧
    (DeleteLoadBalancerMember cloudBackend "k8s" "kubeapi" "demo" { IsControlPlane := true }
        (some { Name := "cp0" }) memberCluster ⟨memberCloud, []⟩).err? = some none :=
  ⟨rfl, rfl, rfl, by decide⟩

end CAPO
